import Mathlib

/-!
# CharacterString Value objects (`src/bacnet/basic/object/csv.c`)

A shallow embedding of the CharacterString Value object of the BACnet stack
and a verification of its property access contract.

* The five static arrays of `csv.c` form the `Store`; every function that
  reads or writes them is a function of the store, and the functions that
  write return the new store.
* `MAX_CHARACTERSTRING_VALUES` is a build-time setting (`#ifndef`, default 1)
  and `CHARACTER_STRING_CAPACITY` comes from a header outside this file; both
  are fields of `Config`.
* The character string type, the tag codec, the write type check and the
  enumeration values live in other files of the stack (`bacstr.c`,
  `bacdcode.c`, `bacapp.c`, `wp.c`, `bacenum.h`). They are modelled here from
  the specification; each such definition says so in its doc comment.
* Bytes are natural numbers below 256, a buffer is a list of bytes.
* A character string is a list of characters; the values of the C type are
  the lists within `CHARACTER_STRING_CAPACITY`, and the decoder rejects a
  longer string as a value larger than it can handle.
-/

namespace Csv

/-! ## Enumeration values (bacenum.h, bacdef.h) -/

/-- Modelled from the spec: property identifier Description of `bacenum.h`. -/
def PROP_DESCRIPTION : Nat := 28
/-- Modelled from the spec: property identifier EventState of `bacenum.h`. -/
def PROP_EVENT_STATE : Nat := 36
/-- Modelled from the spec: property identifier ObjectIdentifier of `bacenum.h`. -/
def PROP_OBJECT_IDENTIFIER : Nat := 75
/-- Modelled from the spec: property identifier ObjectName of `bacenum.h`. -/
def PROP_OBJECT_NAME : Nat := 77
/-- Modelled from the spec: property identifier ObjectType of `bacenum.h`. -/
def PROP_OBJECT_TYPE : Nat := 79
/-- Modelled from the spec: property identifier OutOfService of `bacenum.h`. -/
def PROP_OUT_OF_SERVICE : Nat := 81
/-- Modelled from the spec: property identifier PresentValue of `bacenum.h`. -/
def PROP_PRESENT_VALUE : Nat := 85
/-- Modelled from the spec: property identifier StateText of `bacenum.h`, an
array property of other object types that this object does not have. -/
def PROP_STATE_TEXT : Nat := 110
/-- Modelled from the spec: property identifier StatusFlags of `bacenum.h`. -/
def PROP_STATUS_FLAGS : Nat := 111

/-- Modelled from the spec: the object type of this object class in `bacenum.h`. -/
def OBJECT_CHARACTERSTRING_VALUE : Nat := 40
/-- Modelled from the spec: the event state "normal" of `bacenum.h`. -/
def EVENT_STATE_NORMAL : Nat := 0

/-- Modelled from the spec: error class Object of `bacenum.h`. -/
def ERROR_CLASS_OBJECT : Nat := 1
/-- Modelled from the spec: error class Property of `bacenum.h`. -/
def ERROR_CLASS_PROPERTY : Nat := 2
/-- Modelled from the spec: error code InvalidDataType of `bacenum.h`. -/
def ERROR_CODE_INVALID_DATA_TYPE : Nat := 9
/-- Modelled from the spec: error code UnknownObject of `bacenum.h`. -/
def ERROR_CODE_UNKNOWN_OBJECT : Nat := 31
/-- Modelled from the spec: error code UnknownProperty of `bacenum.h`. -/
def ERROR_CODE_UNKNOWN_PROPERTY : Nat := 32
/-- Modelled from the spec: error code ValueOutOfRange of `bacenum.h`. -/
def ERROR_CODE_VALUE_OUT_OF_RANGE : Nat := 37
/-- Modelled from the spec: error code WriteAccessDenied of `bacenum.h`. -/
def ERROR_CODE_WRITE_ACCESS_DENIED : Nat := 40
/-- Modelled from the spec: error code PropertyIsNotAnArray of `bacenum.h`. -/
def ERROR_CODE_PROPERTY_IS_NOT_AN_ARRAY : Nat := 50

/-- Modelled from the spec: application tag Boolean of `bacenum.h`. -/
def BACNET_APPLICATION_TAG_BOOLEAN : Nat := 1
/-- Modelled from the spec: application tag CharacterString of `bacenum.h`. -/
def BACNET_APPLICATION_TAG_CHARACTER_STRING : Nat := 7
/-- Modelled from the spec: application tag BitString of `bacenum.h`. -/
def BACNET_APPLICATION_TAG_BIT_STRING : Nat := 8
/-- Modelled from the spec: application tag Enumerated of `bacenum.h`. -/
def BACNET_APPLICATION_TAG_ENUMERATED : Nat := 9
/-- Modelled from the spec: application tag ObjectIdentifier of `bacenum.h`. -/
def BACNET_APPLICATION_TAG_OBJECT_ID : Nat := 12

/-- Modelled from the spec: position of the in-alarm bit in the status flags
(`bacenum.h`); the order in-alarm, fault, overridden, out-of-service is fixed
by the protocol. -/
def STATUS_FLAG_IN_ALARM : Nat := 0
/-- Modelled from the spec: position of the fault bit in the status flags. -/
def STATUS_FLAG_FAULT : Nat := 1
/-- Modelled from the spec: position of the overridden bit in the status flags. -/
def STATUS_FLAG_OVERRIDDEN : Nat := 2
/-- Modelled from the spec: position of the out-of-service bit in the status flags. -/
def STATUS_FLAG_OUT_OF_SERVICE : Nat := 3

/-- Modelled from the spec: character set code of ANSI X3.4 strings, the
encoding `characterstring_init_ansi` of `bacstr.c` gives a string. -/
def CHARACTER_ANSI_X34 : Nat := 0

/-- Modelled from the spec: the array index that stands for "all" (`bacdef.h`),
the largest 32-bit value. -/
def BACNET_ARRAY_ALL : Nat := 4294967295

/-- Modelled from the spec: the status an encoder or decoder returns instead of
a length when it fails (`bacdef.h`). -/
def BACNET_STATUS_ERROR : Int := -1

/-! ## Build configuration -/

/-- The two sizes the object is built with. `MAX_CHARACTERSTRING_VALUES` is
the number of demo objects (`csv.c` lines 42-45 give it the default 1 unless
the build defines it); `CHARACTER_STRING_CAPACITY` is the largest number of
characters a `BACNET_CHARACTER_STRING` holds (`bacstr.h`, not in this file). -/
structure Config where
  MAX_CHARACTERSTRING_VALUES : Nat
  CHARACTER_STRING_CAPACITY : Nat
deriving DecidableEq

/-! ## Character strings and bit strings (bacstr.c) -/

/-- Modelled from the spec: the `BACNET_CHARACTER_STRING` of `bacstr.h`, a
character set code and the characters; the `length` field of the C struct is
the length of `value`. The C type holds at most `CHARACTER_STRING_CAPACITY`
characters: its values are the values of this structure whose `value` is
within the capacity. The decoder yields only such values, and a theorem about
an arbitrary candidate string says so in a hypothesis. -/
structure BACNET_CHARACTER_STRING where
  encoding : Nat
  value : List Nat
deriving DecidableEq

/-- Modelled from the spec: the `BACNET_BIT_STRING` of `bacstr.h`, the bits in
use, bit 0 first. -/
structure BACNET_BIT_STRING where
  bits : List Bool
deriving DecidableEq

/-- Modelled from the spec: `characterstring_same` of `bacstr.c`, true when the
two strings have the same encoding, the same length and the same bytes. -/
def characterstring_same (dest src : BACNET_CHARACTER_STRING) : Bool :=
  src.value.length == dest.value.length && src.encoding == dest.encoding &&
    src.value == dest.value

/-- Modelled from the spec: `characterstring_copy` of `bacstr.c`. The copy
succeeds when the source fits the string capacity and then the destination
equals the source; a source that is too long is rejected ("store failure
(e.g., length)") and the destination is taken to stay as it was. -/
def characterstring_copy (cfg : Config) (dest src : BACNET_CHARACTER_STRING) :
    Bool × BACNET_CHARACTER_STRING :=
  if src.value.length ≤ cfg.CHARACTER_STRING_CAPACITY then (true, src) else (false, dest)

/-- The characters of a C string held in a character array: the bytes before
the first NUL. -/
def c_string (chars : List Nat) : List Nat :=
  chars.takeWhile (fun c => c != 0)

/-- Modelled from the spec: `characterstring_init_ansi` of `bacstr.c`. The
text `none` is the null pointer and gives the empty string; a text within the
capacity gives the ANSI string of its characters; a longer one is rejected and
the destination is taken to stay as it was. -/
def characterstring_init_ansi (cfg : Config) (char_string : BACNET_CHARACTER_STRING)
    (value : Option (List Nat)) : Bool × BACNET_CHARACTER_STRING :=
  match value with
  | none => (true, { encoding := CHARACTER_ANSI_X34, value := [] })
  | some chars =>
    if (c_string chars).length ≤ cfg.CHARACTER_STRING_CAPACITY then
      (true, { encoding := CHARACTER_ANSI_X34, value := c_string chars })
    else (false, char_string)

/-- Modelled from the spec: `bitstring_init` of `bacstr.c`, the bit string with
no bit in use. -/
def bitstring_init : BACNET_BIT_STRING := { bits := [] }

/-- Modelled from the spec: `bitstring_set_bit` of `bacstr.c`. The bits in use
grow to include `bit_number` (new bits are clear) and that bit takes `value`. -/
def bitstring_set_bit (bit_string : BACNET_BIT_STRING) (bit_number : Nat) (value : Bool) :
    BACNET_BIT_STRING :=
  { bits := (bit_string.bits ++
      List.replicate (bit_number + 1 - bit_string.bits.length) false).set bit_number value }

/-! ## Tag codec (bacdcode.c, bacapp.c) -/

/-- Modelled from the spec: the decoded application value of `bacapp.h`
(`BACNET_APPLICATION_DATA_VALUE`), one alternative for each primitive kind the
codec supports; the alternative is the member of the C union that is in use. -/
inductive BACNET_APPLICATION_DATA_VALUE where
  | Boolean (b : Bool)
  | Character_String (s : BACNET_CHARACTER_STRING)
  | Bit_String (bs : BACNET_BIT_STRING)
  | Enumerated (n : Nat)
  | Object_Id (object_type : Nat) (object_instance : Nat)
deriving DecidableEq

/-- Modelled from the spec: the `tag` field of a decoded application value. -/
def BACNET_APPLICATION_DATA_VALUE.tag : BACNET_APPLICATION_DATA_VALUE → Nat
  | .Boolean _ => BACNET_APPLICATION_TAG_BOOLEAN
  | .Character_String _ => BACNET_APPLICATION_TAG_CHARACTER_STRING
  | .Bit_String _ => BACNET_APPLICATION_TAG_BIT_STRING
  | .Enumerated _ => BACNET_APPLICATION_TAG_ENUMERATED
  | .Object_Id _ _ => BACNET_APPLICATION_TAG_OBJECT_ID

/-- Modelled from the spec: the member `type.Character_String` of the decoded
value of `bacapp.h`; it is read only after the tag has been checked. -/
def BACNET_APPLICATION_DATA_VALUE.type_Character_String :
    BACNET_APPLICATION_DATA_VALUE → BACNET_CHARACTER_STRING
  | .Character_String s => s
  | _ => { encoding := 0, value := [] }

/-- Modelled from the spec: the member `type.Boolean` of the decoded value of
`bacapp.h`; it is read only after the tag has been checked. -/
def BACNET_APPLICATION_DATA_VALUE.type_Boolean : BACNET_APPLICATION_DATA_VALUE → Bool
  | .Boolean b => b
  | _ => false

/-- Modelled from the spec: the unsigned decoders of `bacdcode.c`, the
big-endian value of a list of bytes. -/
def decode_unsigned (bytes : List Nat) : Nat :=
  bytes.foldl (fun acc b => acc * 256 + b) 0

/-- Modelled from the spec: `encode_unsigned16` of `bacdcode.c`, the two bytes
of a 16-bit value, most significant first. -/
def encode_unsigned16 (n : Nat) : List Nat :=
  [n / 256 % 256, n % 256]

/-- Modelled from the spec: `encode_unsigned32` of `bacdcode.c`, the four bytes
of a 32-bit value, most significant first. -/
def encode_unsigned32 (n : Nat) : List Nat :=
  [n / 16777216 % 256, n / 65536 % 256, n / 256 % 256, n % 256]

/-- Modelled from the spec: `encode_tag` of `bacdcode.c` for an application
tag (tag numbers 0 to 14). The tag header is one byte holding the tag number
and, when it is at most 4, the length; a longer length follows explicitly in
one, two or four bytes. -/
def encode_tag (tag_number : Nat) (len_value_type : Nat) : List Nat :=
  if len_value_type ≤ 4 then [tag_number * 16 + len_value_type]
  else if len_value_type ≤ 253 then [tag_number * 16 + 5, len_value_type]
  else if len_value_type ≤ 65535 then
    [tag_number * 16 + 5, 254] ++ encode_unsigned16 len_value_type
  else [tag_number * 16 + 5, 255] ++ encode_unsigned32 len_value_type

/-- Modelled from the spec: `decode_tag_number_and_value` of `bacdcode.c`,
bounds-checked: the bytes of the tag header, the tag number and the length (or
value) it declares; `none` when the buffer ends inside the header. -/
def decode_tag_number_and_value (apdu : List Nat) : Option (Nat × Nat × Nat) :=
  match apdu with
  | [] => none
  | b0 :: rest =>
    if b0 % 8 = 5 then
      match rest with
      | [] => none
      | l :: rest2 =>
        if l = 255 then
          match rest2 with
          | b3 :: b2 :: b1 :: b00 :: _ => some (6, b0 / 16, decode_unsigned [b3, b2, b1, b00])
          | _ => none
        else if l = 254 then
          match rest2 with
          | b1 :: b00 :: _ => some (4, b0 / 16, decode_unsigned [b1, b00])
          | _ => none
        else some (2, b0 / 16, l)
    else some (1, b0 / 16, b0 % 8)

/-- Modelled from the spec: one byte of an encoded bit string (`bacdcode.c`),
made of the first eight bits of a list, first bit most significant, missing
bits clear. -/
def bits_to_byte (bits : List Bool) : Nat :=
  (List.range 8).foldl (fun acc i => acc * 2 + (if bits.getD i false then 1 else 0)) 0

/-- Modelled from the spec: the eight bits of a byte of an encoded bit string
(`bacdcode.c`), most significant first. -/
def byte_to_bits (b : Nat) : List Bool :=
  (List.range 8).map (fun i => b / 2 ^ (7 - i) % 2 == 1)

/-- Modelled from the spec: the bytes that carry a bit string (`bacdcode.c`):
eight bits to a byte, bit 0 in the most significant position of the first
byte. -/
def bitstring_bytes (bit_string : BACNET_BIT_STRING) : List Nat :=
  (List.range ((bit_string.bits.length + 7) / 8)).map
    (fun k => bits_to_byte (bit_string.bits.drop (8 * k)))

/-- Modelled from the spec: the value decoders of `bacapp.c`
(`bacapp_decode_data`), bounds-checked. `apdu` is what follows the tag header.
The result is the number of value bytes and the value; `none` when the buffer
is shorter than the declared length, when the length does not fit the kind's
shape, when a character string has more characters than a
`BACNET_CHARACTER_STRING` holds ("a value larger than we can handle", csv.c
line 575), or when the tag is not one of the five supported kinds. -/
def bacapp_decode_data (cfg : Config) (apdu : List Nat)
    (tag_data_type len_value_type : Nat) :
    Option (Nat × BACNET_APPLICATION_DATA_VALUE) :=
  if tag_data_type = BACNET_APPLICATION_TAG_BOOLEAN then
    if len_value_type ≤ 1 then some (0, .Boolean (len_value_type == 1)) else none
  else if apdu.length < len_value_type then none
  else if tag_data_type = BACNET_APPLICATION_TAG_ENUMERATED then
    if 1 ≤ len_value_type ∧ len_value_type ≤ 4 then
      some (len_value_type, .Enumerated (decode_unsigned (apdu.take len_value_type)))
    else none
  else if tag_data_type = BACNET_APPLICATION_TAG_OBJECT_ID then
    if len_value_type = 4 then
      some (4, .Object_Id (decode_unsigned (apdu.take 4) / 4194304)
        (decode_unsigned (apdu.take 4) % 4194304))
    else none
  else if tag_data_type = BACNET_APPLICATION_TAG_BIT_STRING then
    match apdu.take len_value_type with
    | [] => none
    | unused :: bytes =>
      if unused ≤ 7 ∧ unused ≤ 8 * bytes.length then
        some (len_value_type,
          .Bit_String { bits := (bytes.flatMap byte_to_bits).take (8 * bytes.length - unused) })
      else none
  else if tag_data_type = BACNET_APPLICATION_TAG_CHARACTER_STRING then
    match apdu.take len_value_type with
    | [] => none
    | encoding :: chars =>
      if chars.length ≤ cfg.CHARACTER_STRING_CAPACITY then
        some (len_value_type, .Character_String { encoding := encoding, value := chars })
      else none
  else none

/-- Modelled from the spec: `bacapp_decode_application_data` of `bacapp.c`, the
decoder of the write dispatcher. It reads at most `max_apdu_len` bytes of
`apdu` and gives the bytes consumed and the decoded value; `none` is the
negative length of the C function: the buffer is too short, the tag header is
inconsistent (a context tag, an opening or closing mark), the value is larger
than its C type holds, or the tag denotes a kind the codec does not handle. -/
def bacapp_decode_application_data (cfg : Config) (apdu : List Nat) (max_apdu_len : Nat) :
    Option (Nat × BACNET_APPLICATION_DATA_VALUE) :=
  match apdu.take max_apdu_len with
  | [] => none
  | b0 :: rest =>
    if b0 / 8 % 2 = 1 ∨ 6 ≤ b0 % 8 then none
    else
      match decode_tag_number_and_value (b0 :: rest) with
      | none => none
      | some (tag_len, tag_number, len_value_type) =>
        match bacapp_decode_data cfg ((b0 :: rest).drop tag_len) tag_number
            len_value_type with
        | none => none
        | some (decode_len, value) => some (tag_len + decode_len, value)

/-- Modelled from the spec: what every encoder of `bacdcode.c` does with its
bytes. They are written at the start of the output buffer, where they replace
what was there, and their number is returned. -/
def apdu_put (apdu : List Nat) (bytes : List Nat) : Int × List Nat :=
  ((bytes.length : Int), bytes ++ apdu.drop bytes.length)

/-- Modelled from the spec: the bytes of an application-tagged object
identifier: tag 12 with length 4, then 10 bits of object type and 22 bits of
instance. -/
def application_object_id_bytes (object_type object_instance : Nat) : List Nat :=
  encode_tag BACNET_APPLICATION_TAG_OBJECT_ID 4 ++
    encode_unsigned32 (object_type % 1024 * 4194304 + object_instance % 4194304)

/-- Modelled from the spec: the bytes of an application-tagged enumerated
value: tag 9 and the value in the fewest bytes (one to four), most significant
first. -/
def application_enumerated_bytes (value : Nat) : List Nat :=
  if value < 256 then encode_tag BACNET_APPLICATION_TAG_ENUMERATED 1 ++ [value]
  else if value < 65536 then
    encode_tag BACNET_APPLICATION_TAG_ENUMERATED 2 ++ encode_unsigned16 value
  else if value < 16777216 then
    encode_tag BACNET_APPLICATION_TAG_ENUMERATED 3 ++ (encode_unsigned32 value).drop 1
  else encode_tag BACNET_APPLICATION_TAG_ENUMERATED 4 ++ encode_unsigned32 value

/-- Modelled from the spec: the byte of an application-tagged Boolean: tag 1
with the value in the place of the length. -/
def application_boolean_bytes (boolean_value : Bool) : List Nat :=
  encode_tag BACNET_APPLICATION_TAG_BOOLEAN (if boolean_value then 1 else 0)

/-- Modelled from the spec: the bytes of an application-tagged bit string: tag
8, the number of unused bits of the last byte, then the bits. -/
def application_bitstring_bytes (bit_string : BACNET_BIT_STRING) : List Nat :=
  encode_tag BACNET_APPLICATION_TAG_BIT_STRING (1 + (bitstring_bytes bit_string).length) ++
    (8 * (bitstring_bytes bit_string).length - bit_string.bits.length) ::
      bitstring_bytes bit_string

/-- Modelled from the spec: the bytes of an application-tagged character
string: tag 7 with the length of what follows, the character set code, then the
characters. -/
def application_character_string_bytes (char_string : BACNET_CHARACTER_STRING) : List Nat :=
  encode_tag BACNET_APPLICATION_TAG_CHARACTER_STRING (1 + char_string.value.length) ++
    char_string.encoding :: char_string.value

/-- Modelled from the spec: `encode_application_object_id` of `bacdcode.c`. -/
def encode_application_object_id (apdu : List Nat) (object_type object_instance : Nat) :
    Int × List Nat :=
  apdu_put apdu (application_object_id_bytes object_type object_instance)

/-- Modelled from the spec: `encode_application_enumerated` of `bacdcode.c`. -/
def encode_application_enumerated (apdu : List Nat) (value : Nat) : Int × List Nat :=
  apdu_put apdu (application_enumerated_bytes value)

/-- Modelled from the spec: `encode_application_boolean` of `bacdcode.c`. -/
def encode_application_boolean (apdu : List Nat) (boolean_value : Bool) : Int × List Nat :=
  apdu_put apdu (application_boolean_bytes boolean_value)

/-- Modelled from the spec: `encode_application_bitstring` of `bacdcode.c`. -/
def encode_application_bitstring (apdu : List Nat) (bit_string : BACNET_BIT_STRING) :
    Int × List Nat :=
  apdu_put apdu (application_bitstring_bytes bit_string)

/-- Modelled from the spec: `encode_application_character_string` of
`bacdcode.c`. -/
def encode_application_character_string (apdu : List Nat)
    (char_string : BACNET_CHARACTER_STRING) : Int × List Nat :=
  apdu_put apdu (application_character_string_bytes char_string)

/-! ## Requests (rp.h, wp.h) -/

/-- Modelled from the spec: the read request `BACNET_READ_PROPERTY_DATA` of
`rp.h`. `application_data` is the output buffer (`none` is the null pointer)
and `application_data_len` its declared size; `error_class` and `error_code`
are written by the callee on failure. -/
structure BACNET_READ_PROPERTY_DATA where
  object_type : Nat
  object_instance : Nat
  object_property : Nat
  array_index : Nat
  application_data : Option (List Nat)
  application_data_len : Nat
  error_class : Nat
  error_code : Nat
deriving DecidableEq

/-- Modelled from the spec: the write request `BACNET_WRITE_PROPERTY_DATA` of
`wp.h`. `application_data` holds the payload and `application_data_len` its
declared length; `error_class` and `error_code` are written by the callee on
failure. -/
structure BACNET_WRITE_PROPERTY_DATA where
  object_type : Nat
  object_instance : Nat
  object_property : Nat
  array_index : Nat
  application_data : List Nat
  application_data_len : Nat
  priority : Nat
  error_class : Nat
  error_code : Nat
deriving DecidableEq

/-- Modelled from the spec: `write_property_type_valid` of `wp.c`. The decoded
tag must be the expected one; a mismatch gives false and the error
(Property, InvalidDataType). -/
def write_property_type_valid (wp_data : BACNET_WRITE_PROPERTY_DATA)
    (value : BACNET_APPLICATION_DATA_VALUE) (expected_tag : Nat) :
    Bool × BACNET_WRITE_PROPERTY_DATA :=
  if value.tag ≠ expected_tag then
    (false, { wp_data with
      error_class := ERROR_CLASS_PROPERTY, error_code := ERROR_CODE_INVALID_DATA_TYPE })
  else (true, wp_data)

/-! ## The object store (csv.c lines 47-53) -/

/-- The static arrays of `csv.c`, indexed by object index. Only the indices
below `MAX_CHARACTERSTRING_VALUES` exist in C; no function below reads or
writes another one. A name or description is a 64-byte character array,
indexed by byte position (positions below 64). -/
structure Store where
  Present_Value : Nat → BACNET_CHARACTER_STRING
  Out_Of_Service : Nat → Bool
  Object_Name : Nat → Nat → Nat
  Object_Description : Nat → Nat → Nat
  Changed : Nat → Bool

/-- The 64 bytes of a name or description array, as the buffer a `char *` to
it points at. -/
def char_array (a : Nat → Nat) : List Nat :=
  (List.range 64).map a

/-! ## The object functions (csv.c) -/

/-- `CharacterString_Value_Instance_To_Index` (csv.c lines 118-127). -/
def CharacterString_Value_Instance_To_Index (cfg : Config) (object_instance : Nat) : Nat :=
  if object_instance < cfg.MAX_CHARACTERSTRING_VALUES then object_instance
  else cfg.MAX_CHARACTERSTRING_VALUES

/-- `CharacterString_Value_Index_To_Instance` (csv.c lines 138-141). -/
def CharacterString_Value_Index_To_Instance (index : Nat) : Nat :=
  index

/-- `CharacterString_Value_Count` (csv.c lines 148-151). -/
def CharacterString_Value_Count (cfg : Config) : Nat :=
  cfg.MAX_CHARACTERSTRING_VALUES

/-- `CharacterString_Value_Valid_Instance` (csv.c lines 162-172). -/
def CharacterString_Value_Valid_Instance (cfg : Config) (object_instance : Nat) : Bool :=
  if CharacterString_Value_Instance_To_Index cfg object_instance
      < cfg.MAX_CHARACTERSTRING_VALUES then true
  else false

/-- `CharacterString_Value_Present_Value` (csv.c lines 184-196). `object_name`
is the string the caller's pointer refers to (the pointer is taken to be
non-null, as it is at its call in this file); the result is the status and
that string after the call. -/
def CharacterString_Value_Present_Value (cfg : Config) (st : Store) (object_instance : Nat)
    (object_name : BACNET_CHARACTER_STRING) : Bool × BACNET_CHARACTER_STRING :=
  let index := CharacterString_Value_Instance_To_Index cfg object_instance
  if index < cfg.MAX_CHARACTERSTRING_VALUES then
    characterstring_copy cfg object_name (st.Present_Value index)
  else (false, object_name)

/-- `CharacterString_Value_Present_Value_Set` (csv.c lines 207-222): the change
flag is raised when the stored value is not the same as the new one, then the
new value is copied and the status of the copy returned. -/
def CharacterString_Value_Present_Value_Set (cfg : Config) (st : Store)
    (object_instance : Nat) (object_name : BACNET_CHARACTER_STRING) : Bool × Store :=
  let index := CharacterString_Value_Instance_To_Index cfg object_instance
  if index < cfg.MAX_CHARACTERSTRING_VALUES then
    let st1 : Store :=
      if !characterstring_same (st.Present_Value index) object_name then
        { st with Changed := Function.update st.Changed index true }
      else st
    let r := characterstring_copy cfg (st1.Present_Value index) object_name
    (r.1, { st1 with Present_Value := Function.update st1.Present_Value index r.2 })
  else (false, st)

/-- `CharacterString_Value_Out_Of_Service` (csv.c lines 231-242). -/
def CharacterString_Value_Out_Of_Service (cfg : Config) (st : Store)
    (object_instance : Nat) : Bool :=
  let index := CharacterString_Value_Instance_To_Index cfg object_instance
  if index < cfg.MAX_CHARACTERSTRING_VALUES then st.Out_Of_Service index else false

/-- `CharacterString_Value_Out_Of_Service_Set` (csv.c lines 250-264). -/
def CharacterString_Value_Out_Of_Service_Set (cfg : Config) (st : Store)
    (object_instance : Nat) (value : Bool) : Store :=
  let index := CharacterString_Value_Instance_To_Index cfg object_instance
  if index < cfg.MAX_CHARACTERSTRING_VALUES then
    let st1 : Store :=
      if st.Out_Of_Service index != value then
        { st with Changed := Function.update st.Changed index true }
      else st
    { st1 with Out_Of_Service := Function.update st1.Out_Of_Service index value }
  else st

/-- `CharacterString_Value_Change_Of_Value` (csv.c lines 271-283). -/
def CharacterString_Value_Change_Of_Value (cfg : Config) (st : Store)
    (object_instance : Nat) : Bool :=
  let index := CharacterString_Value_Instance_To_Index cfg object_instance
  if index < cfg.MAX_CHARACTERSTRING_VALUES then st.Changed index else false

/-- `CharacterString_Value_Change_Of_Value_Clear` (csv.c lines 289-298). -/
def CharacterString_Value_Change_Of_Value_Clear (cfg : Config) (st : Store)
    (object_instance : Nat) : Store :=
  let index := CharacterString_Value_Instance_To_Index cfg object_instance
  if index < cfg.MAX_CHARACTERSTRING_VALUES then
    { st with Changed := Function.update st.Changed index false }
  else st

/-- `CharacterString_Value_Description` (csv.c lines 333-344): the pointer to
the description array, `none` (the null pointer) for an instance that does not
exist. -/
def CharacterString_Value_Description (cfg : Config) (st : Store)
    (object_instance : Nat) : Option (List Nat) :=
  let index := CharacterString_Value_Instance_To_Index cfg object_instance
  if index < cfg.MAX_CHARACTERSTRING_VALUES then
    some (char_array (st.Object_Description index))
  else none

/-- `CharacterString_Value_Object_Name` (csv.c lines 390-402). `object_name` is
the string the caller's pointer refers to; the result is the status and that
string after the call. -/
def CharacterString_Value_Object_Name (cfg : Config) (st : Store) (object_instance : Nat)
    (object_name : BACNET_CHARACTER_STRING) : Bool × BACNET_CHARACTER_STRING :=
  let index := CharacterString_Value_Instance_To_Index cfg object_instance
  if index < cfg.MAX_CHARACTERSTRING_VALUES then
    characterstring_init_ansi cfg object_name (some (char_array (st.Object_Name index)))
  else (false, object_name)

/-- The outcome of a read: the returned length (or `BACNET_STATUS_ERROR`), the
request with its output buffer and error fields as the call leaves them, and
the store after the call. -/
structure ReadResult where
  apdu_len : Int
  rpdata : Option BACNET_READ_PROPERTY_DATA
  store : Store

/-- The `switch` of `CharacterString_Value_Read_Property` (csv.c lines
475-536): the length, the output buffer and the request after the dispatch on
the property identifier. `char_string` is the local string of the function,
which the property cases fill before encoding it. -/
def Read_Property_switch (cfg : Config) (st : Store) (rpdata : BACNET_READ_PROPERTY_DATA)
    (apdu : List Nat) (object_index : Nat) (char_string : BACNET_CHARACTER_STRING) :
    Int × List Nat × BACNET_READ_PROPERTY_DATA :=
  if rpdata.object_property = PROP_OBJECT_IDENTIFIER then
    let e := encode_application_object_id apdu OBJECT_CHARACTERSTRING_VALUE
      rpdata.object_instance
    (e.1, e.2, rpdata)
  else if rpdata.object_property = PROP_OBJECT_NAME then
    let n := CharacterString_Value_Object_Name cfg st rpdata.object_instance char_string
    if n.1 then
      let e := encode_application_character_string apdu n.2
      (e.1, e.2, rpdata)
    else (0, apdu, rpdata)
  else if rpdata.object_property = PROP_DESCRIPTION then
    let n := characterstring_init_ansi cfg char_string
      (CharacterString_Value_Description cfg st rpdata.object_instance)
    if n.1 then
      let e := encode_application_character_string apdu n.2
      (e.1, e.2, rpdata)
    else (0, apdu, rpdata)
  else if rpdata.object_property = PROP_OBJECT_TYPE then
    let e := encode_application_enumerated apdu OBJECT_CHARACTERSTRING_VALUE
    (e.1, e.2, rpdata)
  else if rpdata.object_property = PROP_PRESENT_VALUE then
    let n := CharacterString_Value_Present_Value cfg st rpdata.object_instance char_string
    let e := encode_application_character_string apdu n.2
    (e.1, e.2, rpdata)
  else if rpdata.object_property = PROP_STATUS_FLAGS then
    let bit_string := bitstring_init
    let bit_string := bitstring_set_bit bit_string STATUS_FLAG_IN_ALARM false
    let bit_string := bitstring_set_bit bit_string STATUS_FLAG_FAULT false
    let bit_string := bitstring_set_bit bit_string STATUS_FLAG_OVERRIDDEN false
    let bit_string :=
      if CharacterString_Value_Out_Of_Service cfg st rpdata.object_instance then
        bitstring_set_bit bit_string STATUS_FLAG_OUT_OF_SERVICE true
      else bitstring_set_bit bit_string STATUS_FLAG_OUT_OF_SERVICE false
    let e := encode_application_bitstring apdu bit_string
    (e.1, e.2, rpdata)
  else if rpdata.object_property = PROP_EVENT_STATE then
    let e := encode_application_enumerated apdu EVENT_STATE_NORMAL
    (e.1, e.2, rpdata)
  else if rpdata.object_property = PROP_OUT_OF_SERVICE then
    let state := st.Out_Of_Service object_index
    let e := encode_application_boolean apdu state
    (e.1, e.2, rpdata)
  else
    (BACNET_STATUS_ERROR, apdu,
      { rpdata with
        error_class := ERROR_CLASS_PROPERTY, error_code := ERROR_CODE_UNKNOWN_PROPERTY })

/-- `CharacterString_Value_Read_Property` (csv.c lines 446-546). The request
`none` is the null pointer. The local `char_string` starts as the empty
string. -/
def CharacterString_Value_Read_Property (cfg : Config) (st : Store) :
    Option BACNET_READ_PROPERTY_DATA → ReadResult
  | none => { apdu_len := 0, rpdata := none, store := st }
  | some rpdata =>
    match rpdata.application_data with
    | none => { apdu_len := 0, rpdata := some rpdata, store := st }
    | some apdu =>
      if rpdata.application_data_len = 0 then
        { apdu_len := 0, rpdata := some rpdata, store := st }
      else
        let object_index := CharacterString_Value_Instance_To_Index cfg rpdata.object_instance
        if object_index ≥ cfg.MAX_CHARACTERSTRING_VALUES then
          { apdu_len := BACNET_STATUS_ERROR,
            rpdata := some { rpdata with
              error_class := ERROR_CLASS_OBJECT, error_code := ERROR_CODE_UNKNOWN_OBJECT },
            store := st }
        else
          let r := Read_Property_switch cfg st rpdata apdu object_index
            { encoding := 0, value := [] }
          if r.1 ≥ 0 ∧ r.2.2.object_property ≠ PROP_STATE_TEXT ∧
              r.2.2.array_index ≠ BACNET_ARRAY_ALL then
            { apdu_len := BACNET_STATUS_ERROR,
              rpdata := some { r.2.2 with
                application_data := some r.2.1,
                error_class := ERROR_CLASS_PROPERTY,
                error_code := ERROR_CODE_PROPERTY_IS_NOT_AN_ARRAY },
              store := st }
          else
            { apdu_len := r.1,
              rpdata := some { r.2.2 with application_data := some r.2.1 },
              store := st }

/-- The outcome of a write: the returned status, the request with its error
fields as the call leaves them, and the store after the call. -/
structure WriteResult where
  status : Bool
  wp_data : Option BACNET_WRITE_PROPERTY_DATA
  store : Store

/-- The `switch` of `CharacterString_Value_Write_Property` (csv.c lines
590-624) on the decoded `value`. -/
def Write_Property_switch (cfg : Config) (st : Store) (wp_data : BACNET_WRITE_PROPERTY_DATA)
    (value : BACNET_APPLICATION_DATA_VALUE) : WriteResult :=
  if wp_data.object_property = PROP_PRESENT_VALUE then
    let t := write_property_type_valid wp_data value BACNET_APPLICATION_TAG_CHARACTER_STRING
    if t.1 then
      let r := CharacterString_Value_Present_Value_Set cfg st t.2.object_instance
        value.type_Character_String
      if !r.1 then
        { status := r.1,
          wp_data := some { t.2 with
            error_class := ERROR_CLASS_PROPERTY, error_code := ERROR_CODE_VALUE_OUT_OF_RANGE },
          store := r.2 }
      else { status := r.1, wp_data := some t.2, store := r.2 }
    else { status := t.1, wp_data := some t.2, store := st }
  else if wp_data.object_property = PROP_OUT_OF_SERVICE then
    let t := write_property_type_valid wp_data value BACNET_APPLICATION_TAG_BOOLEAN
    if t.1 then
      { status := t.1, wp_data := some t.2,
        store := CharacterString_Value_Out_Of_Service_Set cfg st t.2.object_instance
          value.type_Boolean }
    else { status := t.1, wp_data := some t.2, store := st }
  else if wp_data.object_property = PROP_OBJECT_IDENTIFIER ∨
      wp_data.object_property = PROP_OBJECT_NAME ∨
      wp_data.object_property = PROP_DESCRIPTION ∨
      wp_data.object_property = PROP_OBJECT_TYPE ∨
      wp_data.object_property = PROP_STATUS_FLAGS ∨
      wp_data.object_property = PROP_EVENT_STATE then
    { status := false,
      wp_data := some { wp_data with
        error_class := ERROR_CLASS_PROPERTY, error_code := ERROR_CODE_WRITE_ACCESS_DENIED },
      store := st }
  else
    { status := false,
      wp_data := some { wp_data with
        error_class := ERROR_CLASS_PROPERTY, error_code := ERROR_CODE_UNKNOWN_PROPERTY },
      store := st }

/-- `CharacterString_Value_Write_Property` (csv.c lines 556-627). The request
`none` is the null pointer; a decoder result `none` is the negative length. -/
def CharacterString_Value_Write_Property (cfg : Config) (st : Store) :
    Option BACNET_WRITE_PROPERTY_DATA → WriteResult
  | none => { status := false, wp_data := none, store := st }
  | some wp_data =>
    if wp_data.application_data_len = 0 then
      { status := false, wp_data := some wp_data, store := st }
    else
      match bacapp_decode_application_data cfg wp_data.application_data
          wp_data.application_data_len with
      | none =>
        { status := false,
          wp_data := some { wp_data with
            error_class := ERROR_CLASS_PROPERTY, error_code := ERROR_CODE_VALUE_OUT_OF_RANGE },
          store := st }
      | some (_, value) =>
        let object_index := CharacterString_Value_Instance_To_Index cfg wp_data.object_instance
        if object_index ≥ cfg.MAX_CHARACTERSTRING_VALUES then
          { status := false,
            wp_data := some { wp_data with
              error_class := ERROR_CLASS_OBJECT, error_code := ERROR_CODE_UNKNOWN_OBJECT },
            store := st }
        else Write_Property_switch cfg st wp_data value

/-! ## Initialisation, names and descriptions (csv.c, with stdio.h and string.h) -/

/-- The bytes of a text of the source, one byte for each character. -/
def text_bytes (text : String) : List Nat :=
  text.toList.map Char.toNat

/-- What the conversion `%u` of the C library prints for an `unsigned` value:
its decimal digits. The value is taken modulo 2^32, the range of `unsigned`. -/
def print_unsigned (value : Nat) : List Nat :=
  (Nat.toDigits 10 (value % 4294967296)).map Char.toNat

/-- `snprintf` of the C library into a character array of `size` bytes, given
the formatted text: at most `size - 1` characters of it are stored and a NUL
follows them; the rest of the array stays as it was. -/
def snprintf (dest : Nat → Nat) (size : Nat) (text : List Nat) : Nat → Nat :=
  fun k =>
    if k < min text.length (size - 1) then text.getD k 0
    else if k = min text.length (size - 1) ∧ 0 < size then 0
    else dest k

/-- `memset` of the C library on a character array: the first `size` bytes
take `value`. -/
def memset (dest : Nat → Nat) (value : Nat) (size : Nat) : Nat → Nat :=
  fun k => if k < size then value else dest k

/-- The body of the loop of `CharacterString_Value_Init` (csv.c lines 98-103)
for the object `i`. -/
def Init_object (cfg : Config) (st : Store) (i : Nat) : Store :=
  { st with
    Object_Name := Function.update st.Object_Name i
      (snprintf (st.Object_Name i) 64
        (text_bytes "CHARACTER STRING VALUE " ++ print_unsigned (i + 1))),
    Object_Description := Function.update st.Object_Description i
      (snprintf (st.Object_Description i) 64
        (text_bytes "A Character String Value Example")),
    Present_Value := Function.update st.Present_Value i
      (characterstring_init_ansi cfg (st.Present_Value i) (some (text_bytes ""))).2,
    Changed := Function.update st.Changed i false }

/-- `CharacterString_Value_Init` (csv.c lines 92-107): the loop over the
objects 0 to `MAX_CHARACTERSTRING_VALUES - 1`. The store before the call is
an argument, since the call writes over what is there. -/
def CharacterString_Value_Init (cfg : Config) (st : Store) : Store :=
  (List.range cfg.MAX_CHARACTERSTRING_VALUES).foldl (Init_object cfg) st

/-- The copy loop of the name and description setters (csv.c lines 366-371 and
425-430) from position `i` on, with `fuel` positions left before the end of
the array: each byte of the text is stored, the NUL that ends the text
included, and the loop stops after the NUL. A text is the list of its
characters; the byte read after them is its NUL. -/
def copy_text (text : List Nat) : Nat → Nat → (Nat → Nat) → (Nat → Nat)
  | 0, _, a => a
  | fuel + 1, i, a =>
    if text.getD i 0 = 0 then Function.update a i (text.getD i 0)
    else copy_text text fuel (i + 1) (Function.update a i (text.getD i 0))

/-- `CharacterString_Value_Description_Set` (csv.c lines 355-379). The text
`none` is the null pointer. -/
def CharacterString_Value_Description_Set (cfg : Config) (st : Store)
    (object_instance : Nat) (new_descr : Option (List Nat)) : Bool × Store :=
  let index := CharacterString_Value_Instance_To_Index cfg object_instance
  if index < cfg.MAX_CHARACTERSTRING_VALUES then
    match new_descr with
    | some text =>
      (true, { st with
        Object_Description := Function.update st.Object_Description index
          (copy_text text 64 0 (st.Object_Description index)) })
    | none =>
      (true, { st with
        Object_Description := Function.update st.Object_Description index
          (memset (st.Object_Description index) 0 64) })
  else (false, st)

/-- `CharacterString_Value_Name_Set` (csv.c lines 414-437). The text `none` is
the null pointer. -/
def CharacterString_Value_Name_Set (cfg : Config) (st : Store)
    (object_instance : Nat) (new_name : Option (List Nat)) : Bool × Store :=
  let index := CharacterString_Value_Instance_To_Index cfg object_instance
  if index < cfg.MAX_CHARACTERSTRING_VALUES then
    match new_name with
    | some text =>
      (true, { st with
        Object_Name := Function.update st.Object_Name index
          (copy_text text 64 0 (st.Object_Name index)) })
    | none =>
      (true, { st with
        Object_Name := Function.update st.Object_Name index
          (memset (st.Object_Name index) 0 64) })
  else (false, st)

/-! ## Property lists, change-of-value export and the unit test (csv.c) -/

/-- `Properties_Required` (csv.c lines 56-58), with its terminating -1. -/
def Properties_Required : List Int :=
  [(PROP_OBJECT_IDENTIFIER : Int), (PROP_OBJECT_NAME : Int), (PROP_OBJECT_TYPE : Int),
    (PROP_PRESENT_VALUE : Int), (PROP_STATUS_FLAGS : Int), -1]

/-- `Properties_Optional` (csv.c lines 60-61), with its terminating -1. -/
def Properties_Optional : List Int :=
  [(PROP_EVENT_STATE : Int), (PROP_OUT_OF_SERVICE : Int), (PROP_DESCRIPTION : Int), -1]

/-- `Properties_Proprietary` (csv.c line 63): only the terminating -1. -/
def Properties_Proprietary : List Int :=
  [-1]

/-- `CharacterString_Value_Property_Lists` (csv.c lines 73-87). Each argument
is what the caller's pointer refers to (`none` is the null pointer); a pointer
that is not null receives the list. -/
def CharacterString_Value_Property_Lists
    (pRequired pOptional pProprietary : Option (List Int)) :
    Option (List Int) × Option (List Int) × Option (List Int) :=
  (match pRequired with
    | some _ => some Properties_Required
    | none => none,
   match pOptional with
    | some _ => some Properties_Optional
    | none => none,
   match pProprietary with
    | some _ => some Properties_Proprietary
    | none => none)

/-- A property identifier appears in a property list when it is one of the
entries before the terminating -1. -/
def property_list_member (property_list : List Int) (object_property : Nat) : Bool :=
  (property_list.takeWhile (fun p => p != -1)).contains (object_property : Int)

/-- Modelled from the spec: one entry of the value list of a change-of-value
notification (`BACNET_PROPERTY_VALUE` of `bacapp.h`), a property identifier
and the current value of the property. -/
structure BACNET_PROPERTY_VALUE where
  propertyIdentifier : Nat
  value : BACNET_APPLICATION_DATA_VALUE
deriving DecidableEq

/-- Modelled from the spec: `cov_value_list_encode_character_string` of
`cov.c`. Given a value list (`none` is the null pointer) it produces the pair
for the present value and the pair for the status flags, the four flags in
the order in-alarm, fault, overridden, out-of-service, and returns true;
without a list it returns false. -/
def cov_value_list_encode_character_string
    (value_list : Option (List BACNET_PROPERTY_VALUE)) (value : BACNET_CHARACTER_STRING)
    (in_alarm fault overridden out_of_service : Bool) :
    Bool × Option (List BACNET_PROPERTY_VALUE) :=
  match value_list with
  | none => (false, none)
  | some _ =>
    (true, some
      [{ propertyIdentifier := PROP_PRESENT_VALUE,
         value := BACNET_APPLICATION_DATA_VALUE.Character_String value },
       { propertyIdentifier := PROP_STATUS_FLAGS,
         value := BACNET_APPLICATION_DATA_VALUE.Bit_String
           { bits := [in_alarm, fault, overridden, out_of_service] } }])

/-- The outcome of the change-of-value export: the returned status, the value
list as the call leaves it, and the store after the call. -/
structure EncodeValueListResult where
  status : Bool
  value_list : Option (List BACNET_PROPERTY_VALUE)
  store : Store

/-- `CharacterString_Value_Encode_Value_List` (csv.c lines 306-324). -/
def CharacterString_Value_Encode_Value_List (cfg : Config) (st : Store)
    (object_instance : Nat) (value_list : Option (List BACNET_PROPERTY_VALUE)) :
    EncodeValueListResult :=
  let in_alarm := false
  let fault := false
  let overridden := false
  let index := CharacterString_Value_Instance_To_Index cfg object_instance
  if index < cfg.MAX_CHARACTERSTRING_VALUES then
    let r := cov_value_list_encode_character_string value_list (st.Present_Value index)
      in_alarm fault overridden (st.Out_Of_Service index)
    { status := r.1, value_list := r.2, store := st }
  else { status := false, value_list := value_list, store := st }

/-- Modelled from the spec: `decode_object_id` of `bacdcode.c`, bounds-checked:
four bytes give 10 bits of object type and 22 bits of instance; the result is
the number of bytes, the type and the instance, `none` when fewer than four
bytes are there. -/
def decode_object_id (apdu : List Nat) : Option (Nat × Nat × Nat) :=
  if apdu.length < 4 then none
  else some (4, decode_unsigned (apdu.take 4) / 4194304 % 1024,
    decode_unsigned (apdu.take 4) % 4194304)

/-- `testCharacterStringValue` (csv.c lines 634-660): the outcomes of its four
`ct_test` checks, in order. `MAX_APDU` is the size of the buffer of the test
(`bacdef.h`), `st` the store when the test starts. A decoder that fails leaves
the variables of the test at their initial 0. -/
def testCharacterStringValue (cfg : Config) (MAX_APDU : Nat) (st : Store) : List Bool :=
  let apdu : List Nat := List.replicate MAX_APDU 0
  let st1 := CharacterString_Value_Init cfg st
  let rpdata : BACNET_READ_PROPERTY_DATA :=
    { object_type := OBJECT_CHARACTERSTRING_VALUE, object_instance := 1,
      object_property := PROP_OBJECT_IDENTIFIER, array_index := BACNET_ARRAY_ALL,
      application_data := some apdu, application_data_len := MAX_APDU,
      error_class := 0, error_code := 0 }
  let r := CharacterString_Value_Read_Property cfg st1 (some rpdata)
  let apdu1 : List Nat := ((r.rpdata.bind (fun d => d.application_data)).getD apdu)
  let t := (decode_tag_number_and_value apdu1).getD (0, 0, 0)
  let o := (decode_object_id (apdu1.drop t.1)).getD (0, 0, 0)
  [r.apdu_len != 0,
   t.2.1 == BACNET_APPLICATION_TAG_OBJECT_ID,
   o.2.1 == rpdata.object_type,
   o.2.2 == rpdata.object_instance]

/-- A property identifier appears in one of the Required, Optional and
Proprietary lists that `CharacterString_Value_Property_Lists` returns. -/
def property_listed (object_property : Nat) : Bool :=
  match CharacterString_Value_Property_Lists (some []) (some []) (some []) with
  | (some required, some optional, some proprietary) =>
    property_list_member required object_property ||
      property_list_member optional object_property ||
      property_list_member proprietary object_property
  | _ => false

/-- A write that gives an object the value it already stores: of the present
value or of the out-of-service flag of an object. It serves to state what a
cleared change flag survives. -/
inductive StoredValueWrite where
  | present_value (object_instance : Nat)
  | out_of_service (object_instance : Nat)
deriving DecidableEq

/-- The store after a write of an already stored value, through
`CharacterString_Value_Present_Value_Set` or
`CharacterString_Value_Out_Of_Service_Set`. -/
def apply_stored_value_write (cfg : Config) (st : Store) : StoredValueWrite → Store
  | .present_value j =>
    (CharacterString_Value_Present_Value_Set cfg st j (st.Present_Value j)).2
  | .out_of_service j =>
    CharacterString_Value_Out_Of_Service_Set cfg st j (st.Out_Of_Service j)

/-! ## Samples used to instantiate the theorems -/

/-- A build with two objects and strings of at most eight characters. -/
def sampleConfig : Config :=
  { MAX_CHARACTERSTRING_VALUES := 2, CHARACTER_STRING_CAPACITY := 8 }

/-- A store in which every present value is empty, every flag is clear and
every name and description is all NUL. -/
def emptyStore : Store :=
  { Present_Value := fun _ => { encoding := CHARACTER_ANSI_X34, value := [] },
    Out_Of_Service := fun _ => false,
    Object_Name := fun _ _ => 0,
    Object_Description := fun _ _ => 0,
    Changed := fun _ => false }

/-- The ANSI string "Hello". -/
def helloString : BACNET_CHARACTER_STRING :=
  { encoding := CHARACTER_ANSI_X34, value := [72, 101, 108, 108, 111] }

/-- A write request for object 0: the present value, with the encoding of
"Hello" as payload. -/
def helloWrite : BACNET_WRITE_PROPERTY_DATA :=
  { object_type := OBJECT_CHARACTERSTRING_VALUE, object_instance := 0,
    object_property := PROP_PRESENT_VALUE, array_index := BACNET_ARRAY_ALL,
    application_data := [117, 6, 0, 72, 101, 108, 108, 111],
    application_data_len := 8, priority := 0, error_class := 0, error_code := 0 }

/-- A read request for the present value of object 0 with a 16-byte buffer. -/
def presentValueRead : BACNET_READ_PROPERTY_DATA :=
  { object_type := OBJECT_CHARACTERSTRING_VALUE, object_instance := 0,
    object_property := PROP_PRESENT_VALUE, array_index := BACNET_ARRAY_ALL,
    application_data := some (List.replicate 16 0), application_data_len := 16,
    error_class := 0, error_code := 0 }

/-- A write request for object 0: the object name, with the encoding of
"Hello" as payload. -/
def nameWrite : BACNET_WRITE_PROPERTY_DATA :=
  { helloWrite with object_property := PROP_OBJECT_NAME }

/-- A write request for object 0: the present value, with the encoding of the
Boolean true as payload. -/
def booleanToPresentValueWrite : BACNET_WRITE_PROPERTY_DATA :=
  { helloWrite with application_data := [17], application_data_len := 1 }

/-- A write request for object 0: the out-of-service flag, with the encoding of
the Boolean true as payload. -/
def outOfServiceWrite : BACNET_WRITE_PROPERTY_DATA :=
  { helloWrite with
    object_property := PROP_OUT_OF_SERVICE,
    application_data := [17], application_data_len := 1 }

/-- A write request with an empty payload for instance 2, which does not exist
in `sampleConfig`. -/
def emptyPayloadUnknownObjectWrite : BACNET_WRITE_PROPERTY_DATA :=
  { helloWrite with
    object_instance := 2, application_data := [], application_data_len := 0 }

/-- A write request for instance 2, which does not exist in `sampleConfig`,
whose one-byte payload is a character string tag header that announces a
length byte and stops. -/
def truncatedUnknownObjectWrite : BACNET_WRITE_PROPERTY_DATA :=
  { helloWrite with
    object_instance := 2, application_data := [117], application_data_len := 1 }

/-- A read request with array index 1 for property 87 (PriorityArray), which
this object does not have. -/
def unknownPropertyIndexedRead : BACNET_READ_PROPERTY_DATA :=
  { presentValueRead with object_property := 87, array_index := 1 }

/-- A read request with array index 1 for the present value, with an output
buffer of declared size 0. -/
def emptyBufferIndexedRead : BACNET_READ_PROPERTY_DATA :=
  { presentValueRead with array_index := 1, application_data_len := 0 }

/-- A write request for object 0 with an empty payload. -/
def emptyPayloadWrite : BACNET_WRITE_PROPERTY_DATA :=
  { helloWrite with application_data := [], application_data_len := 0 }

/-- A write request for object 0: the present value, with the encoding of a
string of nine characters as payload, one more than a character string of
`sampleConfig` holds; the decoder rejects this payload. -/
def tooLongWrite : BACNET_WRITE_PROPERTY_DATA :=
  { helloWrite with
    application_data := [117, 10, 0, 65, 65, 65, 65, 65, 65, 65, 65, 65],
    application_data_len := 12 }

/-- A read request for the status flags of object 0 with a 16-byte buffer. -/
def statusFlagsRead : BACNET_READ_PROPERTY_DATA :=
  { presentValueRead with object_property := PROP_STATUS_FLAGS }

/-- The empty store with object 0 out of service. -/
def outOfServiceStore : Store :=
  { emptyStore with Out_Of_Service := Function.update emptyStore.Out_Of_Service 0 true }

/-- The read request of the unit test: the object identifier of instance 1,
with a 16-byte buffer. -/
def objectIdentifierRead : BACNET_READ_PROPERTY_DATA :=
  { presentValueRead with object_instance := 1, object_property := PROP_OBJECT_IDENTIFIER }

/-- A write request for object 0: property 87 (PriorityArray), which this
object does not have, with the encoding of "Hello" as payload. -/
def unknownPropertyWrite : BACNET_WRITE_PROPERTY_DATA :=
  { helloWrite with object_property := 87 }

/-- A read request for the object name of object 0 with a 32-byte buffer. -/
def objectNameRead : BACNET_READ_PROPERTY_DATA :=
  { presentValueRead with
    object_property := PROP_OBJECT_NAME,
    application_data := some (List.replicate 32 0), application_data_len := 32 }

/-- A build with two objects and strings of at most 63 characters. -/
def nameConfig : Config :=
  { MAX_CHARACTERSTRING_VALUES := 2, CHARACTER_STRING_CAPACITY := 63 }

/-- A text of 64 characters, the letter A 64 times, as a NUL-terminated C
string. -/
def longText : List Nat :=
  List.replicate 64 65

/-! ## Basic facts -/

theorem instance_to_index_of_lt (cfg : Config) (n : Nat)
    (h : n < cfg.MAX_CHARACTERSTRING_VALUES) :
    CharacterString_Value_Instance_To_Index cfg n = n := by
  simp [CharacterString_Value_Instance_To_Index, h]

theorem instance_to_index_of_ge (cfg : Config) (n : Nat)
    (h : cfg.MAX_CHARACTERSTRING_VALUES ≤ n) :
    CharacterString_Value_Instance_To_Index cfg n = cfg.MAX_CHARACTERSTRING_VALUES := by
  simp [CharacterString_Value_Instance_To_Index, Nat.not_lt.mpr h]

theorem characterstring_same_iff (a b : BACNET_CHARACTER_STRING) :
    characterstring_same a b = true ↔ a = b := by
  cases a; cases b
  simp only [characterstring_same, Bool.and_eq_true, beq_iff_eq,
    BACNET_CHARACTER_STRING.mk.injEq]
  constructor
  · rintro ⟨⟨_, h2⟩, h3⟩
    exact ⟨h2.symm, h3.symm⟩
  · rintro ⟨h1, h2⟩
    subst h1 h2
    exact ⟨⟨rfl, rfl⟩, rfl⟩

theorem characterstring_copy_fits (cfg : Config) (dest src : BACNET_CHARACTER_STRING)
    (h : src.value.length ≤ cfg.CHARACTER_STRING_CAPACITY) :
    characterstring_copy cfg dest src = (true, src) := by
  simp [characterstring_copy, h]

theorem characterstring_copy_too_long (cfg : Config) (dest src : BACNET_CHARACTER_STRING)
    (h : cfg.CHARACTER_STRING_CAPACITY < src.value.length) :
    characterstring_copy cfg dest src = (false, dest) := by
  simp [characterstring_copy, Nat.not_le.mpr h]

/-! ## The present-value setter -/

/-- C1: for an existing object instance and a character string `v` within the
string capacity, `CharacterString_Value_Present_Value_Set` returns true, the
stored present value becomes `v`, and the change flag becomes the flag before
the call OR "the stored value differed from `v` in encoding, length or bytes".
So writing the current value keeps the flag and writing a different value
raises it. -/
theorem present_value_set_contract (cfg : Config) (st : Store) (object_instance : Nat)
    (v : BACNET_CHARACTER_STRING)
    (hinst : object_instance < cfg.MAX_CHARACTERSTRING_VALUES)
    (hfit : v.value.length ≤ cfg.CHARACTER_STRING_CAPACITY) :
    (CharacterString_Value_Present_Value_Set cfg st object_instance v).1 = true ∧
    (CharacterString_Value_Present_Value_Set cfg st object_instance v).2.Present_Value
      object_instance = v ∧
    (CharacterString_Value_Present_Value_Set cfg st object_instance v).2.Changed
      object_instance =
      (st.Changed object_instance ||
        decide ((st.Present_Value object_instance).encoding ≠ v.encoding ∨
          (st.Present_Value object_instance).value.length ≠ v.value.length ∨
          (st.Present_Value object_instance).value ≠ v.value)) ∧
    (st.Present_Value object_instance = v →
      (CharacterString_Value_Present_Value_Set cfg st object_instance v).2.Changed
        object_instance = st.Changed object_instance) ∧
    (st.Present_Value object_instance ≠ v →
      (CharacterString_Value_Present_Value_Set cfg st object_instance v).2.Changed
        object_instance = true) := by
  have hsame := characterstring_same_iff (st.Present_Value object_instance) v
  by_cases heq : st.Present_Value object_instance = v
  · subst heq
    have hs : characterstring_same (st.Present_Value object_instance)
        (st.Present_Value object_instance) = true := hsame.mpr rfl
    simp [CharacterString_Value_Present_Value_Set, instance_to_index_of_lt cfg _ hinst,
      hinst, hs, characterstring_copy_fits cfg _ _ hfit]
  · have hs : characterstring_same (st.Present_Value object_instance) v = false := by
      cases h : characterstring_same (st.Present_Value object_instance) v
      · rfl
      · exact absurd (hsame.mp h) heq
    have hne : (st.Present_Value object_instance).encoding ≠ v.encoding ∨
        (st.Present_Value object_instance).value.length ≠ v.value.length ∨
        (st.Present_Value object_instance).value ≠ v.value := by
      by_contra hcon
      push_neg at hcon
      apply heq
      cases hp : st.Present_Value object_instance
      cases v
      rw [hp] at hcon
      simp only [BACNET_CHARACTER_STRING.mk.injEq]
      exact ⟨hcon.1, hcon.2.2⟩
    simp [CharacterString_Value_Present_Value_Set, instance_to_index_of_lt cfg _ hinst,
      hinst, hs, characterstring_copy_fits cfg _ _ hfit, heq, hne]

/-- C1 at a concrete input: "Hello" written to object 0 of the empty store. -/
theorem present_value_set_contract_witness :
    (0 < sampleConfig.MAX_CHARACTERSTRING_VALUES ∧
      helloString.value.length ≤ sampleConfig.CHARACTER_STRING_CAPACITY) ∧
    (CharacterString_Value_Present_Value_Set sampleConfig emptyStore 0 helloString).1 = true ∧
    (CharacterString_Value_Present_Value_Set sampleConfig emptyStore 0
      helloString).2.Changed 0 = true :=
  ⟨⟨by decide, by decide⟩,
    (present_value_set_contract sampleConfig emptyStore 0 helloString
      (by decide) (by decide)).1,
    (present_value_set_contract sampleConfig emptyStore 0 helloString
      (by decide) (by decide)).2.2.2.2 (by decide)⟩

/-! ## The tag codec decodes what it encodes -/

theorem decode_encode_tag (t L : Nat) (rest : List Nat) (hL : L < 4294967296) :
    decode_tag_number_and_value (encode_tag t L ++ rest) =
      some ((encode_tag t L).length, t, L) := by
  unfold encode_tag
  split_ifs with h1 h2 h3
  · have e1 : (t * 16 + L) % 8 = L := by omega
    have e2 : (t * 16 + L) / 16 = t := by omega
    have e3 : L ≠ 5 := by omega
    simp [decode_tag_number_and_value, e1, e2, e3]
  · have e1 : (t * 16 + 5) % 8 = 5 := by omega
    have e2 : (t * 16 + 5) / 16 = t := by omega
    have e3 : L ≠ 255 := by omega
    have e4 : L ≠ 254 := by omega
    simp [decode_tag_number_and_value, e1, e2, e3, e4]
  · have e1 : (t * 16 + 5) % 8 = 5 := by omega
    have e2 : (t * 16 + 5) / 16 = t := by omega
    simp [decode_tag_number_and_value, e1, e2, encode_unsigned16, decode_unsigned]
    omega
  · have e1 : (t * 16 + 5) % 8 = 5 := by omega
    have e2 : (t * 16 + 5) / 16 = t := by omega
    simp [decode_tag_number_and_value, e1, e2, encode_unsigned32, decode_unsigned]
    omega

theorem encode_tag_cons (t L : Nat) :
    ∃ b0 tl, encode_tag t L = b0 :: tl ∧ b0 / 8 % 2 = 0 ∧ b0 % 8 < 6 := by
  unfold encode_tag
  split_ifs with h1 h2 h3
  · exact ⟨_, _, rfl, by omega, by omega⟩
  · exact ⟨_, _, rfl, by omega, by omega⟩
  · exact ⟨_, _, rfl, by omega, by omega⟩
  · exact ⟨_, _, rfl, by omega, by omega⟩

/-- A buffer that starts with an application tag header is decoded by the
value decoder of the tag, applied to what follows the header. -/
theorem decode_application_tagged (cfg : Config) (t L n : Nat) (payload data : List Nat)
    (hL : L < 4294967296) (hdata : data.take n = encode_tag t L ++ payload) :
    bacapp_decode_application_data cfg data n =
      (bacapp_decode_data cfg payload t L).map
        (fun r => ((encode_tag t L).length + r.1, r.2)) := by
  obtain ⟨b0, tl, htl, hc, hm⟩ := encode_tag_cons t L
  have hdec := decode_encode_tag t L payload hL
  have hdrop : List.drop (encode_tag t L).length (encode_tag t L ++ payload) = payload :=
    List.drop_left' rfl
  unfold bacapp_decode_application_data
  rw [hdata]
  rw [htl] at hdec hdrop ⊢
  simp only [List.cons_append] at hdec hdrop ⊢
  have hcond : ¬ (b0 / 8 % 2 = 1 ∨ 6 ≤ b0 % 8) := by omega
  simp only [hcond, if_false, hdec, hdrop]
  cases bacapp_decode_data cfg payload t L <;> rfl

/-- The decoder gives back the character string whose encoding it is given. -/
theorem decode_application_character_string (cfg : Config) (s : BACNET_CHARACTER_STRING)
    (data : List Nat) (hfit : s.value.length ≤ cfg.CHARACTER_STRING_CAPACITY)
    (hlen : s.value.length + 1 < 4294967296)
    (hdata : data.take (application_character_string_bytes s).length =
      application_character_string_bytes s) :
    bacapp_decode_application_data cfg data (application_character_string_bytes s).length =
      some ((application_character_string_bytes s).length,
        BACNET_APPLICATION_DATA_VALUE.Character_String s) := by
  have h := decode_application_tagged cfg BACNET_APPLICATION_TAG_CHARACTER_STRING
    (1 + s.value.length) (application_character_string_bytes s).length
    (s.encoding :: s.value) data (by omega) hdata
  rw [h]
  have hlt : ¬ (s.value.length + 1 < 1 + s.value.length) := by omega
  simp [bacapp_decode_data, BACNET_APPLICATION_TAG_CHARACTER_STRING,
    BACNET_APPLICATION_TAG_BOOLEAN, BACNET_APPLICATION_TAG_ENUMERATED,
    BACNET_APPLICATION_TAG_OBJECT_ID, BACNET_APPLICATION_TAG_BIT_STRING, hlt, hfit,
    application_character_string_bytes, Nat.add_comm]

/-- The decoder gives back the Boolean whose encoding it is given. -/
theorem decode_application_boolean (cfg : Config) (b : Bool) (data : List Nat)
    (hdata : data.take 1 = application_boolean_bytes b) :
    bacapp_decode_application_data cfg data 1 =
      some (1, BACNET_APPLICATION_DATA_VALUE.Boolean b) := by
  have h := decode_application_tagged cfg BACNET_APPLICATION_TAG_BOOLEAN
    (if b then 1 else 0) 1 [] data (by split <;> omega) (by simpa using hdata)
  rw [h]
  cases b <;> simp [bacapp_decode_data, encode_tag]

/-! ## Write then read of the present value -/

theorem present_value_set_eq (cfg : Config) (st : Store) (i : Nat)
    (v : BACNET_CHARACTER_STRING) (hinst : i < cfg.MAX_CHARACTERSTRING_VALUES)
    (hfit : v.value.length ≤ cfg.CHARACTER_STRING_CAPACITY) :
    CharacterString_Value_Present_Value_Set cfg st i v =
      (true, { st with
        Present_Value := Function.update st.Present_Value i v,
        Changed := if characterstring_same (st.Present_Value i) v then st.Changed
          else Function.update st.Changed i true }) := by
  cases hs : characterstring_same (st.Present_Value i) v <;>
    simp [CharacterString_Value_Present_Value_Set, instance_to_index_of_lt cfg _ hinst,
      hinst, hs, characterstring_copy_fits cfg _ _ hfit]

theorem application_character_string_bytes_length_pos (s : BACNET_CHARACTER_STRING) :
    (application_character_string_bytes s).length ≠ 0 := by
  simp [application_character_string_bytes]

/-- A write of the present value with a decoded character string within the
capacity succeeds and stores the string. -/
theorem write_present_value_eq (cfg : Config) (st : Store) (wp : BACNET_WRITE_PROPERTY_DATA)
    (s : BACNET_CHARACTER_STRING) (n : Nat)
    (hinst : wp.object_instance < cfg.MAX_CHARACTERSTRING_VALUES)
    (hfit : s.value.length ≤ cfg.CHARACTER_STRING_CAPACITY)
    (hprop : wp.object_property = PROP_PRESENT_VALUE)
    (hlen : wp.application_data_len ≠ 0)
    (hdec : bacapp_decode_application_data cfg wp.application_data wp.application_data_len =
      some (n, BACNET_APPLICATION_DATA_VALUE.Character_String s)) :
    CharacterString_Value_Write_Property cfg st (some wp) =
      { status := true, wp_data := some wp,
        store := (CharacterString_Value_Present_Value_Set cfg st wp.object_instance s).2 } := by
  have hidx : ¬ (CharacterString_Value_Instance_To_Index cfg wp.object_instance
      ≥ cfg.MAX_CHARACTERSTRING_VALUES) := by
    rw [instance_to_index_of_lt cfg _ hinst]; omega
  simp only [CharacterString_Value_Write_Property, hlen, if_false, hdec, hidx,
    Write_Property_switch, hprop, if_true, write_property_type_valid,
    BACNET_APPLICATION_DATA_VALUE.tag, ne_eq, not_true_eq_false,
    BACNET_APPLICATION_DATA_VALUE.type_Character_String,
    present_value_set_eq cfg st _ s hinst hfit]
  simp

/-- A read of the present value with array index "all" writes the encoding of
the stored string at the start of the buffer and returns its length. -/
theorem read_present_value_eq (cfg : Config) (st : Store) (rp : BACNET_READ_PROPERTY_DATA)
    (buffer : List Nat)
    (hinst : rp.object_instance < cfg.MAX_CHARACTERSTRING_VALUES)
    (hfit : (st.Present_Value rp.object_instance).value.length
      ≤ cfg.CHARACTER_STRING_CAPACITY)
    (hprop : rp.object_property = PROP_PRESENT_VALUE)
    (hidx : rp.array_index = BACNET_ARRAY_ALL)
    (hbuf : rp.application_data = some buffer)
    (hlen : rp.application_data_len ≠ 0) :
    CharacterString_Value_Read_Property cfg st (some rp) =
      { apdu_len :=
          ((application_character_string_bytes
            (st.Present_Value rp.object_instance)).length : Int),
        rpdata := some { rp with
          application_data := some
            (application_character_string_bytes (st.Present_Value rp.object_instance) ++
              buffer.drop (application_character_string_bytes
                (st.Present_Value rp.object_instance)).length) },
        store := st } := by
  have hi : ¬ (CharacterString_Value_Instance_To_Index cfg rp.object_instance
      ≥ cfg.MAX_CHARACTERSTRING_VALUES) := by
    rw [instance_to_index_of_lt cfg _ hinst]; omega
  have hsw : Read_Property_switch cfg st rp buffer
      (CharacterString_Value_Instance_To_Index cfg rp.object_instance)
      { encoding := 0, value := [] } =
      (((application_character_string_bytes
          (st.Present_Value rp.object_instance)).length : Int),
        application_character_string_bytes (st.Present_Value rp.object_instance) ++
          buffer.drop (application_character_string_bytes
            (st.Present_Value rp.object_instance)).length, rp) := by
    simp [Read_Property_switch, hprop, PROP_PRESENT_VALUE, PROP_OBJECT_IDENTIFIER,
      PROP_OBJECT_NAME, PROP_DESCRIPTION, PROP_OBJECT_TYPE,
      CharacterString_Value_Present_Value, instance_to_index_of_lt cfg _ hinst, hinst,
      characterstring_copy_fits cfg _ _ hfit, encode_application_character_string, apdu_put]
  simp only [CharacterString_Value_Read_Property, hbuf, hlen, if_false, hi, hsw, hidx,
    ne_eq, not_true_eq_false, and_false]

/-- C2: write-then-read round trip of the present value. For an existing
object instance and a character string `s` within the string capacity, a write
of PRESENT_VALUE whose payload is the application-tagged encoding of `s`
returns true; a following read of PRESENT_VALUE with array index ALL returns
the number of bytes of that encoding and writes exactly that encoding at the
start of the buffer, and the decoder gives `s` back from it. The capacity is
assumed to fit the 32-bit length field of the encoding. -/
theorem write_then_read_present_value_round_trip (cfg : Config) (st : Store)
    (wp : BACNET_WRITE_PROPERTY_DATA) (rp : BACNET_READ_PROPERTY_DATA)
    (s : BACNET_CHARACTER_STRING) (buffer : List Nat)
    (hcap : cfg.CHARACTER_STRING_CAPACITY + 1 < 4294967296)
    (hinst : wp.object_instance < cfg.MAX_CHARACTERSTRING_VALUES)
    (hfit : s.value.length ≤ cfg.CHARACTER_STRING_CAPACITY)
    (hprop : wp.object_property = PROP_PRESENT_VALUE)
    (hlen : wp.application_data_len = (application_character_string_bytes s).length)
    (hdata : wp.application_data.take (application_character_string_bytes s).length =
      application_character_string_bytes s)
    (hrinst : rp.object_instance = wp.object_instance)
    (hrprop : rp.object_property = PROP_PRESENT_VALUE)
    (hridx : rp.array_index = BACNET_ARRAY_ALL)
    (hrbuf : rp.application_data = some buffer)
    (hrlen : rp.application_data_len ≠ 0) :
    (CharacterString_Value_Write_Property cfg st (some wp)).status = true ∧
    (CharacterString_Value_Read_Property cfg
      (CharacterString_Value_Write_Property cfg st (some wp)).store (some rp)).apdu_len =
      ((application_character_string_bytes s).length : Int) ∧
    (CharacterString_Value_Read_Property cfg
      (CharacterString_Value_Write_Property cfg st (some wp)).store (some rp)).rpdata =
      some { rp with
        application_data := some (application_character_string_bytes s ++
          buffer.drop (application_character_string_bytes s).length) } ∧
    bacapp_decode_application_data cfg
      (application_character_string_bytes s ++
        buffer.drop (application_character_string_bytes s).length)
      (application_character_string_bytes s).length =
      some ((application_character_string_bytes s).length,
        BACNET_APPLICATION_DATA_VALUE.Character_String s) := by
  have h32 : s.value.length + 1 < 4294967296 := by omega
  have hdec := decode_application_character_string cfg s wp.application_data hfit h32 hdata
  rw [← hlen] at hdec
  have hne : wp.application_data_len ≠ 0 := by
    rw [hlen]; exact application_character_string_bytes_length_pos s
  have hw := write_present_value_eq cfg st wp s _ hinst hfit hprop hne hdec
  have hst := present_value_set_eq cfg st wp.object_instance s hinst hfit
  have hpv : (CharacterString_Value_Write_Property cfg st (some wp)).store.Present_Value
      rp.object_instance = s := by
    rw [hw, hst, hrinst]; simp
  have hfit2 : ((CharacterString_Value_Write_Property cfg st (some wp)).store.Present_Value
      rp.object_instance).value.length ≤ cfg.CHARACTER_STRING_CAPACITY := by
    rw [hpv]; exact hfit
  have hr := read_present_value_eq cfg
    (CharacterString_Value_Write_Property cfg st (some wp)).store rp buffer
    (by rw [hrinst]; exact hinst) hfit2 hrprop hridx hrbuf hrlen
  rw [hpv] at hr
  refine ⟨by rw [hw], by rw [hr], by rw [hr], ?_⟩
  exact decode_application_character_string cfg s _ hfit h32 (by simp)

/-- C2 at a concrete input: "Hello" written to object 0 of the empty store and
read back into a 16-byte buffer. -/
theorem write_then_read_present_value_round_trip_witness :
    (CharacterString_Value_Write_Property sampleConfig emptyStore (some helloWrite)).status
      = true ∧
    (CharacterString_Value_Read_Property sampleConfig
      (CharacterString_Value_Write_Property sampleConfig emptyStore (some helloWrite)).store
      (some presentValueRead)).apdu_len = 8 ∧
    (CharacterString_Value_Read_Property sampleConfig
      (CharacterString_Value_Write_Property sampleConfig emptyStore (some helloWrite)).store
      (some presentValueRead)).rpdata =
      some { presentValueRead with
        application_data := some
          [117, 6, 0, 72, 101, 108, 108, 111, 0, 0, 0, 0, 0, 0, 0, 0] } := by
  have h := write_then_read_present_value_round_trip sampleConfig emptyStore helloWrite
    presentValueRead helloString (List.replicate 16 0)
    (by decide) (by decide) (by decide) rfl (by decide) (by decide) rfl rfl rfl rfl
    (by decide)
  exact ⟨h.1, h.2.1, h.2.2.1⟩

/-! ## The write dispatcher -/

theorem decode_application_data_len_ne_zero (cfg : Config) (data : List Nat) (len : Nat)
    (r : Nat × BACNET_APPLICATION_DATA_VALUE)
    (h : bacapp_decode_application_data cfg data len = some r) : len ≠ 0 := by
  intro h0
  subst h0
  simp [bacapp_decode_application_data] at h

/-- With a decodable payload and an existing instance the write is the
dispatch on the property identifier. -/
theorem write_property_decoded (cfg : Config) (st : Store) (wp : BACNET_WRITE_PROPERTY_DATA)
    (n : Nat) (value : BACNET_APPLICATION_DATA_VALUE)
    (hinst : wp.object_instance < cfg.MAX_CHARACTERSTRING_VALUES)
    (hdec : bacapp_decode_application_data cfg wp.application_data wp.application_data_len =
      some (n, value)) :
    CharacterString_Value_Write_Property cfg st (some wp) =
      Write_Property_switch cfg st wp value := by
  have hlen := decode_application_data_len_ne_zero _ _ _ _ hdec
  have hidx : ¬ (CharacterString_Value_Instance_To_Index cfg wp.object_instance
      ≥ cfg.MAX_CHARACTERSTRING_VALUES) := by
    rw [instance_to_index_of_lt cfg _ hinst]; omega
  simp only [CharacterString_Value_Write_Property, hlen, if_false, hdec, hidx]

/-- C3: read-only enforcement. For an existing object instance and a payload
the codec decodes (to a value of any type), a write of OBJECT_IDENTIFIER,
OBJECT_NAME, DESCRIPTION, OBJECT_TYPE, STATUS_FLAGS or EVENT_STATE returns
false, sets the error to (ERROR_CLASS_PROPERTY, ERROR_CODE_WRITE_ACCESS_DENIED)
and leaves the whole store as it was. -/
theorem write_read_only_property_denied (cfg : Config) (st : Store)
    (wp : BACNET_WRITE_PROPERTY_DATA) (n : Nat) (value : BACNET_APPLICATION_DATA_VALUE)
    (hinst : wp.object_instance < cfg.MAX_CHARACTERSTRING_VALUES)
    (hdec : bacapp_decode_application_data cfg wp.application_data wp.application_data_len =
      some (n, value))
    (hprop : wp.object_property = PROP_OBJECT_IDENTIFIER ∨
      wp.object_property = PROP_OBJECT_NAME ∨
      wp.object_property = PROP_DESCRIPTION ∨
      wp.object_property = PROP_OBJECT_TYPE ∨
      wp.object_property = PROP_STATUS_FLAGS ∨
      wp.object_property = PROP_EVENT_STATE) :
    (CharacterString_Value_Write_Property cfg st (some wp)).status = false ∧
    (CharacterString_Value_Write_Property cfg st (some wp)).wp_data =
      some { wp with
        error_class := ERROR_CLASS_PROPERTY,
        error_code := ERROR_CODE_WRITE_ACCESS_DENIED } ∧
    (CharacterString_Value_Write_Property cfg st (some wp)).store = st := by
  rw [write_property_decoded cfg st wp n value hinst hdec]
  have h1 : wp.object_property ≠ PROP_PRESENT_VALUE := by
    rcases hprop with h | h | h | h | h | h <;> rw [h] <;> decide
  have h2 : wp.object_property ≠ PROP_OUT_OF_SERVICE := by
    rcases hprop with h | h | h | h | h | h <;> rw [h] <;> decide
  simp only [Write_Property_switch, h1, h2, if_false, hprop, if_true, and_self]

/-- C3 at a concrete input: the encoding of "Hello" written to the object name
of object 0. -/
theorem write_read_only_property_denied_witness :
    (CharacterString_Value_Write_Property sampleConfig emptyStore (some nameWrite)).status
      = false ∧
    (CharacterString_Value_Write_Property sampleConfig emptyStore (some nameWrite)).wp_data =
      some { nameWrite with
        error_class := ERROR_CLASS_PROPERTY,
        error_code := ERROR_CODE_WRITE_ACCESS_DENIED } ∧
    (CharacterString_Value_Write_Property sampleConfig emptyStore (some nameWrite)).store
      = emptyStore :=
  write_read_only_property_denied sampleConfig emptyStore nameWrite 8
    (BACNET_APPLICATION_DATA_VALUE.Character_String helloString)
    (by decide) (by decide) (Or.inr (Or.inl rfl))

/-- C4: type validation. For an existing object instance, a write of
PRESENT_VALUE whose payload decodes to a tag other than CharacterString, and a
write of OUT_OF_SERVICE whose payload decodes to a tag other than Boolean,
returns false, sets the error to (ERROR_CLASS_PROPERTY,
ERROR_CODE_INVALID_DATA_TYPE) and leaves the store (present value,
out-of-service flag and change flag included) as it was. -/
theorem write_type_validation (cfg : Config) (st : Store)
    (wp : BACNET_WRITE_PROPERTY_DATA) (n : Nat) (value : BACNET_APPLICATION_DATA_VALUE)
    (hinst : wp.object_instance < cfg.MAX_CHARACTERSTRING_VALUES)
    (hdec : bacapp_decode_application_data cfg wp.application_data wp.application_data_len =
      some (n, value))
    (hcase : (wp.object_property = PROP_PRESENT_VALUE ∧
        value.tag ≠ BACNET_APPLICATION_TAG_CHARACTER_STRING) ∨
      (wp.object_property = PROP_OUT_OF_SERVICE ∧
        value.tag ≠ BACNET_APPLICATION_TAG_BOOLEAN)) :
    (CharacterString_Value_Write_Property cfg st (some wp)).status = false ∧
    (CharacterString_Value_Write_Property cfg st (some wp)).wp_data =
      some { wp with
        error_class := ERROR_CLASS_PROPERTY,
        error_code := ERROR_CODE_INVALID_DATA_TYPE } ∧
    (CharacterString_Value_Write_Property cfg st (some wp)).store = st := by
  rw [write_property_decoded cfg st wp n value hinst hdec]
  rcases hcase with ⟨hp, ht⟩ | ⟨hp, ht⟩
  · simp [Write_Property_switch, hp, write_property_type_valid, ht]
  · have hne : PROP_OUT_OF_SERVICE ≠ PROP_PRESENT_VALUE := by decide
    simp [Write_Property_switch, hp, hne, write_property_type_valid, ht]

/-- C4 at concrete inputs: a Boolean written to the present value, and a
character string written to the out-of-service flag, of object 0. -/
theorem write_type_validation_witness :
    ((CharacterString_Value_Write_Property sampleConfig emptyStore
      (some booleanToPresentValueWrite)).status = false ∧
    (CharacterString_Value_Write_Property sampleConfig emptyStore
      (some booleanToPresentValueWrite)).wp_data =
      some { booleanToPresentValueWrite with
        error_class := ERROR_CLASS_PROPERTY,
        error_code := ERROR_CODE_INVALID_DATA_TYPE } ∧
    (CharacterString_Value_Write_Property sampleConfig emptyStore
      (some booleanToPresentValueWrite)).store = emptyStore) ∧
    (CharacterString_Value_Write_Property sampleConfig emptyStore
      (some { helloWrite with object_property := PROP_OUT_OF_SERVICE })).status = false :=
  ⟨write_type_validation sampleConfig emptyStore booleanToPresentValueWrite 1
    (BACNET_APPLICATION_DATA_VALUE.Boolean true) (by decide) (by decide)
    (Or.inl ⟨rfl, by decide⟩),
   (write_type_validation sampleConfig emptyStore
    { helloWrite with object_property := PROP_OUT_OF_SERVICE } 8
    (BACNET_APPLICATION_DATA_VALUE.Character_String helloString) (by decide) (by decide)
    (Or.inr ⟨rfl, by decide⟩)).1⟩

theorem out_of_service_set_eq (cfg : Config) (st : Store) (i : Nat) (b : Bool)
    (hinst : i < cfg.MAX_CHARACTERSTRING_VALUES) :
    CharacterString_Value_Out_Of_Service_Set cfg st i b =
      { st with
        Out_Of_Service := Function.update st.Out_Of_Service i b,
        Changed := if st.Out_Of_Service i != b then Function.update st.Changed i true
          else st.Changed } := by
  cases hs : st.Out_Of_Service i != b <;>
    simp [CharacterString_Value_Out_Of_Service_Set, instance_to_index_of_lt cfg _ hinst,
      hinst, hs]

/-- C5: for an existing object instance and a Boolean `b`, a write of
OUT_OF_SERVICE whose payload is the application-tagged encoding of `b` returns
true; afterwards the stored out-of-service flag is `b` (and the getter
`CharacterString_Value_Out_Of_Service` returns `b`), the change flag is the
flag before the call OR "the previous out-of-service value differs from `b`",
and the present values, names and descriptions, as well as the flags of the
other objects, are as before. -/
theorem write_out_of_service (cfg : Config) (st : Store)
    (wp : BACNET_WRITE_PROPERTY_DATA) (b : Bool)
    (hinst : wp.object_instance < cfg.MAX_CHARACTERSTRING_VALUES)
    (hprop : wp.object_property = PROP_OUT_OF_SERVICE)
    (hlen : wp.application_data_len = (application_boolean_bytes b).length)
    (hdata : wp.application_data.take (application_boolean_bytes b).length =
      application_boolean_bytes b) :
    (CharacterString_Value_Write_Property cfg st (some wp)).status = true ∧
    (CharacterString_Value_Write_Property cfg st (some wp)).store.Out_Of_Service
      wp.object_instance = b ∧
    CharacterString_Value_Out_Of_Service cfg
      (CharacterString_Value_Write_Property cfg st (some wp)).store wp.object_instance = b ∧
    (CharacterString_Value_Write_Property cfg st (some wp)).store.Changed
      wp.object_instance =
      (st.Changed wp.object_instance || (st.Out_Of_Service wp.object_instance != b)) ∧
    (CharacterString_Value_Write_Property cfg st (some wp)).store.Present_Value =
      st.Present_Value ∧
    (CharacterString_Value_Write_Property cfg st (some wp)).store.Object_Name =
      st.Object_Name ∧
    (CharacterString_Value_Write_Property cfg st (some wp)).store.Object_Description =
      st.Object_Description ∧
    (∀ j, j ≠ wp.object_instance →
      (CharacterString_Value_Write_Property cfg st (some wp)).store.Out_Of_Service j =
        st.Out_Of_Service j ∧
      (CharacterString_Value_Write_Property cfg st (some wp)).store.Changed j =
        st.Changed j) := by
  have hl1 : (application_boolean_bytes b).length = 1 := by
    cases b <;> rfl
  rw [hl1] at hlen hdata
  have hdec := decode_application_boolean cfg b wp.application_data hdata
  rw [← hlen] at hdec
  rw [write_property_decoded cfg st wp _ _ hinst hdec]
  have hne : PROP_OUT_OF_SERVICE ≠ PROP_PRESENT_VALUE := by decide
  simp only [Write_Property_switch, hprop, hne, if_false, if_true, write_property_type_valid,
    BACNET_APPLICATION_DATA_VALUE.tag, ne_eq, not_true_eq_false,
    BACNET_APPLICATION_DATA_VALUE.type_Boolean, out_of_service_set_eq cfg st _ b hinst,
    CharacterString_Value_Out_Of_Service, instance_to_index_of_lt cfg _ hinst, hinst]
  refine ⟨trivial, by simp, by simp, ?_, trivial, trivial, trivial, ?_⟩
  · cases hs : st.Out_Of_Service wp.object_instance != b <;> simp [hs]
  · intro j hj
    cases hs : st.Out_Of_Service wp.object_instance != b <;> simp [hs, hj]

/-- C5 at a concrete input: the Boolean true written to the out-of-service flag
of object 0 of the empty store. -/
theorem write_out_of_service_witness :
    (CharacterString_Value_Write_Property sampleConfig emptyStore
      (some outOfServiceWrite)).status = true ∧
    (CharacterString_Value_Write_Property sampleConfig emptyStore
      (some outOfServiceWrite)).store.Out_Of_Service 0 = true ∧
    (CharacterString_Value_Write_Property sampleConfig emptyStore
      (some outOfServiceWrite)).store.Changed 0 = true := by
  have h := write_out_of_service sampleConfig emptyStore outOfServiceWrite true
    (by decide) rfl rfl rfl
  exact ⟨h.1, h.2.1, h.2.2.2.1⟩

/-- C6 as stated fails: for an instance that does not exist, a write with an
empty payload returns false and leaves the error fields of the request as the
caller gave them, and a write whose payload cannot be decoded reports
(ERROR_CLASS_PROPERTY, ERROR_CODE_VALUE_OUT_OF_RANGE); neither reports
(ERROR_CLASS_OBJECT, ERROR_CODE_UNKNOWN_OBJECT). -/
theorem write_unknown_object_counterexample :
    sampleConfig.MAX_CHARACTERSTRING_VALUES ≤ emptyPayloadUnknownObjectWrite.object_instance ∧
    (CharacterString_Value_Write_Property sampleConfig emptyStore
      (some emptyPayloadUnknownObjectWrite)).wp_data = some emptyPayloadUnknownObjectWrite ∧
    emptyPayloadUnknownObjectWrite.error_class ≠ ERROR_CLASS_OBJECT ∧
    sampleConfig.MAX_CHARACTERSTRING_VALUES ≤ truncatedUnknownObjectWrite.object_instance ∧
    (CharacterString_Value_Write_Property sampleConfig emptyStore
      (some truncatedUnknownObjectWrite)).wp_data =
      some { truncatedUnknownObjectWrite with
        error_class := ERROR_CLASS_PROPERTY,
        error_code := ERROR_CODE_VALUE_OUT_OF_RANGE } ∧
    ERROR_CLASS_PROPERTY ≠ ERROR_CLASS_OBJECT := by
  decide

/-- C6, amended: for an object instance at or above
`MAX_CHARACTERSTRING_VALUES`, every property identifier and every payload, the
write returns false and does not change the store. When the payload is decoded
the error is (ERROR_CLASS_OBJECT, ERROR_CODE_UNKNOWN_OBJECT); the payload is
examined first, so a non-empty payload that cannot be decoded gives
(ERROR_CLASS_PROPERTY, ERROR_CODE_VALUE_OUT_OF_RANGE) and an empty payload
leaves the request as it was. -/
theorem write_unknown_object (cfg : Config) (st : Store) (wp : BACNET_WRITE_PROPERTY_DATA)
    (hinst : cfg.MAX_CHARACTERSTRING_VALUES ≤ wp.object_instance) :
    (CharacterString_Value_Write_Property cfg st (some wp)).status = false ∧
    (CharacterString_Value_Write_Property cfg st (some wp)).store = st ∧
    (∀ n value,
      bacapp_decode_application_data cfg wp.application_data wp.application_data_len =
        some (n, value) →
      (CharacterString_Value_Write_Property cfg st (some wp)).wp_data =
        some { wp with
          error_class := ERROR_CLASS_OBJECT, error_code := ERROR_CODE_UNKNOWN_OBJECT }) ∧
    (wp.application_data_len ≠ 0 →
      bacapp_decode_application_data cfg wp.application_data wp.application_data_len = none →
      (CharacterString_Value_Write_Property cfg st (some wp)).wp_data =
        some { wp with
          error_class := ERROR_CLASS_PROPERTY,
          error_code := ERROR_CODE_VALUE_OUT_OF_RANGE }) ∧
    (wp.application_data_len = 0 →
      (CharacterString_Value_Write_Property cfg st (some wp)).wp_data = some wp) := by
  have hidx : CharacterString_Value_Instance_To_Index cfg wp.object_instance
      ≥ cfg.MAX_CHARACTERSTRING_VALUES := by
    rw [instance_to_index_of_ge cfg _ hinst]
  by_cases hlen : wp.application_data_len = 0
  · refine ⟨by simp [CharacterString_Value_Write_Property, hlen],
      by simp [CharacterString_Value_Write_Property, hlen], ?_,
      fun h => absurd hlen h,
      fun _ => by simp [CharacterString_Value_Write_Property, hlen]⟩
    intro n value hdec
    exact absurd hlen (decode_application_data_len_ne_zero _ _ _ _ hdec)
  · cases hdec : bacapp_decode_application_data cfg wp.application_data wp.application_data_len
      with
    | none => simp [CharacterString_Value_Write_Property, hlen, hdec]
    | some r =>
      obtain ⟨n, value⟩ := r
      simp only [CharacterString_Value_Write_Property, hlen, if_false, hdec, hidx, if_true]
      simp

/-- C6, amended, at a concrete input: the encoding of "Hello" written to
instance 2 of a build with two objects. -/
theorem write_unknown_object_witness :
    (CharacterString_Value_Write_Property sampleConfig emptyStore
      (some { helloWrite with object_instance := 2 })).status = false ∧
    (CharacterString_Value_Write_Property sampleConfig emptyStore
      (some { helloWrite with object_instance := 2 })).store = emptyStore ∧
    (CharacterString_Value_Write_Property sampleConfig emptyStore
      (some { helloWrite with object_instance := 2 })).wp_data =
      some { helloWrite with
        object_instance := 2,
        error_class := ERROR_CLASS_OBJECT, error_code := ERROR_CODE_UNKNOWN_OBJECT } := by
  have h := write_unknown_object sampleConfig emptyStore
    { helloWrite with object_instance := 2 } (by decide)
  exact ⟨h.1, h.2.1, h.2.2.1 8
    (BACNET_APPLICATION_DATA_VALUE.Character_String helloString) (by decide)⟩

/-! ## The read dispatcher -/

/-- C7: read bounds. For a read request with a non-empty output buffer whose
object instance is at or above `MAX_CHARACTERSTRING_VALUES`, whatever the
property identifier and the array index, the read returns
`BACNET_STATUS_ERROR`, sets the error to (ERROR_CLASS_OBJECT,
ERROR_CODE_UNKNOWN_OBJECT), changes nothing else in the request and does not
change the store. -/
theorem read_unknown_object (cfg : Config) (st : Store) (rp : BACNET_READ_PROPERTY_DATA)
    (buffer : List Nat)
    (hbuf : rp.application_data = some buffer)
    (hlen : rp.application_data_len ≠ 0)
    (hinst : cfg.MAX_CHARACTERSTRING_VALUES ≤ rp.object_instance) :
    (CharacterString_Value_Read_Property cfg st (some rp)).apdu_len = BACNET_STATUS_ERROR ∧
    (CharacterString_Value_Read_Property cfg st (some rp)).rpdata =
      some { rp with
        error_class := ERROR_CLASS_OBJECT, error_code := ERROR_CODE_UNKNOWN_OBJECT } ∧
    (CharacterString_Value_Read_Property cfg st (some rp)).store = st := by
  have hidx : CharacterString_Value_Instance_To_Index cfg rp.object_instance
      ≥ cfg.MAX_CHARACTERSTRING_VALUES := by
    rw [instance_to_index_of_ge cfg _ hinst]
  simp only [CharacterString_Value_Read_Property, hbuf, hlen, if_false, hidx, if_true,
    and_self]

/-- C7 at a concrete input: the present value of instance 2 read in a build
with two objects. -/
theorem read_unknown_object_witness :
    (CharacterString_Value_Read_Property sampleConfig emptyStore
      (some { presentValueRead with object_instance := 2 })).apdu_len = BACNET_STATUS_ERROR ∧
    (CharacterString_Value_Read_Property sampleConfig emptyStore
      (some { presentValueRead with object_instance := 2 })).rpdata =
      some { presentValueRead with
        object_instance := 2,
        error_class := ERROR_CLASS_OBJECT, error_code := ERROR_CODE_UNKNOWN_OBJECT } ∧
    (CharacterString_Value_Read_Property sampleConfig emptyStore
      (some { presentValueRead with object_instance := 2 })).store = emptyStore :=
  read_unknown_object sampleConfig emptyStore { presentValueRead with object_instance := 2 }
    (List.replicate 16 0) rfl (by decide) (by decide)

theorem apdu_put_nonneg (apdu bytes : List Nat) : 0 ≤ (apdu_put apdu bytes).1 := by
  simp [apdu_put]

/-- For each of the eight properties the object has, the dispatch of a read
gives a length that is not negative and leaves the request as it was. -/
theorem read_switch_handled (cfg : Config) (st : Store) (rp : BACNET_READ_PROPERTY_DATA)
    (apdu : List Nat) (object_index : Nat) (cs : BACNET_CHARACTER_STRING)
    (hprop : rp.object_property = PROP_OBJECT_IDENTIFIER ∨
      rp.object_property = PROP_OBJECT_NAME ∨
      rp.object_property = PROP_DESCRIPTION ∨
      rp.object_property = PROP_OBJECT_TYPE ∨
      rp.object_property = PROP_PRESENT_VALUE ∨
      rp.object_property = PROP_STATUS_FLAGS ∨
      rp.object_property = PROP_EVENT_STATE ∨
      rp.object_property = PROP_OUT_OF_SERVICE) :
    0 ≤ (Read_Property_switch cfg st rp apdu object_index cs).1 ∧
    (Read_Property_switch cfg st rp apdu object_index cs).2.2 = rp := by
  unfold Read_Property_switch
  rcases hprop with h | h | h | h | h | h | h | h <;>
    simp only [h, PROP_OBJECT_IDENTIFIER, PROP_OBJECT_NAME, PROP_DESCRIPTION,
      PROP_OBJECT_TYPE, PROP_PRESENT_VALUE, PROP_STATUS_FLAGS, PROP_EVENT_STATE,
      PROP_OUT_OF_SERVICE, if_true, if_false, Nat.reduceEqDiff,
      encode_application_object_id, encode_application_character_string,
      encode_application_enumerated, encode_application_bitstring,
      encode_application_boolean] <;>
    (try split_ifs) <;>
    refine ⟨?_, ?_⟩ <;>
    first
      | rfl
      | trivial
      | exact apdu_put_nonneg _ _
      | exact le_refl _
      | simp [apdu_put]

/-- For any other property identifier the dispatch of a read reports an
unknown property. -/
theorem read_switch_unhandled (cfg : Config) (st : Store) (rp : BACNET_READ_PROPERTY_DATA)
    (apdu : List Nat) (object_index : Nat) (cs : BACNET_CHARACTER_STRING)
    (hprop : ¬ (rp.object_property = PROP_OBJECT_IDENTIFIER ∨
      rp.object_property = PROP_OBJECT_NAME ∨
      rp.object_property = PROP_DESCRIPTION ∨
      rp.object_property = PROP_OBJECT_TYPE ∨
      rp.object_property = PROP_PRESENT_VALUE ∨
      rp.object_property = PROP_STATUS_FLAGS ∨
      rp.object_property = PROP_EVENT_STATE ∨
      rp.object_property = PROP_OUT_OF_SERVICE)) :
    Read_Property_switch cfg st rp apdu object_index cs =
      (BACNET_STATUS_ERROR, apdu,
        { rp with
          error_class := ERROR_CLASS_PROPERTY,
          error_code := ERROR_CODE_UNKNOWN_PROPERTY }) := by
  simp only [not_or] at hprop
  obtain ⟨h1, h2, h3, h4, h5, h6, h7, h8⟩ := hprop
  simp only [Read_Property_switch, h1, h2, h3, h4, h5, h6, h7, h8, if_false]

/-- C8 as stated fails: with an array index other than `BACNET_ARRAY_ALL`, a
read of a property this object does not have reports
ERROR_CODE_UNKNOWN_PROPERTY, not ERROR_CODE_PROPERTY_IS_NOT_AN_ARRAY, and a
read with a buffer of declared size 0 returns 0, not `BACNET_STATUS_ERROR`. -/
theorem read_array_index_counterexample :
    unknownPropertyIndexedRead.object_instance < sampleConfig.MAX_CHARACTERSTRING_VALUES ∧
    unknownPropertyIndexedRead.array_index ≠ BACNET_ARRAY_ALL ∧
    (CharacterString_Value_Read_Property sampleConfig emptyStore
      (some unknownPropertyIndexedRead)).rpdata =
      some { unknownPropertyIndexedRead with
        error_class := ERROR_CLASS_PROPERTY,
        error_code := ERROR_CODE_UNKNOWN_PROPERTY } ∧
    ERROR_CODE_UNKNOWN_PROPERTY ≠ ERROR_CODE_PROPERTY_IS_NOT_AN_ARRAY ∧
    emptyBufferIndexedRead.object_instance < sampleConfig.MAX_CHARACTERSTRING_VALUES ∧
    emptyBufferIndexedRead.array_index ≠ BACNET_ARRAY_ALL ∧
    (CharacterString_Value_Read_Property sampleConfig emptyStore
      (some emptyBufferIndexedRead)).apdu_len = 0 ∧
    (0 : Int) ≠ BACNET_STATUS_ERROR := by
  decide

/-- C8, amended: for an existing object instance, a non-empty output buffer
and an array index other than `BACNET_ARRAY_ALL`, the read returns
`BACNET_STATUS_ERROR` and does not change the store; the error is
(ERROR_CLASS_PROPERTY, ERROR_CODE_PROPERTY_IS_NOT_AN_ARRAY) for each of the
eight properties the object has, and (ERROR_CLASS_PROPERTY,
ERROR_CODE_UNKNOWN_PROPERTY) for every other property identifier, because the
array index is examined after the dispatch and only when the dispatch
succeeded. -/
theorem read_array_index_rejected (cfg : Config) (st : Store)
    (rp : BACNET_READ_PROPERTY_DATA) (buffer : List Nat)
    (hbuf : rp.application_data = some buffer)
    (hlen : rp.application_data_len ≠ 0)
    (hinst : rp.object_instance < cfg.MAX_CHARACTERSTRING_VALUES)
    (hidx : rp.array_index ≠ BACNET_ARRAY_ALL) :
    (CharacterString_Value_Read_Property cfg st (some rp)).apdu_len = BACNET_STATUS_ERROR ∧
    (CharacterString_Value_Read_Property cfg st (some rp)).store = st ∧
    ((rp.object_property = PROP_OBJECT_IDENTIFIER ∨
      rp.object_property = PROP_OBJECT_NAME ∨
      rp.object_property = PROP_DESCRIPTION ∨
      rp.object_property = PROP_OBJECT_TYPE ∨
      rp.object_property = PROP_PRESENT_VALUE ∨
      rp.object_property = PROP_STATUS_FLAGS ∨
      rp.object_property = PROP_EVENT_STATE ∨
      rp.object_property = PROP_OUT_OF_SERVICE) →
      ∃ rp2, (CharacterString_Value_Read_Property cfg st (some rp)).rpdata = some rp2 ∧
        rp2.error_class = ERROR_CLASS_PROPERTY ∧
        rp2.error_code = ERROR_CODE_PROPERTY_IS_NOT_AN_ARRAY) ∧
    (¬ (rp.object_property = PROP_OBJECT_IDENTIFIER ∨
      rp.object_property = PROP_OBJECT_NAME ∨
      rp.object_property = PROP_DESCRIPTION ∨
      rp.object_property = PROP_OBJECT_TYPE ∨
      rp.object_property = PROP_PRESENT_VALUE ∨
      rp.object_property = PROP_STATUS_FLAGS ∨
      rp.object_property = PROP_EVENT_STATE ∨
      rp.object_property = PROP_OUT_OF_SERVICE) →
      (CharacterString_Value_Read_Property cfg st (some rp)).rpdata =
        some { rp with
          error_class := ERROR_CLASS_PROPERTY,
          error_code := ERROR_CODE_UNKNOWN_PROPERTY }) := by
  have hi : ¬ (CharacterString_Value_Instance_To_Index cfg rp.object_instance
      ≥ cfg.MAX_CHARACTERSTRING_VALUES) := by
    rw [instance_to_index_of_lt cfg _ hinst]; omega
  by_cases hprop : rp.object_property = PROP_OBJECT_IDENTIFIER ∨
      rp.object_property = PROP_OBJECT_NAME ∨
      rp.object_property = PROP_DESCRIPTION ∨
      rp.object_property = PROP_OBJECT_TYPE ∨
      rp.object_property = PROP_PRESENT_VALUE ∨
      rp.object_property = PROP_STATUS_FLAGS ∨
      rp.object_property = PROP_EVENT_STATE ∨
      rp.object_property = PROP_OUT_OF_SERVICE
  · obtain ⟨hnn, hrp⟩ := read_switch_handled cfg st rp buffer
      (CharacterString_Value_Instance_To_Index cfg rp.object_instance)
      { encoding := 0, value := [] } hprop
    have hst : rp.object_property ≠ PROP_STATE_TEXT := by
      rcases hprop with h | h | h | h | h | h | h | h <;> rw [h] <;> decide
    have hcond : (Read_Property_switch cfg st rp buffer
        (CharacterString_Value_Instance_To_Index cfg rp.object_instance)
        { encoding := 0, value := [] }).1 ≥ 0 ∧
        (Read_Property_switch cfg st rp buffer
          (CharacterString_Value_Instance_To_Index cfg rp.object_instance)
          { encoding := 0, value := [] }).2.2.object_property ≠ PROP_STATE_TEXT ∧
        (Read_Property_switch cfg st rp buffer
          (CharacterString_Value_Instance_To_Index cfg rp.object_instance)
          { encoding := 0, value := [] }).2.2.array_index ≠ BACNET_ARRAY_ALL := by
      rw [hrp]; exact ⟨hnn, hst, hidx⟩
    simp only [CharacterString_Value_Read_Property, hbuf, hlen, if_false, hi]
    rw [if_pos hcond]
    exact ⟨rfl, rfl, fun _ => ⟨_, rfl, rfl, rfl⟩, fun h => absurd hprop h⟩
  · have hsw := read_switch_unhandled cfg st rp buffer
      (CharacterString_Value_Instance_To_Index cfg rp.object_instance)
      { encoding := 0, value := [] } hprop
    have hneg : ¬ (BACNET_STATUS_ERROR ≥ 0) := by decide
    simp only [CharacterString_Value_Read_Property, hbuf, hlen, if_false, hi, hsw, hneg,
      false_and]
    exact ⟨trivial, trivial, fun h => absurd h hprop, fun _ => trivial⟩

/-- C8, amended, at concrete inputs: the present value and property 87 of
object 0, each read with array index 1. -/
theorem read_array_index_rejected_witness :
    (CharacterString_Value_Read_Property sampleConfig emptyStore
      (some { presentValueRead with array_index := 1 })).apdu_len = BACNET_STATUS_ERROR ∧
    (∃ rp2, (CharacterString_Value_Read_Property sampleConfig emptyStore
        (some { presentValueRead with array_index := 1 })).rpdata = some rp2 ∧
      rp2.error_class = ERROR_CLASS_PROPERTY ∧
      rp2.error_code = ERROR_CODE_PROPERTY_IS_NOT_AN_ARRAY) ∧
    (CharacterString_Value_Read_Property sampleConfig emptyStore
      (some unknownPropertyIndexedRead)).apdu_len = BACNET_STATUS_ERROR :=
  ⟨(read_array_index_rejected sampleConfig emptyStore
      { presentValueRead with array_index := 1 } (List.replicate 16 0)
      rfl (by decide) (by decide) (by decide)).1,
   (read_array_index_rejected sampleConfig emptyStore
      { presentValueRead with array_index := 1 } (List.replicate 16 0)
      rfl (by decide) (by decide) (by decide)).2.2.1
      (Or.inr (Or.inr (Or.inr (Or.inr (Or.inl rfl))))),
   (read_array_index_rejected sampleConfig emptyStore unknownPropertyIndexedRead
      (List.replicate 16 0) rfl (by decide) (by decide) (by decide)).1⟩

/-- Every false return of the dispatch of a write carries one of four error
pairs, written into the request. -/
theorem write_switch_failure (cfg : Config) (st : Store) (wp : BACNET_WRITE_PROPERTY_DATA)
    (value : BACNET_APPLICATION_DATA_VALUE)
    (h : (Write_Property_switch cfg st wp value).status = false) :
    ∃ ec : Nat × Nat,
      (ec = (ERROR_CLASS_PROPERTY, ERROR_CODE_VALUE_OUT_OF_RANGE) ∨
        ec = (ERROR_CLASS_PROPERTY, ERROR_CODE_INVALID_DATA_TYPE) ∨
        ec = (ERROR_CLASS_PROPERTY, ERROR_CODE_WRITE_ACCESS_DENIED) ∨
        ec = (ERROR_CLASS_PROPERTY, ERROR_CODE_UNKNOWN_PROPERTY)) ∧
      (Write_Property_switch cfg st wp value).wp_data =
        some { wp with error_class := ec.1, error_code := ec.2 } := by
  unfold Write_Property_switch at h ⊢
  by_cases hp : wp.object_property = PROP_PRESENT_VALUE
  · by_cases ht : value.tag = BACNET_APPLICATION_TAG_CHARACTER_STRING
    · cases hr : (CharacterString_Value_Present_Value_Set cfg st wp.object_instance
          value.type_Character_String).1
      · exact ⟨(ERROR_CLASS_PROPERTY, ERROR_CODE_VALUE_OUT_OF_RANGE), Or.inl rfl,
          by simp [hp, write_property_type_valid, ht, hr]⟩
      · simp [hp, write_property_type_valid, ht, hr] at h
    · exact ⟨(ERROR_CLASS_PROPERTY, ERROR_CODE_INVALID_DATA_TYPE), Or.inr (Or.inl rfl),
        by simp [hp, write_property_type_valid, ht]⟩
  · by_cases hp2 : wp.object_property = PROP_OUT_OF_SERVICE
    · have hne : PROP_OUT_OF_SERVICE ≠ PROP_PRESENT_VALUE := by decide
      by_cases ht : value.tag = BACNET_APPLICATION_TAG_BOOLEAN
      · simp [hne, hp2, write_property_type_valid, ht] at h
      · exact ⟨(ERROR_CLASS_PROPERTY, ERROR_CODE_INVALID_DATA_TYPE), Or.inr (Or.inl rfl),
          by simp [hne, hp2, write_property_type_valid, ht]⟩
    · by_cases hp3 : wp.object_property = PROP_OBJECT_IDENTIFIER ∨
          wp.object_property = PROP_OBJECT_NAME ∨
          wp.object_property = PROP_DESCRIPTION ∨
          wp.object_property = PROP_OBJECT_TYPE ∨
          wp.object_property = PROP_STATUS_FLAGS ∨
          wp.object_property = PROP_EVENT_STATE
      · exact ⟨(ERROR_CLASS_PROPERTY, ERROR_CODE_WRITE_ACCESS_DENIED),
          Or.inr (Or.inr (Or.inl rfl)), by simp only [hp, hp2, hp3, if_false, if_true]⟩
      · exact ⟨(ERROR_CLASS_PROPERTY, ERROR_CODE_UNKNOWN_PROPERTY),
          Or.inr (Or.inr (Or.inr rfl)), by simp only [hp, hp2, hp3, if_false]⟩

/-- C9 as stated fails: a write with an empty payload returns false and leaves
`error_class` and `error_code` as the caller gave them, whatever they were; it
does not set (ERROR_CLASS_PROPERTY, ERROR_CODE_VALUE_OUT_OF_RANGE). -/
theorem write_decode_failure_counterexample :
    emptyPayloadWrite.application_data_len = 0 ∧
    bacapp_decode_application_data sampleConfig emptyPayloadWrite.application_data
      emptyPayloadWrite.application_data_len = none ∧
    (CharacterString_Value_Write_Property sampleConfig emptyStore
      (some emptyPayloadWrite)).status = false ∧
    (CharacterString_Value_Write_Property sampleConfig emptyStore
      (some emptyPayloadWrite)).wp_data = some emptyPayloadWrite ∧
    (emptyPayloadWrite.error_class, emptyPayloadWrite.error_code) ≠
      (ERROR_CLASS_PROPERTY, ERROR_CODE_VALUE_OUT_OF_RANGE) ∧
    (CharacterString_Value_Write_Property sampleConfig emptyStore
      (some { emptyPayloadWrite with error_class := 5, error_code := 6 })).wp_data =
      some { emptyPayloadWrite with error_class := 5, error_code := 6 } := by
  decide

/-- C9, amended: a write whose payload is not empty and cannot be decoded
returns false with the error (ERROR_CLASS_PROPERTY,
ERROR_CODE_VALUE_OUT_OF_RANGE); every false return of a write whose payload is
not empty carries one of five error pairs that the call writes into the
request; a write with an empty payload returns false and leaves the request,
error fields included, as it was. -/
theorem write_failure_reports_error (cfg : Config) (st : Store)
    (wp : BACNET_WRITE_PROPERTY_DATA) :
    (wp.application_data_len ≠ 0 →
      bacapp_decode_application_data cfg wp.application_data wp.application_data_len = none →
      (CharacterString_Value_Write_Property cfg st (some wp)).status = false ∧
      (CharacterString_Value_Write_Property cfg st (some wp)).wp_data =
        some { wp with
          error_class := ERROR_CLASS_PROPERTY,
          error_code := ERROR_CODE_VALUE_OUT_OF_RANGE }) ∧
    (wp.application_data_len ≠ 0 →
      (CharacterString_Value_Write_Property cfg st (some wp)).status = false →
      ∃ ec : Nat × Nat,
        (ec = (ERROR_CLASS_PROPERTY, ERROR_CODE_VALUE_OUT_OF_RANGE) ∨
          ec = (ERROR_CLASS_OBJECT, ERROR_CODE_UNKNOWN_OBJECT) ∨
          ec = (ERROR_CLASS_PROPERTY, ERROR_CODE_INVALID_DATA_TYPE) ∨
          ec = (ERROR_CLASS_PROPERTY, ERROR_CODE_WRITE_ACCESS_DENIED) ∨
          ec = (ERROR_CLASS_PROPERTY, ERROR_CODE_UNKNOWN_PROPERTY)) ∧
        (CharacterString_Value_Write_Property cfg st (some wp)).wp_data =
          some { wp with error_class := ec.1, error_code := ec.2 }) ∧
    (wp.application_data_len = 0 →
      (CharacterString_Value_Write_Property cfg st (some wp)).status = false ∧
      (CharacterString_Value_Write_Property cfg st (some wp)).wp_data = some wp) := by
  refine ⟨?_, ?_, ?_⟩
  · intro hlen hdec
    simp [CharacterString_Value_Write_Property, hlen, hdec]
  · intro hlen hst
    cases hdec : bacapp_decode_application_data cfg wp.application_data wp.application_data_len
      with
    | none =>
      exact ⟨(ERROR_CLASS_PROPERTY, ERROR_CODE_VALUE_OUT_OF_RANGE), Or.inl rfl,
        by simp [CharacterString_Value_Write_Property, hlen, hdec]⟩
    | some r =>
      obtain ⟨n, value⟩ := r
      by_cases hinst : wp.object_instance < cfg.MAX_CHARACTERSTRING_VALUES
      · rw [write_property_decoded cfg st wp n value hinst hdec] at hst ⊢
        obtain ⟨ec, hec, hw⟩ := write_switch_failure cfg st wp value hst
        refine ⟨ec, ?_, hw⟩
        rcases hec with h | h | h | h
        · exact Or.inl h
        · exact Or.inr (Or.inr (Or.inl h))
        · exact Or.inr (Or.inr (Or.inr (Or.inl h)))
        · exact Or.inr (Or.inr (Or.inr (Or.inr h)))
      · have hidx : CharacterString_Value_Instance_To_Index cfg wp.object_instance
            ≥ cfg.MAX_CHARACTERSTRING_VALUES := by
          rw [instance_to_index_of_ge cfg _ (Nat.le_of_not_lt hinst)]
        exact ⟨(ERROR_CLASS_OBJECT, ERROR_CODE_UNKNOWN_OBJECT), Or.inr (Or.inl rfl),
          by simp only [CharacterString_Value_Write_Property, hlen, if_false, hdec, hidx,
            if_true]⟩
  · intro hlen
    simp [CharacterString_Value_Write_Property, hlen]

/-- C9, amended, at a concrete input: a one-byte payload that stops inside the
tag header of a character string, written to the present value of object 0. -/
theorem write_failure_reports_error_witness :
    (CharacterString_Value_Write_Property sampleConfig emptyStore
      (some { helloWrite with application_data := [117], application_data_len := 1 })).status
      = false ∧
    (CharacterString_Value_Write_Property sampleConfig emptyStore
      (some { helloWrite with application_data := [117], application_data_len := 1 })).wp_data
      = some { helloWrite with
          application_data := [117], application_data_len := 1,
          error_class := ERROR_CLASS_PROPERTY,
          error_code := ERROR_CODE_VALUE_OUT_OF_RANGE } :=
  (write_failure_reports_error sampleConfig emptyStore
    { helloWrite with application_data := [117], application_data_len := 1 }).1
    (by decide) (by decide)

/-! ## Rejected writes and the store -/

/-- The setter given a candidate longer than the capacity, which is more than
the C type holds and than the decoder yields: the copy is rejected after the
change flag has been raised for a different stored string. -/
theorem present_value_set_too_long (cfg : Config) (st : Store) (i : Nat)
    (v : BACNET_CHARACTER_STRING) (hinst : i < cfg.MAX_CHARACTERSTRING_VALUES)
    (hlong : cfg.CHARACTER_STRING_CAPACITY < v.value.length) :
    CharacterString_Value_Present_Value_Set cfg st i v =
      (false, { st with
        Changed := if characterstring_same (st.Present_Value i) v then st.Changed
          else Function.update st.Changed i true }) := by
  cases hs : characterstring_same (st.Present_Value i) v <;>
    simp [CharacterString_Value_Present_Value_Set, instance_to_index_of_lt cfg _ hinst,
      hinst, hs, characterstring_copy_too_long cfg _ _ hlong]

/-- Every character string the decoder yields is within the string capacity
(for a decoded value of another kind the unused member is the empty string). -/
theorem decoded_character_string_fits (cfg : Config) (data : List Nat) (len n : Nat)
    (value : BACNET_APPLICATION_DATA_VALUE)
    (hdec : bacapp_decode_application_data cfg data len = some (n, value)) :
    value.type_Character_String.value.length ≤ cfg.CHARACTER_STRING_CAPACITY := by
  have hdata : ∀ apdu t l m v, bacapp_decode_data cfg apdu t l = some (m, v) →
      v.type_Character_String.value.length ≤ cfg.CHARACTER_STRING_CAPACITY := by
    intro apdu t l m v h
    unfold bacapp_decode_data at h
    split_ifs at h
    all_goals first
      | (simp only [Option.some.injEq, Prod.mk.injEq] at h
         obtain ⟨_, rfl⟩ := h
         simp [BACNET_APPLICATION_DATA_VALUE.type_Character_String])
      | (split at h
         · exact absurd h (by simp)
         · split_ifs at h with hc
           simp only [Option.some.injEq, Prod.mk.injEq] at h
           obtain ⟨_, rfl⟩ := h
           first
             | exact hc
             | simp [BACNET_APPLICATION_DATA_VALUE.type_Character_String])
  unfold bacapp_decode_application_data at hdec
  split at hdec
  · exact absurd hdec (by simp)
  · split_ifs at hdec
    split at hdec
    · exact absurd hdec (by simp)
    · split at hdec
      · exact absurd hdec (by simp)
      · rename_i hd
        simp only [Option.some.injEq, Prod.mk.injEq] at hdec
        obtain ⟨_, rfl⟩ := hdec
        exact hdata _ _ _ _ _ hd

/-- What a write does to the store: it leaves it as it was; or it succeeds in
storing a present value within the capacity, raising the change flag when the
value is a different one; or it succeeds in storing an out-of-service flag,
raising the change flag when the flag is a different one. -/
theorem write_property_store_cases (cfg : Config) (st : Store)
    (wp : BACNET_WRITE_PROPERTY_DATA) :
    (CharacterString_Value_Write_Property cfg st (some wp)).store = st ∨
    (∃ s : BACNET_CHARACTER_STRING,
      (CharacterString_Value_Write_Property cfg st (some wp)).status = true ∧
      (CharacterString_Value_Write_Property cfg st (some wp)).store =
        { st with
          Present_Value := Function.update st.Present_Value wp.object_instance s,
          Changed :=
            if characterstring_same (st.Present_Value wp.object_instance) s then st.Changed
            else Function.update st.Changed wp.object_instance true }) ∨
    (∃ b : Bool,
      (CharacterString_Value_Write_Property cfg st (some wp)).status = true ∧
      (CharacterString_Value_Write_Property cfg st (some wp)).store =
        { st with
          Out_Of_Service := Function.update st.Out_Of_Service wp.object_instance b,
          Changed :=
            if st.Out_Of_Service wp.object_instance != b then
              Function.update st.Changed wp.object_instance true
            else st.Changed }) := by
  by_cases hlen : wp.application_data_len = 0
  · exact Or.inl (by simp [CharacterString_Value_Write_Property, hlen])
  cases hdec : bacapp_decode_application_data cfg wp.application_data
    wp.application_data_len with
  | none => exact Or.inl (by simp [CharacterString_Value_Write_Property, hlen, hdec])
  | some r =>
    obtain ⟨n, value⟩ := r
    by_cases hinst : wp.object_instance < cfg.MAX_CHARACTERSTRING_VALUES
    · rw [write_property_decoded cfg st wp n value hinst hdec]
      unfold Write_Property_switch
      by_cases hp : wp.object_property = PROP_PRESENT_VALUE
      · by_cases ht : value.tag = BACNET_APPLICATION_TAG_CHARACTER_STRING
        · have hfit := decoded_character_string_fits cfg _ _ n value hdec
          refine Or.inr (Or.inl ⟨value.type_Character_String, ?_, ?_⟩) <;>
            simp [hp, write_property_type_valid, ht,
              present_value_set_eq cfg st _ _ hinst hfit]
        · exact Or.inl (by simp [hp, write_property_type_valid, ht])
      · by_cases hp2 : wp.object_property = PROP_OUT_OF_SERVICE
        · have hne : PROP_OUT_OF_SERVICE ≠ PROP_PRESENT_VALUE := by decide
          by_cases ht : value.tag = BACNET_APPLICATION_TAG_BOOLEAN
          · refine Or.inr (Or.inr ⟨value.type_Boolean, ?_, ?_⟩) <;>
              simp [hne, hp2, write_property_type_valid, ht,
                out_of_service_set_eq cfg st _ _ hinst]
          · exact Or.inl (by simp [hne, hp2, write_property_type_valid, ht])
        · refine Or.inl ?_
          simp only [hp, hp2, if_false]
          split_ifs <;> rfl
    · have hidx : CharacterString_Value_Instance_To_Index cfg wp.object_instance
          ≥ cfg.MAX_CHARACTERSTRING_VALUES := by
        rw [instance_to_index_of_ge cfg _ (Nat.le_of_not_lt hinst)]
      exact Or.inl (by
        simp only [CharacterString_Value_Write_Property, hlen, if_false, hdec, hidx,
          if_true])

/-- C10: no partial effects on failure. For every write request (any
instance, property identifier and payload, the null request included), if
`CharacterString_Value_Write_Property` returns false then the whole store
(present value, out-of-service flag, change flag, name and description of
every object) is what it was before the call. -/
theorem write_failure_leaves_store (cfg : Config) (st : Store)
    (wp : Option BACNET_WRITE_PROPERTY_DATA)
    (hst : (CharacterString_Value_Write_Property cfg st wp).status = false) :
    (CharacterString_Value_Write_Property cfg st wp).store = st := by
  cases wp with
  | none => rfl
  | some wp =>
    rcases write_property_store_cases cfg st wp with h | ⟨s, hs, _⟩ | ⟨b, hb, _⟩
    · exact h
    · rw [hs] at hst; exact absurd hst (by simp)
    · rw [hb] at hst; exact absurd hst (by simp)

/-- C10 at concrete inputs: a write to a read-only property, and a write of a
nine-character string in a build whose strings hold eight characters, which
the decoder rejects; both leave the empty store as it was. -/
theorem write_failure_leaves_store_witness :
    (CharacterString_Value_Write_Property sampleConfig emptyStore (some nameWrite)).store
      = emptyStore ∧
    (CharacterString_Value_Write_Property sampleConfig emptyStore (some tooLongWrite)).status
      = false ∧
    (CharacterString_Value_Write_Property sampleConfig emptyStore (some tooLongWrite)).store
      = emptyStore :=
  ⟨write_failure_leaves_store sampleConfig emptyStore (some nameWrite) (by decide),
   by decide,
   write_failure_leaves_store sampleConfig emptyStore (some tooLongWrite) (by decide)⟩

/-- What a rejected write can touch: whenever a write returns false, the
present values, out-of-service flags, names and descriptions of all objects
and the change flags of the objects other than the addressed one are as
before. -/
theorem write_failure_frame (cfg : Config) (st : Store) (wp : BACNET_WRITE_PROPERTY_DATA)
    (hst : (CharacterString_Value_Write_Property cfg st (some wp)).status = false) :
    (CharacterString_Value_Write_Property cfg st (some wp)).store.Present_Value =
      st.Present_Value ∧
    (CharacterString_Value_Write_Property cfg st (some wp)).store.Out_Of_Service =
      st.Out_Of_Service ∧
    (CharacterString_Value_Write_Property cfg st (some wp)).store.Object_Name =
      st.Object_Name ∧
    (CharacterString_Value_Write_Property cfg st (some wp)).store.Object_Description =
      st.Object_Description ∧
    (∀ j, j ≠ wp.object_instance →
      (CharacterString_Value_Write_Property cfg st (some wp)).store.Changed j =
        st.Changed j) := by
  by_cases hlen : wp.application_data_len = 0
  · simp [CharacterString_Value_Write_Property, hlen]
  cases hdec : bacapp_decode_application_data cfg wp.application_data wp.application_data_len
    with
  | none => simp [CharacterString_Value_Write_Property, hlen, hdec]
  | some r =>
    obtain ⟨n, value⟩ := r
    by_cases hinst : wp.object_instance < cfg.MAX_CHARACTERSTRING_VALUES
    · rw [write_property_decoded cfg st wp n value hinst hdec] at hst ⊢
      unfold Write_Property_switch at hst ⊢
      by_cases hp : wp.object_property = PROP_PRESENT_VALUE
      · by_cases ht : value.tag = BACNET_APPLICATION_TAG_CHARACTER_STRING
        · by_cases hfit : value.type_Character_String.value.length
              ≤ cfg.CHARACTER_STRING_CAPACITY
          · simp [hp, write_property_type_valid, ht,
              present_value_set_eq cfg st _ _ hinst hfit] at hst
          · have hlong := Nat.lt_of_not_le hfit
            simp only [hp, write_property_type_valid, ht, ne_eq, not_true_eq_false,
              if_false, if_true, present_value_set_too_long cfg st _ _ hinst hlong]
            refine ⟨rfl, rfl, rfl, rfl, ?_⟩
            intro j hj
            cases hs : characterstring_same (st.Present_Value wp.object_instance)
              value.type_Character_String <;> simp [hj]
        · simp [hp, write_property_type_valid, ht]
      · by_cases hp2 : wp.object_property = PROP_OUT_OF_SERVICE
        · have hne : PROP_OUT_OF_SERVICE ≠ PROP_PRESENT_VALUE := by decide
          by_cases ht : value.tag = BACNET_APPLICATION_TAG_BOOLEAN
          · simp [hne, hp2, write_property_type_valid, ht] at hst
          · simp [hne, hp2, write_property_type_valid, ht]
        · simp only [hp, hp2, if_false]
          split_ifs <;> simp
    · have hidx : CharacterString_Value_Instance_To_Index cfg wp.object_instance
          ≥ cfg.MAX_CHARACTERSTRING_VALUES := by
        rw [instance_to_index_of_ge cfg _ (Nat.le_of_not_lt hinst)]
      simp only [CharacterString_Value_Write_Property, hlen, if_false, hdec, hidx, if_true]
      simp

/-! ## Reads of the flags -/

/-- With array index "all", an existing instance and a non-empty buffer, a
read is the dispatch on the property identifier. -/
theorem read_property_all (cfg : Config) (st : Store) (rp : BACNET_READ_PROPERTY_DATA)
    (buffer : List Nat)
    (hbuf : rp.application_data = some buffer)
    (hlen : rp.application_data_len ≠ 0)
    (hinst : rp.object_instance < cfg.MAX_CHARACTERSTRING_VALUES)
    (hidx : (Read_Property_switch cfg st rp buffer rp.object_instance
      { encoding := 0, value := [] }).2.2.array_index = BACNET_ARRAY_ALL) :
    CharacterString_Value_Read_Property cfg st (some rp) =
      { apdu_len := (Read_Property_switch cfg st rp buffer rp.object_instance
          { encoding := 0, value := [] }).1,
        rpdata := some { (Read_Property_switch cfg st rp buffer rp.object_instance
            { encoding := 0, value := [] }).2.2 with
          application_data := some (Read_Property_switch cfg st rp buffer rp.object_instance
            { encoding := 0, value := [] }).2.1 },
        store := st } := by
  simp only [CharacterString_Value_Read_Property, hbuf, hlen, if_false,
    instance_to_index_of_lt cfg _ hinst]
  rw [if_neg (Nat.not_le.mpr hinst), if_neg (fun h => h.2.2 hidx)]

/-- Only the decoding of a character string looks at the string capacity. -/
theorem bacapp_decode_data_config (cfg cfg2 : Config) (apdu : List Nat) (t l : Nat)
    (ht : t ≠ BACNET_APPLICATION_TAG_CHARACTER_STRING) :
    bacapp_decode_data cfg apdu t l = bacapp_decode_data cfg2 apdu t l := by
  unfold bacapp_decode_data
  simp only [ht, if_false]

/-- The decoder gives back the four status flags whose encoding it is given. -/
theorem decode_application_status_flags (cfg : Config) (b : Bool) (data : List Nat)
    (hdata : data.take 3 =
      application_bitstring_bytes { bits := [false, false, false, b] }) :
    bacapp_decode_application_data cfg data 3 =
      some (3, BACNET_APPLICATION_DATA_VALUE.Bit_String
        { bits := [false, false, false, b] }) := by
  have h := decode_application_tagged cfg BACNET_APPLICATION_TAG_BIT_STRING 2 3
    [4, if b then 16 else 0] data (by omega) (by cases b <;> simpa using hdata)
  rw [h, bacapp_decode_data_config cfg sampleConfig _ _ _ (by decide)]
  cases b <;> decide

theorem status_flags_bytes_length (b : Bool) :
    (application_bitstring_bytes { bits := [false, false, false, b] }).length = 3 := by
  cases b <;> decide

/-- C11: for an existing object instance, a read of STATUS_FLAGS with array
index ALL encodes an application-tagged bit string of exactly four bits, in
the order in-alarm, fault, overridden, out-of-service: the first three are
false and the fourth is the stored out-of-service flag of the object (three
bytes are written and returned, and the decoder gives the four bits back). A
read of OUT_OF_SERVICE encodes that same flag as an application-tagged
Boolean. -/
theorem read_status_flags_and_out_of_service (cfg : Config) (st : Store)
    (rp : BACNET_READ_PROPERTY_DATA) (buffer : List Nat)
    (hbuf : rp.application_data = some buffer)
    (hlen : rp.application_data_len ≠ 0)
    (hinst : rp.object_instance < cfg.MAX_CHARACTERSTRING_VALUES)
    (hidx : rp.array_index = BACNET_ARRAY_ALL) :
    (rp.object_property = PROP_STATUS_FLAGS →
      CharacterString_Value_Read_Property cfg st (some rp) =
        { apdu_len := 3,
          rpdata := some { rp with
            application_data := some
              (application_bitstring_bytes
                { bits := [false, false, false, st.Out_Of_Service rp.object_instance] } ++
                buffer.drop 3) },
          store := st } ∧
      bacapp_decode_application_data cfg
        (application_bitstring_bytes
          { bits := [false, false, false, st.Out_Of_Service rp.object_instance] } ++
          buffer.drop 3) 3 =
        some (3, BACNET_APPLICATION_DATA_VALUE.Bit_String
          { bits := [false, false, false, st.Out_Of_Service rp.object_instance] })) ∧
    (rp.object_property = PROP_OUT_OF_SERVICE →
      CharacterString_Value_Read_Property cfg st (some rp) =
        { apdu_len := 1,
          rpdata := some { rp with
            application_data := some
              (application_boolean_bytes (st.Out_Of_Service rp.object_instance) ++
                buffer.drop 1) },
          store := st } ∧
      bacapp_decode_application_data cfg
        (application_boolean_bytes (st.Out_Of_Service rp.object_instance) ++
          buffer.drop 1) 1 =
        some (1, BACNET_APPLICATION_DATA_VALUE.Boolean
          (st.Out_Of_Service rp.object_instance))) := by
  constructor
  · intro hprop
    have hsw : Read_Property_switch cfg st rp buffer rp.object_instance
        { encoding := 0, value := [] } =
        (3, application_bitstring_bytes
            { bits := [false, false, false, st.Out_Of_Service rp.object_instance] } ++
          buffer.drop 3, rp) := by
      cases hb : st.Out_Of_Service rp.object_instance <;>
        simp [Read_Property_switch, hprop, PROP_STATUS_FLAGS, PROP_OBJECT_IDENTIFIER,
          PROP_OBJECT_NAME, PROP_DESCRIPTION, PROP_OBJECT_TYPE, PROP_PRESENT_VALUE,
          CharacterString_Value_Out_Of_Service, instance_to_index_of_lt cfg _ hinst, hinst,
          hb, encode_application_bitstring, apdu_put, bitstring_init, bitstring_set_bit,
          STATUS_FLAG_IN_ALARM, STATUS_FLAG_FAULT, STATUS_FLAG_OVERRIDDEN,
          STATUS_FLAG_OUT_OF_SERVICE, status_flags_bytes_length]
    refine ⟨?_, ?_⟩
    · rw [read_property_all cfg st rp buffer hbuf hlen hinst (by rw [hsw]; exact hidx), hsw]
    · apply decode_application_status_flags
      cases st.Out_Of_Service rp.object_instance <;> rfl
  · intro hprop
    have hsw : Read_Property_switch cfg st rp buffer rp.object_instance
        { encoding := 0, value := [] } =
        (1, application_boolean_bytes (st.Out_Of_Service rp.object_instance) ++
          buffer.drop 1, rp) := by
      cases hb : st.Out_Of_Service rp.object_instance <;>
        simp [Read_Property_switch, hprop, PROP_STATUS_FLAGS, PROP_OBJECT_IDENTIFIER,
          PROP_OBJECT_NAME, PROP_DESCRIPTION, PROP_OBJECT_TYPE, PROP_PRESENT_VALUE,
          PROP_EVENT_STATE, PROP_OUT_OF_SERVICE, hb, encode_application_boolean, apdu_put,
          application_boolean_bytes, encode_tag]
    refine ⟨?_, ?_⟩
    · rw [read_property_all cfg st rp buffer hbuf hlen hinst (by rw [hsw]; exact hidx), hsw]
    · apply decode_application_boolean
      cases st.Out_Of_Service rp.object_instance <;> rfl

/-- C11 at concrete inputs: the status flags of object 0 read from a store in
which object 0 is out of service, and from the empty store. -/
theorem read_status_flags_and_out_of_service_witness :
    CharacterString_Value_Read_Property sampleConfig outOfServiceStore
      (some statusFlagsRead) =
      { apdu_len := 3,
        rpdata := some { statusFlagsRead with
          application_data := some [130, 4, 16, 0, 0, 0, 0, 0, 0, 0, 0, 0, 0, 0, 0, 0] },
        store := outOfServiceStore } ∧
    (CharacterString_Value_Read_Property sampleConfig emptyStore
      (some { presentValueRead with object_property := PROP_OUT_OF_SERVICE })).apdu_len = 1 :=
  ⟨((read_status_flags_and_out_of_service sampleConfig outOfServiceStore statusFlagsRead
      (List.replicate 16 0) rfl (by decide) (by decide) rfl).1 rfl).1,
   congrArg ReadResult.apdu_len
    ((read_status_flags_and_out_of_service sampleConfig emptyStore
      { presentValueRead with object_property := PROP_OUT_OF_SERVICE }
      (List.replicate 16 0) rfl (by decide) (by decide) rfl).2 rfl).1⟩

/-! ## The object identifier and the unit test -/

theorem decode_unsigned_encode_unsigned32 (v : Nat) (rest : List Nat) (hv : v < 4294967296) :
    decode_unsigned ((encode_unsigned32 v ++ rest).take 4) = v := by
  simp [encode_unsigned32, decode_unsigned]
  omega

/-- The tag decoder and the object identifier decoder give back the type and
the 22-bit instance whose encoding they are given. -/
theorem decode_application_object_id (object_type object_instance : Nat) (rest : List Nat)
    (htype : object_type < 1024) (hinst : object_instance < 4194304) :
    decode_tag_number_and_value
      (application_object_id_bytes object_type object_instance ++ rest) =
      some (1, BACNET_APPLICATION_TAG_OBJECT_ID, 4) ∧
    decode_object_id
      ((application_object_id_bytes object_type object_instance ++ rest).drop 1) =
      some (4, object_type, object_instance) := by
  have hv : object_type % 1024 * 4194304 + object_instance % 4194304 < 4294967296 := by
    omega
  constructor
  · unfold application_object_id_bytes
    rw [List.append_assoc, decode_encode_tag _ _ _ (by omega)]
    simp [encode_tag]
  · have hd : (application_object_id_bytes object_type object_instance ++ rest).drop 1 =
        encode_unsigned32 (object_type % 1024 * 4194304 + object_instance % 4194304) ++
          rest := by
      simp [application_object_id_bytes, encode_tag]
    rw [hd]
    unfold decode_object_id
    rw [decode_unsigned_encode_unsigned32 _ _ hv]
    have hl : ¬ ((encode_unsigned32
        (object_type % 1024 * 4194304 + object_instance % 4194304) ++ rest).length < 4) := by
      simp [encode_unsigned32]
    rw [if_neg hl]
    have e1 : (object_type % 1024 * 4194304 + object_instance % 4194304) / 4194304 % 1024 =
        object_type := by omega
    have e2 : (object_type % 1024 * 4194304 + object_instance % 4194304) % 4194304 =
        object_instance := by omega
    rw [e1, e2]

theorem application_object_id_bytes_length (object_type object_instance : Nat) :
    (application_object_id_bytes object_type object_instance).length = 5 := by
  simp [application_object_id_bytes, encode_tag, encode_unsigned32]

/-- A read of the object identifier with array index "all" writes the encoded
identifier of this object type and the requested instance. -/
theorem read_object_identifier_eq (cfg : Config) (st : Store)
    (rp : BACNET_READ_PROPERTY_DATA) (buffer : List Nat)
    (hbuf : rp.application_data = some buffer)
    (hlen : rp.application_data_len ≠ 0)
    (hinst : rp.object_instance < cfg.MAX_CHARACTERSTRING_VALUES)
    (hprop : rp.object_property = PROP_OBJECT_IDENTIFIER)
    (hidx : rp.array_index = BACNET_ARRAY_ALL) :
    CharacterString_Value_Read_Property cfg st (some rp) =
      { apdu_len := 5,
        rpdata := some { rp with
          application_data := some
            (application_object_id_bytes OBJECT_CHARACTERSTRING_VALUE rp.object_instance ++
              buffer.drop 5) },
        store := st } := by
  have hsw : Read_Property_switch cfg st rp buffer rp.object_instance
      { encoding := 0, value := [] } =
      (5, application_object_id_bytes OBJECT_CHARACTERSTRING_VALUE rp.object_instance ++
        buffer.drop 5, rp) := by
    simp [Read_Property_switch, hprop, encode_application_object_id, apdu_put,
      application_object_id_bytes_length]
  rw [read_property_all cfg st rp buffer hbuf hlen hinst (by rw [hsw]; exact hidx), hsw]

/-- C12: after `CharacterString_Value_Init`, for every object instance that
exists (below `CharacterString_Value_Count`), a read of OBJECT_IDENTIFIER with
array index ALL returns a positive length (5) and writes an application-tagged
object identifier: decoding the tag gives the tag number
`BACNET_APPLICATION_TAG_OBJECT_ID`, and decoding the object id gives the type
`OBJECT_CHARACTERSTRING_VALUE` and the requested instance. Instance numbers
are the 22-bit numbers of the protocol. The unit test makes these checks with
instance 1: its four checks succeed in every build in which instance 1
exists. -/
theorem read_object_identifier_after_init (cfg : Config) (st0 : Store)
    (rp : BACNET_READ_PROPERTY_DATA) (buffer : List Nat) (MAX_APDU : Nat)
    (hbuf : rp.application_data = some buffer)
    (hlen : rp.application_data_len ≠ 0)
    (hinst : rp.object_instance < CharacterString_Value_Count cfg)
    (h22 : rp.object_instance < 4194304)
    (hprop : rp.object_property = PROP_OBJECT_IDENTIFIER)
    (hidx : rp.array_index = BACNET_ARRAY_ALL) :
    0 < (CharacterString_Value_Read_Property cfg (CharacterString_Value_Init cfg st0)
      (some rp)).apdu_len ∧
    (CharacterString_Value_Read_Property cfg (CharacterString_Value_Init cfg st0)
      (some rp)).rpdata =
      some { rp with
        application_data := some
          (application_object_id_bytes OBJECT_CHARACTERSTRING_VALUE rp.object_instance ++
            buffer.drop 5) } ∧
    decode_tag_number_and_value
      (application_object_id_bytes OBJECT_CHARACTERSTRING_VALUE rp.object_instance ++
        buffer.drop 5) = some (1, BACNET_APPLICATION_TAG_OBJECT_ID, 4) ∧
    decode_object_id
      ((application_object_id_bytes OBJECT_CHARACTERSTRING_VALUE rp.object_instance ++
        buffer.drop 5).drop 1) =
      some (4, OBJECT_CHARACTERSTRING_VALUE, rp.object_instance) ∧
    (1 < CharacterString_Value_Count cfg → MAX_APDU ≠ 0 →
      testCharacterStringValue cfg MAX_APDU st0 = [true, true, true, true]) := by
  have hr := read_object_identifier_eq cfg (CharacterString_Value_Init cfg st0) rp buffer
    hbuf hlen hinst hprop hidx
  have hd := decode_application_object_id OBJECT_CHARACTERSTRING_VALUE rp.object_instance
    (buffer.drop 5) (by decide) h22
  refine ⟨by rw [hr]; show (0 : Int) < 5; omega, by rw [hr], hd.1, hd.2, ?_⟩
  intro h1 hapdu
  have ht := read_object_identifier_eq cfg (CharacterString_Value_Init cfg st0)
    { object_type := OBJECT_CHARACTERSTRING_VALUE, object_instance := 1,
      object_property := PROP_OBJECT_IDENTIFIER, array_index := BACNET_ARRAY_ALL,
      application_data := some (List.replicate MAX_APDU 0),
      application_data_len := MAX_APDU, error_class := 0, error_code := 0 }
    (List.replicate MAX_APDU 0) rfl hapdu h1 rfl rfl
  have hd1 := decode_application_object_id OBJECT_CHARACTERSTRING_VALUE 1
    ((List.replicate MAX_APDU 0).drop 5) (by decide) (by decide)
  simp only [testCharacterStringValue, ht, Option.bind, Option.getD, hd1.1, hd1.2]
  decide

/-- C12 at the input of the unit test: the object identifier of instance 1
read after initialisation in a build with two objects. -/
theorem read_object_identifier_after_init_witness :
    (CharacterString_Value_Read_Property sampleConfig
      (CharacterString_Value_Init sampleConfig emptyStore)
      (some objectIdentifierRead)).rpdata =
      some { objectIdentifierRead with
        application_data := some [196, 10, 0, 0, 1, 0, 0, 0, 0, 0, 0, 0, 0, 0, 0, 0] } ∧
    testCharacterStringValue sampleConfig 16 emptyStore = [true, true, true, true] :=
  ⟨(read_object_identifier_after_init sampleConfig emptyStore objectIdentifierRead
      (List.replicate 16 0) 16 rfl (by decide) (by decide) (by decide) rfl rfl).2.1,
   (read_object_identifier_after_init sampleConfig emptyStore objectIdentifierRead
      (List.replicate 16 0) 16 rfl (by decide) (by decide) (by decide) rfl rfl).2.2.2.2
      (by decide) (by decide)⟩

/-- In the default build, with one object, instance 1 of the unit test does
not exist: the read returns `BACNET_STATUS_ERROR`, which passes the first
check, and the three checks on the decoded buffer fail. -/
theorem unit_test_in_default_build :
    testCharacterStringValue
      { MAX_CHARACTERSTRING_VALUES := 1, CHARACTER_STRING_CAPACITY := 8 } 16 emptyStore =
      [true, false, false, false] := by
  decide

/-! ## The dispatchers and the property lists -/

/-- The listed properties are the eight that the dispatchers have a case for. -/
theorem property_listed_iff (p : Nat) :
    property_listed p = true ↔
      (p = PROP_OBJECT_IDENTIFIER ∨ p = PROP_OBJECT_NAME ∨ p = PROP_DESCRIPTION ∨
        p = PROP_OBJECT_TYPE ∨ p = PROP_PRESENT_VALUE ∨ p = PROP_STATUS_FLAGS ∨
        p = PROP_EVENT_STATE ∨ p = PROP_OUT_OF_SERVICE) := by
  simp [property_listed, CharacterString_Value_Property_Lists, property_list_member,
    Properties_Required, Properties_Optional, Properties_Proprietary,
    PROP_OBJECT_IDENTIFIER, PROP_OBJECT_NAME, PROP_DESCRIPTION, PROP_OBJECT_TYPE,
    PROP_PRESENT_VALUE, PROP_STATUS_FLAGS, PROP_EVENT_STATE, PROP_OUT_OF_SERVICE,
    List.takeWhile]
  omega

/-- The dispatch of a write reports an unknown property exactly for the
property identifiers it has no case for. -/
theorem write_switch_unknown_iff (cfg : Config) (st : Store)
    (wp : BACNET_WRITE_PROPERTY_DATA) (value : BACNET_APPLICATION_DATA_VALUE) :
    ((Write_Property_switch cfg st wp value).status = false ∧
      ∃ wp2, (Write_Property_switch cfg st wp value).wp_data = some wp2 ∧
        wp2.error_class = ERROR_CLASS_PROPERTY ∧
        wp2.error_code = ERROR_CODE_UNKNOWN_PROPERTY) ↔
    ¬ (wp.object_property = PROP_OBJECT_IDENTIFIER ∨
      wp.object_property = PROP_OBJECT_NAME ∨
      wp.object_property = PROP_DESCRIPTION ∨
      wp.object_property = PROP_OBJECT_TYPE ∨
      wp.object_property = PROP_PRESENT_VALUE ∨
      wp.object_property = PROP_STATUS_FLAGS ∨
      wp.object_property = PROP_EVENT_STATE ∨
      wp.object_property = PROP_OUT_OF_SERVICE) := by
  unfold Write_Property_switch
  by_cases hp : wp.object_property = PROP_PRESENT_VALUE
  · have hh : (wp.object_property = PROP_OBJECT_IDENTIFIER ∨
        wp.object_property = PROP_OBJECT_NAME ∨
        wp.object_property = PROP_DESCRIPTION ∨
        wp.object_property = PROP_OBJECT_TYPE ∨
        wp.object_property = PROP_PRESENT_VALUE ∨
        wp.object_property = PROP_STATUS_FLAGS ∨
        wp.object_property = PROP_EVENT_STATE ∨
        wp.object_property = PROP_OUT_OF_SERVICE) :=
      Or.inr (Or.inr (Or.inr (Or.inr (Or.inl hp))))
    simp only [hh, not_true_eq_false, iff_false, not_and]
    intro hst
    by_cases ht : value.tag = BACNET_APPLICATION_TAG_CHARACTER_STRING
    · cases hr : (CharacterString_Value_Present_Value_Set cfg st wp.object_instance
          value.type_Character_String).1
      · simp [hp, write_property_type_valid, ht, hr, ERROR_CODE_VALUE_OUT_OF_RANGE,
          ERROR_CODE_UNKNOWN_PROPERTY]
      · simp [hp, write_property_type_valid, ht, hr] at hst
    · simp [hp, write_property_type_valid, ht, ERROR_CODE_INVALID_DATA_TYPE,
        ERROR_CODE_UNKNOWN_PROPERTY]
  · by_cases hp2 : wp.object_property = PROP_OUT_OF_SERVICE
    · have hh : (wp.object_property = PROP_OBJECT_IDENTIFIER ∨
          wp.object_property = PROP_OBJECT_NAME ∨
          wp.object_property = PROP_DESCRIPTION ∨
          wp.object_property = PROP_OBJECT_TYPE ∨
          wp.object_property = PROP_PRESENT_VALUE ∨
          wp.object_property = PROP_STATUS_FLAGS ∨
          wp.object_property = PROP_EVENT_STATE ∨
          wp.object_property = PROP_OUT_OF_SERVICE) :=
        Or.inr (Or.inr (Or.inr (Or.inr (Or.inr (Or.inr (Or.inr hp2))))))
      simp only [hh, not_true_eq_false, iff_false, not_and]
      intro hst
      by_cases ht : value.tag = BACNET_APPLICATION_TAG_BOOLEAN
      · simp [hp, if_pos hp2, write_property_type_valid, ht] at hst
      · simp [hp, if_pos hp2, write_property_type_valid, ht, ERROR_CODE_INVALID_DATA_TYPE,
          ERROR_CODE_UNKNOWN_PROPERTY]
    · by_cases hp3 : wp.object_property = PROP_OBJECT_IDENTIFIER ∨
          wp.object_property = PROP_OBJECT_NAME ∨
          wp.object_property = PROP_DESCRIPTION ∨
          wp.object_property = PROP_OBJECT_TYPE ∨
          wp.object_property = PROP_STATUS_FLAGS ∨
          wp.object_property = PROP_EVENT_STATE
      · have hh : (wp.object_property = PROP_OBJECT_IDENTIFIER ∨
            wp.object_property = PROP_OBJECT_NAME ∨
            wp.object_property = PROP_DESCRIPTION ∨
            wp.object_property = PROP_OBJECT_TYPE ∨
            wp.object_property = PROP_PRESENT_VALUE ∨
            wp.object_property = PROP_STATUS_FLAGS ∨
            wp.object_property = PROP_EVENT_STATE ∨
            wp.object_property = PROP_OUT_OF_SERVICE) := by
          rcases hp3 with h | h | h | h | h | h <;> simp [h]
        rw [if_neg hp, if_neg hp2, if_pos hp3]
        refine iff_of_false ?_ (not_not.mpr hh)
        rintro ⟨_, wp2, hw, _, hc⟩
        simp only [Option.some.injEq] at hw
        subst hw
        simp [ERROR_CODE_WRITE_ACCESS_DENIED, ERROR_CODE_UNKNOWN_PROPERTY] at hc
      · have hh : ¬ (wp.object_property = PROP_OBJECT_IDENTIFIER ∨
            wp.object_property = PROP_OBJECT_NAME ∨
            wp.object_property = PROP_DESCRIPTION ∨
            wp.object_property = PROP_OBJECT_TYPE ∨
            wp.object_property = PROP_PRESENT_VALUE ∨
            wp.object_property = PROP_STATUS_FLAGS ∨
            wp.object_property = PROP_EVENT_STATE ∨
            wp.object_property = PROP_OUT_OF_SERVICE) := by
          simp only [not_or] at hp3 ⊢
          exact ⟨hp3.1, hp3.2.1, hp3.2.2.1, hp3.2.2.2.1, hp, hp3.2.2.2.2.1,
            hp3.2.2.2.2.2, hp2⟩
        rw [if_neg hp, if_neg hp2, if_neg hp3]
        exact iff_of_true ⟨rfl, _, rfl, rfl, rfl⟩ hh

/-- C13: the dispatchers recognise exactly the properties of the registry.
For an existing object instance and a property identifier `p`: a read (array
index ALL, non-empty buffer) fails with (ERROR_CLASS_PROPERTY,
ERROR_CODE_UNKNOWN_PROPERTY) if and only if `p` appears in none of the
Required, Optional and Proprietary lists of
`CharacterString_Value_Property_Lists`; and a write (decodable payload) fails
with (ERROR_CLASS_PROPERTY, ERROR_CODE_UNKNOWN_PROPERTY) if and only if `p`
appears in none of those lists. -/
theorem dispatchers_recognise_listed_properties (cfg : Config) (st : Store)
    (rp : BACNET_READ_PROPERTY_DATA) (buffer : List Nat)
    (wp : BACNET_WRITE_PROPERTY_DATA) (n : Nat) (value : BACNET_APPLICATION_DATA_VALUE)
    (hbuf : rp.application_data = some buffer)
    (hlen : rp.application_data_len ≠ 0)
    (hrinst : rp.object_instance < cfg.MAX_CHARACTERSTRING_VALUES)
    (hidx : rp.array_index = BACNET_ARRAY_ALL)
    (hwinst : wp.object_instance < cfg.MAX_CHARACTERSTRING_VALUES)
    (hdec : bacapp_decode_application_data cfg wp.application_data wp.application_data_len =
      some (n, value)) :
    (((CharacterString_Value_Read_Property cfg st (some rp)).apdu_len = BACNET_STATUS_ERROR ∧
      ∃ rp2, (CharacterString_Value_Read_Property cfg st (some rp)).rpdata = some rp2 ∧
        rp2.error_class = ERROR_CLASS_PROPERTY ∧
        rp2.error_code = ERROR_CODE_UNKNOWN_PROPERTY) ↔
      property_listed rp.object_property = false) ∧
    (((CharacterString_Value_Write_Property cfg st (some wp)).status = false ∧
      ∃ wp2, (CharacterString_Value_Write_Property cfg st (some wp)).wp_data = some wp2 ∧
        wp2.error_class = ERROR_CLASS_PROPERTY ∧
        wp2.error_code = ERROR_CODE_UNKNOWN_PROPERTY) ↔
      property_listed wp.object_property = false) := by
  constructor
  · rw [Bool.eq_false_iff, ne_eq, property_listed_iff]
    by_cases hprop : rp.object_property = PROP_OBJECT_IDENTIFIER ∨
        rp.object_property = PROP_OBJECT_NAME ∨
        rp.object_property = PROP_DESCRIPTION ∨
        rp.object_property = PROP_OBJECT_TYPE ∨
        rp.object_property = PROP_PRESENT_VALUE ∨
        rp.object_property = PROP_STATUS_FLAGS ∨
        rp.object_property = PROP_EVENT_STATE ∨
        rp.object_property = PROP_OUT_OF_SERVICE
    · obtain ⟨hnn, hrp⟩ := read_switch_handled cfg st rp buffer rp.object_instance
        { encoding := 0, value := [] } hprop
      simp only [hprop, not_true_eq_false, iff_false, not_and]
      intro herr
      rw [read_property_all cfg st rp buffer hbuf hlen hrinst (by rw [hrp]; exact hidx)]
        at herr
      simp only [BACNET_STATUS_ERROR] at herr
      omega
    · have hsw := read_switch_unhandled cfg st rp buffer rp.object_instance
        { encoding := 0, value := [] } hprop
      simp only [hprop, not_false_eq_true, iff_true]
      rw [read_property_all cfg st rp buffer hbuf hlen hrinst (by rw [hsw]; exact hidx), hsw]
      exact ⟨rfl, _, rfl, rfl, rfl⟩
  · have hl : property_listed wp.object_property = false ↔
        ¬ property_listed wp.object_property = true := by
      rw [Bool.eq_false_iff]
    rw [hl, property_listed_iff, write_property_decoded cfg st wp n value hwinst hdec]
    exact write_switch_unknown_iff cfg st wp value

/-- C13 at concrete inputs: property 87, which is in no list, read and written
at object 0. -/
theorem dispatchers_recognise_listed_properties_witness :
    property_listed 87 = false ∧
    (CharacterString_Value_Read_Property sampleConfig emptyStore
      (some { presentValueRead with object_property := 87 })).apdu_len
      = BACNET_STATUS_ERROR ∧
    (CharacterString_Value_Write_Property sampleConfig emptyStore
      (some unknownPropertyWrite)).status = false :=
  ⟨by decide,
   ((dispatchers_recognise_listed_properties sampleConfig emptyStore
      { presentValueRead with object_property := 87 } (List.replicate 16 0)
      unknownPropertyWrite 8 (BACNET_APPLICATION_DATA_VALUE.Character_String helloString)
      rfl (by decide) (by decide) rfl (by decide) (by decide)).1.mpr (by decide)).1,
   ((dispatchers_recognise_listed_properties sampleConfig emptyStore
      { presentValueRead with object_property := 87 } (List.replicate 16 0)
      unknownPropertyWrite 8 (BACNET_APPLICATION_DATA_VALUE.Character_String helloString)
      rfl (by decide) (by decide) rfl (by decide) (by decide)).2.mpr (by decide)).1⟩

/-! ## Initialisation -/

/-- The loop of the initialisation after `n` rounds: the objects below `n` are
initialised, the others are as they were. -/
theorem init_loop (cfg : Config) (st : Store) (n : Nat) :
    (List.range n).foldl (Init_object cfg) st =
      { Present_Value := fun i =>
          if i < n then
            (characterstring_init_ansi cfg (st.Present_Value i) (some (text_bytes ""))).2
          else st.Present_Value i,
        Out_Of_Service := st.Out_Of_Service,
        Object_Name := fun i =>
          if i < n then
            snprintf (st.Object_Name i) 64
              (text_bytes "CHARACTER STRING VALUE " ++ print_unsigned (i + 1))
          else st.Object_Name i,
        Object_Description := fun i =>
          if i < n then
            snprintf (st.Object_Description i) 64
              (text_bytes "A Character String Value Example")
          else st.Object_Description i,
        Changed := fun i => if i < n then false else st.Changed i } := by
  induction n with
  | zero => simp
  | succ n ih =>
    rw [List.range_succ, List.foldl_append, ih]
    simp only [List.foldl_cons, List.foldl_nil, Init_object, lt_self_iff_false, if_false]
    congr 1 <;> funext i <;> by_cases h : i = n
    all_goals first
      | (subst h; simp)
      | (have h1 : (i < n + 1) = (i < n) := by
           apply propext; constructor <;> intro _ <;> omega
         simp [Function.update_noteq h, h1])

theorem c_string_append_nul (text rest : List Nat) (h : ∀ c ∈ text, c ≠ 0) :
    c_string (text ++ 0 :: rest) = text := by
  induction text with
  | nil => simp [c_string]
  | cons a tl ih =>
    have ha : a ≠ 0 := h a (List.mem_cons_self a tl)
    have htl : ∀ c ∈ tl, c ≠ 0 := fun c hc => h c (List.mem_cons_of_mem a hc)
    have := ih htl
    simp only [c_string] at this ⊢
    rw [List.cons_append, List.takeWhile_cons_of_pos (by simpa using ha), this]

/-- A character array whose first `len` bytes are not NUL and whose next byte
is NUL holds the C string of those `len` bytes. -/
theorem c_string_char_array (a : Nat → Nat) (len : Nat) (hlen : len < 64)
    (hne : ∀ k, k < len → a k ≠ 0) (hnul : a len = 0) :
    c_string (char_array a) = (List.range len).map a := by
  have hsplit : List.range 64 = List.range len ++ len :: List.range' (len + 1) (63 - len) := by
    rw [List.range_eq_range', List.range_eq_range']
    have h1 : (64 : Nat) = (63 - len + 1) + len := by omega
    rw [h1, ← List.range'_append 0 len (63 - len + 1) 1]
    simp [List.range'_succ]
  unfold char_array
  rw [hsplit, List.map_append, List.map_cons, hnul]
  apply c_string_append_nul
  intro c hc
  rw [List.mem_map] at hc
  obtain ⟨k, hk, rfl⟩ := hc
  exact hne k (List.mem_range.mp hk)

theorem map_getD_range (text : List Nat) :
    (List.range text.length).map (fun k => text.getD k 0) = text := by
  apply List.ext_getElem
  · simp
  · intro n h1 h2
    simp [List.getD_eq_getElem?_getD, List.getElem?_eq_getElem h2]

/-- After `snprintf` of a text of at most 63 characters, none of them NUL, the
array holds the C string of that text. -/
theorem c_string_snprintf (dest : Nat → Nat) (text : List Nat) (hlen : text.length ≤ 63)
    (hne : ∀ c ∈ text, c ≠ 0) :
    c_string (char_array (snprintf dest 64 text)) = text := by
  have hmin : min text.length (64 - 1) = text.length := by omega
  rw [c_string_char_array (snprintf dest 64 text) text.length (by omega)]
  · have hm : (List.range text.length).map (snprintf dest 64 text) =
        (List.range text.length).map (fun k => text.getD k 0) := by
      apply List.map_congr_left
      intro k hk
      have hk' := List.mem_range.mp hk
      simp [snprintf, hmin, hk']
    rw [hm, map_getD_range]
  · intro k hk
    have hmem : text.getD k 0 ∈ text := by
      rw [List.getD_eq_getElem?_getD, List.getElem?_eq_getElem hk]
      exact List.getElem_mem hk
    simpa [snprintf, hmin, hk] using hne _ hmem
  · simp [snprintf, hmin]

theorem digitChar_ne_nul (m : Nat) (h : m < 10) : (Nat.digitChar m).toNat ≠ 0 := by
  interval_cases m <;> decide

theorem toDigitsCore_ne_nul (fuel n : Nat) (ds : List Char)
    (h : ∀ c ∈ ds, c.toNat ≠ 0) : ∀ c ∈ Nat.toDigitsCore 10 fuel n ds, c.toNat ≠ 0 := by
  induction fuel generalizing n ds with
  | zero => simpa [Nat.toDigitsCore] using h
  | succ fuel ih =>
    have hcons : ∀ c ∈ Nat.digitChar (n % 10) :: ds, c.toNat ≠ 0 := by
      intro c hc
      rcases List.mem_cons.mp hc with rfl | hc
      · exact digitChar_ne_nul _ (Nat.mod_lt _ (by decide))
      · exact h c hc
    simp only [Nat.toDigitsCore]
    split_ifs
    · exact hcons
    · exact ih _ _ hcons

theorem print_unsigned_ne_nul (value : Nat) : ∀ c ∈ print_unsigned value, c ≠ 0 := by
  intro c hc
  simp only [print_unsigned, List.mem_map] at hc
  obtain ⟨ch, hch, rfl⟩ := hc
  exact toDigitsCore_ne_nul _ _ [] (by simp) ch hch

theorem print_unsigned_length (value : Nat) : (print_unsigned value).length ≤ 10 := by
  simp only [print_unsigned, List.length_map, Nat.toDigits]
  exact Nat.toDigitsCore_length 10 (by decide) _ _ 10
    (lt_of_lt_of_le (Nat.mod_lt _ (by decide)) (by decide)) (by decide)

theorem print_unsigned_of_lt (value : Nat) (h : value < 4294967296) :
    print_unsigned value = text_bytes (toString value) := by
  simp [print_unsigned, text_bytes, Nat.mod_eq_of_lt h, toString, Nat.repr, List.asString]

theorem init_object_name (cfg : Config) (st0 : Store) (i : Nat)
    (hi : i < cfg.MAX_CHARACTERSTRING_VALUES) :
    c_string (char_array ((CharacterString_Value_Init cfg st0).Object_Name i)) =
      text_bytes "CHARACTER STRING VALUE " ++ print_unsigned (i + 1) := by
  have hl := print_unsigned_length (i + 1)
  have hp : (text_bytes "CHARACTER STRING VALUE ").length = 23 := by decide
  simp only [CharacterString_Value_Init, init_loop, hi, if_true]
  apply c_string_snprintf
  · rw [List.length_append, hp]; omega
  · intro c hc
    rcases List.mem_append.mp hc with h | h
    · have hall : ∀ c ∈ text_bytes "CHARACTER STRING VALUE ", c ≠ 0 := by decide
      exact hall c h
    · exact print_unsigned_ne_nul _ c h

theorem init_present_value_and_changed (cfg : Config) (st0 : Store) (i : Nat)
    (hi : i < cfg.MAX_CHARACTERSTRING_VALUES) :
    (CharacterString_Value_Init cfg st0).Present_Value i =
      { encoding := CHARACTER_ANSI_X34, value := [] } ∧
    (CharacterString_Value_Init cfg st0).Changed i = false := by
  simp [CharacterString_Value_Init, init_loop, hi, characterstring_init_ansi, c_string,
    text_bytes]

/-- C14: after `CharacterString_Value_Init`, for every object instance `i`
below `MAX_CHARACTERSTRING_VALUES` the stored name is the text
"CHARACTER STRING VALUE " followed by the decimal representation of `i + 1`,
the present value is the empty string and the change flag is false. So
`CharacterString_Value_Change_Of_Value` returns false for every instance, and
a read of OBJECT_NAME at instance 0 yields the character-string encoding of
"CHARACTER STRING VALUE 1". The number of objects is assumed to fit the type
`unsigned` of the loop counter, and the string capacity to hold the 24
characters of that name. -/
theorem init_postcondition (cfg : Config) (st0 : Store) (i : Nat)
    (hmax : cfg.MAX_CHARACTERSTRING_VALUES < 4294967296)
    (hi : i < cfg.MAX_CHARACTERSTRING_VALUES) :
    c_string (char_array ((CharacterString_Value_Init cfg st0).Object_Name i)) =
      text_bytes ("CHARACTER STRING VALUE " ++ toString (i + 1)) ∧
    (CharacterString_Value_Init cfg st0).Present_Value i =
      { encoding := CHARACTER_ANSI_X34, value := [] } ∧
    (CharacterString_Value_Init cfg st0).Changed i = false ∧
    (∀ j, CharacterString_Value_Change_Of_Value cfg
      (CharacterString_Value_Init cfg st0) j = false) ∧
    (∀ (rp : BACNET_READ_PROPERTY_DATA) (buffer : List Nat),
      rp.application_data = some buffer → rp.application_data_len ≠ 0 →
      rp.object_instance = 0 → rp.object_property = PROP_OBJECT_NAME →
      rp.array_index = BACNET_ARRAY_ALL → 24 ≤ cfg.CHARACTER_STRING_CAPACITY →
      CharacterString_Value_Read_Property cfg (CharacterString_Value_Init cfg st0)
        (some rp) =
        { apdu_len := 27,
          rpdata := some { rp with
            application_data := some
              (application_character_string_bytes
                { encoding := CHARACTER_ANSI_X34,
                  value := text_bytes "CHARACTER STRING VALUE 1" } ++ buffer.drop 27) },
          store := CharacterString_Value_Init cfg st0 }) := by
  refine ⟨?_, (init_present_value_and_changed cfg st0 i hi).1,
    (init_present_value_and_changed cfg st0 i hi).2, ?_, ?_⟩
  · rw [init_object_name cfg st0 i hi, print_unsigned_of_lt (i + 1) (by omega)]
    simp [text_bytes]
  · intro j
    by_cases hj : j < cfg.MAX_CHARACTERSTRING_VALUES
    · simp [CharacterString_Value_Change_Of_Value, instance_to_index_of_lt cfg _ hj, hj,
        (init_present_value_and_changed cfg st0 j hj).2]
    · simp [CharacterString_Value_Change_Of_Value,
        instance_to_index_of_ge cfg _ (Nat.le_of_not_lt hj)]
  · intro rp buffer hbuf hlen hinst hprop hidx hcap
    have h0 : (0 : Nat) < cfg.MAX_CHARACTERSTRING_VALUES := by omega
    have hname := init_object_name cfg st0 0 h0
    have htext : text_bytes "CHARACTER STRING VALUE " ++ print_unsigned (0 + 1) =
        text_bytes "CHARACTER STRING VALUE 1" := by decide
    rw [htext] at hname
    have hl : (text_bytes "CHARACTER STRING VALUE 1").length = 24 := by decide
    have hbl : (application_character_string_bytes
        { encoding := CHARACTER_ANSI_X34,
          value := text_bytes "CHARACTER STRING VALUE 1" }).length = 27 := by decide
    have hsw : Read_Property_switch cfg (CharacterString_Value_Init cfg st0) rp buffer
        rp.object_instance { encoding := 0, value := [] } =
        (27, application_character_string_bytes
            { encoding := CHARACTER_ANSI_X34,
              value := text_bytes "CHARACTER STRING VALUE 1" } ++ buffer.drop 27, rp) := by
      have hfit : (text_bytes "CHARACTER STRING VALUE 1").length
          ≤ cfg.CHARACTER_STRING_CAPACITY := by omega
      simp [Read_Property_switch, hprop, PROP_OBJECT_NAME, PROP_OBJECT_IDENTIFIER,
        CharacterString_Value_Object_Name, hinst, instance_to_index_of_lt cfg _ h0, h0,
        characterstring_init_ansi, hname, hfit, encode_application_character_string,
        apdu_put, hbl]
    rw [read_property_all cfg _ rp buffer hbuf hlen (by omega) (by rw [hsw]; exact hidx),
      hsw]

/-- C14 at a concrete input: the name of object 1 after initialisation, and
the object name of object 0 read into a 32-byte buffer. -/
theorem init_postcondition_witness :
    c_string (char_array ((CharacterString_Value_Init nameConfig emptyStore).Object_Name 1))
      = text_bytes "CHARACTER STRING VALUE 2" ∧
    (CharacterString_Value_Read_Property nameConfig
      (CharacterString_Value_Init nameConfig emptyStore) (some objectNameRead)).apdu_len
      = 27 :=
  ⟨(init_postcondition nameConfig emptyStore 1 (by decide) (by decide)).1,
   congrArg ReadResult.apdu_len
    ((init_postcondition nameConfig emptyStore 1 (by decide) (by decide)).2.2.2.2
      objectNameRead (List.replicate 32 0) rfl (by decide) rfl rfl rfl (by decide))⟩

/-! ## The copy loop of the name and description setters -/

/-- What the copy loop leaves at position `k`: the byte of the text when `k`
is one of the `fuel` positions from `i` on and no byte of the text from `i` to
before `k` is NUL; what was there otherwise. -/
theorem copy_text_apply (text : List Nat) (fuel i : Nat) (a : Nat → Nat) (k : Nat) :
    ((i ≤ k ∧ k < i + fuel ∧ ∀ m, i ≤ m → m < k → text.getD m 0 ≠ 0) →
      copy_text text fuel i a k = text.getD k 0) ∧
    (¬ (i ≤ k ∧ k < i + fuel ∧ ∀ m, i ≤ m → m < k → text.getD m 0 ≠ 0) →
      copy_text text fuel i a k = a k) := by
  induction fuel generalizing i a with
  | zero =>
    refine ⟨fun h => ?_, fun _ => rfl⟩
    omega
  | succ f ih =>
    unfold copy_text
    split_ifs with hz
    · constructor
      · rintro ⟨h1, _, h3⟩
        by_cases hk : k = i
        · subst hk; simp
        · exact absurd hz (h3 i (le_refl i) (by omega))
      · intro hn
        by_cases hk : k = i
        · subst hk
          exact absurd ⟨le_refl k, by omega, fun m h1 h2 => by omega⟩ hn
        · simp [Function.update_noteq hk]
    · obtain ⟨ih1, ih2⟩ := ih (i + 1) (Function.update a i (text.getD i 0))
      constructor
      · rintro ⟨h1, h2, h3⟩
        by_cases hk : k = i
        · subst hk
          rw [ih2 (by omega)]
          simp
        · exact ih1 ⟨by omega, by omega, fun m hm1 hm2 => h3 m (by omega) hm2⟩
      · intro hn
        have hk : k ≠ i := by
          intro hk
          subst hk
          exact hn ⟨le_refl k, by omega, fun m h1 h2 => by omega⟩
        have hn' : ¬ (i + 1 ≤ k ∧ k < i + 1 + f ∧
            ∀ m, i + 1 ≤ m → m < k → text.getD m 0 ≠ 0) := by
          rintro ⟨h1, h2, h3⟩
          apply hn
          refine ⟨by omega, by omega, fun m hm1 hm2 => ?_⟩
          by_cases hmi : m = i
          · subst hmi; exact hz
          · exact h3 m (by omega) hm2
        rw [ih2 hn']
        simp [Function.update_noteq hk]

/-- A text of at most 63 characters, none of them NUL, is stored by the copy
loop as a terminated string. -/
theorem copy_text_short (text : List Nat) (a : Nat → Nat) (hlen : text.length ≤ 63)
    (hne : ∀ c ∈ text, c ≠ 0) :
    c_string (char_array (copy_text text 64 0 a)) = text := by
  have hget : ∀ m, m < text.length → text.getD m 0 ≠ 0 := by
    intro m hm
    rw [List.getD_eq_getElem?_getD, List.getElem?_eq_getElem hm]
    exact hne _ (List.getElem_mem hm)
  have hval : ∀ k, k ≤ text.length → copy_text text 64 0 a k = text.getD k 0 := by
    intro k hk
    exact (copy_text_apply text 64 0 a k).1
      ⟨Nat.zero_le k, by omega, fun m _ hm => hget m (by omega)⟩
  rw [c_string_char_array (copy_text text 64 0 a) text.length (by omega)]
  · have hm : (List.range text.length).map (copy_text text 64 0 a) =
        (List.range text.length).map (fun k => text.getD k 0) := by
      apply List.map_congr_left
      intro k hk
      exact hval k (le_of_lt (List.mem_range.mp hk))
    rw [hm, map_getD_range]
  · intro k hk
    rw [hval k (le_of_lt hk)]
    exact hget k hk
  · rw [hval text.length (le_refl _)]
    simp [List.getD_eq_getElem?_getD]

/-- A text whose first 64 characters are not NUL fills the 64 bytes of the
field: the copy loop leaves no NUL in it. -/
theorem copy_text_long (text : List Nat) (a : Nat → Nat)
    (hne : ∀ m, m < 64 → text.getD m 0 ≠ 0) :
    ∀ c ∈ char_array (copy_text text 64 0 a), c ≠ 0 := by
  intro c hc
  simp only [char_array, List.mem_map, List.mem_range] at hc
  obtain ⟨k, hk, rfl⟩ := hc
  rw [(copy_text_apply text 64 0 a k).1
    ⟨Nat.zero_le k, by omega, fun m _ hm => hne m (by omega)⟩]
  exact hne k hk

/-! ## Names and descriptions -/

theorem char_array_memset (a : Nat → Nat) :
    char_array (memset a 0 64) = List.replicate 64 0 := by
  unfold char_array
  rw [List.eq_replicate_iff]
  refine ⟨by simp, ?_⟩
  intro b hb
  rw [List.mem_map] at hb
  obtain ⟨k, hk, rfl⟩ := hb
  simp [memset, List.mem_range.mp hk]

/-- C15: for an existing object instance and every text argument, the null
text included, `CharacterString_Value_Name_Set` and
`CharacterString_Value_Description_Set` return true and leave the change
flag, the present value and the out-of-service flag of every object as they
were (the name setter leaves the descriptions, the description setter the
names, and both leave the texts of the other objects); with the null text
they clear the whole 64-byte field to zero bytes, which is the empty
string. -/
theorem name_and_description_set (cfg : Config) (st : Store) (object_instance : Nat)
    (text : Option (List Nat))
    (hinst : object_instance < cfg.MAX_CHARACTERSTRING_VALUES) :
    ((CharacterString_Value_Name_Set cfg st object_instance text).1 = true ∧
      (CharacterString_Value_Name_Set cfg st object_instance text).2.Changed = st.Changed ∧
      (CharacterString_Value_Name_Set cfg st object_instance text).2.Present_Value =
        st.Present_Value ∧
      (CharacterString_Value_Name_Set cfg st object_instance text).2.Out_Of_Service =
        st.Out_Of_Service ∧
      (CharacterString_Value_Name_Set cfg st object_instance text).2.Object_Description =
        st.Object_Description ∧
      (∀ j, j ≠ object_instance →
        (CharacterString_Value_Name_Set cfg st object_instance text).2.Object_Name j =
          st.Object_Name j)) ∧
    ((CharacterString_Value_Description_Set cfg st object_instance text).1 = true ∧
      (CharacterString_Value_Description_Set cfg st object_instance text).2.Changed =
        st.Changed ∧
      (CharacterString_Value_Description_Set cfg st object_instance text).2.Present_Value =
        st.Present_Value ∧
      (CharacterString_Value_Description_Set cfg st object_instance text).2.Out_Of_Service =
        st.Out_Of_Service ∧
      (CharacterString_Value_Description_Set cfg st object_instance text).2.Object_Name =
        st.Object_Name ∧
      (∀ j, j ≠ object_instance →
        (CharacterString_Value_Description_Set cfg st object_instance
          text).2.Object_Description j = st.Object_Description j)) ∧
    (text = none →
      char_array ((CharacterString_Value_Name_Set cfg st object_instance text).2.Object_Name
        object_instance) = List.replicate 64 0 ∧
      c_string (char_array
        ((CharacterString_Value_Name_Set cfg st object_instance text).2.Object_Name
          object_instance)) = [] ∧
      char_array ((CharacterString_Value_Description_Set cfg st object_instance
        text).2.Object_Description object_instance) = List.replicate 64 0 ∧
      c_string (char_array
        ((CharacterString_Value_Description_Set cfg st object_instance
          text).2.Object_Description object_instance)) = []) := by
  have hidx := instance_to_index_of_lt cfg _ hinst
  refine ⟨?_, ?_, ?_⟩
  · cases text <;>
      simp only [CharacterString_Value_Name_Set, hidx, hinst, if_true, true_and] <;>
      intro j hj <;> simp [Function.update_noteq hj]
  · cases text <;>
      simp only [CharacterString_Value_Description_Set, hidx, hinst, if_true, true_and] <;>
      intro j hj <;> simp [Function.update_noteq hj]
  · intro hnone
    subst hnone
    simp only [CharacterString_Value_Name_Set, CharacterString_Value_Description_Set, hidx,
      hinst, if_true, Function.update_same, char_array_memset, true_and]
    decide

/-- C15 at concrete inputs: the null text and the text "Hello" given as name
and as description of object 0. -/
theorem name_and_description_set_witness :
    (CharacterString_Value_Name_Set sampleConfig emptyStore 0 (some helloString.value)).1
      = true ∧
    (CharacterString_Value_Description_Set sampleConfig emptyStore 0 none).1 = true ∧
    char_array ((CharacterString_Value_Name_Set sampleConfig emptyStore 0 none).2.Object_Name
      0) = List.replicate 64 0 :=
  ⟨(name_and_description_set sampleConfig emptyStore 0 (some helloString.value)
      (by decide)).1.1,
   (name_and_description_set sampleConfig emptyStore 0 none (by decide)).2.1.1,
   ((name_and_description_set sampleConfig emptyStore 0 none (by decide)).2.2 rfl).1⟩

/-- C16 fails on the code: given a text of 64 characters, the name setter and
the description setter return true and fill all 64 bytes of the field with
characters of the text. The field then holds no NUL terminator, so it is not
a string of at most 63 characters. -/
theorem name_set_long_text_not_terminated :
    longText.length = 64 ∧ (∀ c ∈ longText, c ≠ 0) ∧
    (CharacterString_Value_Name_Set sampleConfig emptyStore 0 (some longText)).1 = true ∧
    char_array ((CharacterString_Value_Name_Set sampleConfig emptyStore 0
      (some longText)).2.Object_Name 0) = longText ∧
    (0 : Nat) ∉ char_array ((CharacterString_Value_Name_Set sampleConfig emptyStore 0
      (some longText)).2.Object_Name 0) ∧
    (CharacterString_Value_Description_Set sampleConfig emptyStore 0 (some longText)).1
      = true ∧
    (0 : Nat) ∉ char_array ((CharacterString_Value_Description_Set sampleConfig emptyStore 0
      (some longText)).2.Object_Description 0) := by
  decide

/-! ## The change flag -/

/-- A write of the value an object already stores leaves the store as it
was. -/
theorem apply_stored_value_write_eq (cfg : Config) (st : Store) (w : StoredValueWrite) :
    apply_stored_value_write cfg st w = st := by
  cases w with
  | present_value j =>
    have hs : characterstring_same (st.Present_Value j) (st.Present_Value j) = true :=
      (characterstring_same_iff _ _).mpr rfl
    by_cases hj : j < cfg.MAX_CHARACTERSTRING_VALUES
    · by_cases hfit : (st.Present_Value j).value.length ≤ cfg.CHARACTER_STRING_CAPACITY
      · simp [apply_stored_value_write, present_value_set_eq cfg st j _ hj hfit, hs]
      · simp [apply_stored_value_write,
          present_value_set_too_long cfg st j _ hj (Nat.lt_of_not_le hfit), hs]
    · simp [apply_stored_value_write, CharacterString_Value_Present_Value_Set,
        instance_to_index_of_ge cfg _ (Nat.le_of_not_lt hj)]
  | out_of_service j =>
    by_cases hj : j < cfg.MAX_CHARACTERSTRING_VALUES
    · simp [apply_stored_value_write, out_of_service_set_eq cfg st j _ hj]
    · simp [apply_stored_value_write, CharacterString_Value_Out_Of_Service_Set,
        instance_to_index_of_ge cfg _ (Nat.le_of_not_lt hj)]

theorem foldl_apply_stored_value_write (cfg : Config) (st : Store)
    (ws : List StoredValueWrite) :
    ws.foldl (apply_stored_value_write cfg) st = st := by
  induction ws with
  | nil => rfl
  | cons w ws ih => rw [List.foldl_cons, apply_stored_value_write_eq, ih]

/-- C17: explicit acknowledgement. For every object instance, after
`CharacterString_Value_Change_Of_Value_Clear` the getter
`CharacterString_Value_Change_Of_Value` returns false; clearing twice gives
the store that clearing once gives; clearing changes no field other than the
change flag of that object; the getter keeps returning false after any
sequence of writes of the present value or the out-of-service flag that give
an object the value it stores; and the first write to an existing instance of
a present value or an out-of-service flag that differs from the stored one
makes the getter return true. -/
theorem change_of_value_clear (cfg : Config) (st : Store) (object_instance : Nat) :
    CharacterString_Value_Change_Of_Value cfg
      (CharacterString_Value_Change_Of_Value_Clear cfg st object_instance)
      object_instance = false ∧
    CharacterString_Value_Change_Of_Value_Clear cfg
      (CharacterString_Value_Change_Of_Value_Clear cfg st object_instance)
      object_instance =
      CharacterString_Value_Change_Of_Value_Clear cfg st object_instance ∧
    ((CharacterString_Value_Change_Of_Value_Clear cfg st object_instance).Present_Value =
        st.Present_Value ∧
      (CharacterString_Value_Change_Of_Value_Clear cfg st object_instance).Out_Of_Service =
        st.Out_Of_Service ∧
      (CharacterString_Value_Change_Of_Value_Clear cfg st object_instance).Object_Name =
        st.Object_Name ∧
      (CharacterString_Value_Change_Of_Value_Clear cfg st
        object_instance).Object_Description = st.Object_Description ∧
      (∀ j, j ≠ object_instance →
        (CharacterString_Value_Change_Of_Value_Clear cfg st object_instance).Changed j =
          st.Changed j)) ∧
    (∀ ws : List StoredValueWrite,
      CharacterString_Value_Change_Of_Value cfg
        (ws.foldl (apply_stored_value_write cfg)
          (CharacterString_Value_Change_Of_Value_Clear cfg st object_instance))
        object_instance = false) ∧
    (object_instance < cfg.MAX_CHARACTERSTRING_VALUES →
      (∀ v : BACNET_CHARACTER_STRING, v ≠ st.Present_Value object_instance →
        CharacterString_Value_Change_Of_Value cfg
          (CharacterString_Value_Present_Value_Set cfg
            (CharacterString_Value_Change_Of_Value_Clear cfg st object_instance)
            object_instance v).2 object_instance = true) ∧
      (∀ b : Bool, b ≠ st.Out_Of_Service object_instance →
        CharacterString_Value_Change_Of_Value cfg
          (CharacterString_Value_Out_Of_Service_Set cfg
            (CharacterString_Value_Change_Of_Value_Clear cfg st object_instance)
            object_instance b) object_instance = true)) := by
  have h1 : CharacterString_Value_Change_Of_Value cfg
      (CharacterString_Value_Change_Of_Value_Clear cfg st object_instance)
      object_instance = false := by
    by_cases hi : object_instance < cfg.MAX_CHARACTERSTRING_VALUES
    · simp [CharacterString_Value_Change_Of_Value,
        CharacterString_Value_Change_Of_Value_Clear, instance_to_index_of_lt cfg _ hi, hi]
    · simp [CharacterString_Value_Change_Of_Value,
        instance_to_index_of_ge cfg _ (Nat.le_of_not_lt hi)]
  refine ⟨h1, ?_, ?_, ?_, ?_⟩
  · by_cases hi : object_instance < cfg.MAX_CHARACTERSTRING_VALUES
    · simp [CharacterString_Value_Change_Of_Value_Clear, instance_to_index_of_lt cfg _ hi,
        hi]
    · simp [CharacterString_Value_Change_Of_Value_Clear,
        instance_to_index_of_ge cfg _ (Nat.le_of_not_lt hi)]
  · by_cases hi : object_instance < cfg.MAX_CHARACTERSTRING_VALUES
    · simp only [CharacterString_Value_Change_Of_Value_Clear,
        instance_to_index_of_lt cfg _ hi, hi, if_true, true_and]
      intro j hj
      simp [Function.update_noteq hj]
    · simp [CharacterString_Value_Change_Of_Value_Clear,
        instance_to_index_of_ge cfg _ (Nat.le_of_not_lt hi)]
  · intro ws
    rw [foldl_apply_stored_value_write]
    exact h1
  · intro hi
    have hidx := instance_to_index_of_lt cfg _ hi
    constructor
    · intro v hv
      have hs : characterstring_same
          ((CharacterString_Value_Change_Of_Value_Clear cfg st
            object_instance).Present_Value object_instance) v = false := by
        cases h : characterstring_same
          ((CharacterString_Value_Change_Of_Value_Clear cfg st
            object_instance).Present_Value object_instance) v
        · rfl
        · have := (characterstring_same_iff _ _).mp h
          simp [CharacterString_Value_Change_Of_Value_Clear, hidx, hi] at this
          exact absurd this.symm hv
      simp only [CharacterString_Value_Change_Of_Value,
        CharacterString_Value_Present_Value_Set, hidx, hi, if_true, hs]
      simp
    · intro b hb
      have hne : (st.Out_Of_Service object_instance != b) = true := by
        cases hb' : st.Out_Of_Service object_instance <;> cases b <;> simp_all
      simp [CharacterString_Value_Change_Of_Value,
        CharacterString_Value_Out_Of_Service_Set,
        CharacterString_Value_Change_Of_Value_Clear, hidx, hi, hne]

/-- C17 at a concrete input: the flag of object 0, raised by the write of
"Hello", cleared, kept clear by a second write of "Hello" and raised again by
the write of the empty string. -/
theorem change_of_value_clear_witness :
    CharacterString_Value_Change_Of_Value sampleConfig
      (CharacterString_Value_Present_Value_Set sampleConfig emptyStore 0 helloString).2 0
      = true ∧
    CharacterString_Value_Change_Of_Value sampleConfig
      ([StoredValueWrite.present_value 0].foldl (apply_stored_value_write sampleConfig)
        (CharacterString_Value_Change_Of_Value_Clear sampleConfig
          (CharacterString_Value_Present_Value_Set sampleConfig emptyStore 0 helloString).2
          0)) 0 = false ∧
    CharacterString_Value_Change_Of_Value sampleConfig
      (CharacterString_Value_Present_Value_Set sampleConfig
        (CharacterString_Value_Change_Of_Value_Clear sampleConfig
          (CharacterString_Value_Present_Value_Set sampleConfig emptyStore 0 helloString).2
          0) 0 { encoding := CHARACTER_ANSI_X34, value := [] }).2 0 = true :=
  ⟨by decide,
   (change_of_value_clear sampleConfig
      (CharacterString_Value_Present_Value_Set sampleConfig emptyStore 0 helloString).2
      0).2.2.2.1 [StoredValueWrite.present_value 0],
   ((change_of_value_clear sampleConfig
      (CharacterString_Value_Present_Value_Set sampleConfig emptyStore 0 helloString).2
      0).2.2.2.2 (by decide)).1 { encoding := CHARACTER_ANSI_X34, value := [] }
      (by decide)⟩

/-! ## The change-of-value export and the instance mapping -/

/-- C18: the change-of-value export does not acknowledge. For every object
instance and value list, `CharacterString_Value_Encode_Value_List` leaves the
change flag and every other stored field of every object unchanged; for an
existing instance its status and value list are those of the COV encoder
called with the stored present value and the flags in-alarm = false, fault =
false, overridden = false, out-of-service = the stored flag; for an instance
that does not exist it returns false and leaves the value list alone. -/
theorem encode_value_list (cfg : Config) (st : Store) (object_instance : Nat)
    (value_list : Option (List BACNET_PROPERTY_VALUE)) :
    (CharacterString_Value_Encode_Value_List cfg st object_instance value_list).store = st ∧
    (object_instance < cfg.MAX_CHARACTERSTRING_VALUES →
      (CharacterString_Value_Encode_Value_List cfg st object_instance value_list).status =
        (cov_value_list_encode_character_string value_list
          (st.Present_Value object_instance) false false false
          (st.Out_Of_Service object_instance)).1 ∧
      (CharacterString_Value_Encode_Value_List cfg st object_instance value_list).value_list =
        (cov_value_list_encode_character_string value_list
          (st.Present_Value object_instance) false false false
          (st.Out_Of_Service object_instance)).2) ∧
    (cfg.MAX_CHARACTERSTRING_VALUES ≤ object_instance →
      (CharacterString_Value_Encode_Value_List cfg st object_instance value_list).status =
        false ∧
      (CharacterString_Value_Encode_Value_List cfg st object_instance value_list).value_list =
        value_list) := by
  refine ⟨?_, ?_, ?_⟩
  · unfold CharacterString_Value_Encode_Value_List
    simp only
    split_ifs <;> rfl
  · intro hi
    simp [CharacterString_Value_Encode_Value_List, instance_to_index_of_lt cfg _ hi, hi]
  · intro hi
    simp [CharacterString_Value_Encode_Value_List, instance_to_index_of_ge cfg _ hi]

/-- C18 at a concrete input: the export for object 0 of a store whose change
flag is set by the write of "Hello". -/
theorem encode_value_list_witness :
    (CharacterString_Value_Encode_Value_List sampleConfig
      (CharacterString_Value_Present_Value_Set sampleConfig emptyStore 0 helloString).2 0
      (some [])).status = true ∧
    (CharacterString_Value_Encode_Value_List sampleConfig
      (CharacterString_Value_Present_Value_Set sampleConfig emptyStore 0 helloString).2 0
      (some [])).value_list =
      some
        [{ propertyIdentifier := PROP_PRESENT_VALUE,
           value := BACNET_APPLICATION_DATA_VALUE.Character_String helloString },
         { propertyIdentifier := PROP_STATUS_FLAGS,
           value := BACNET_APPLICATION_DATA_VALUE.Bit_String
             { bits := [false, false, false, false] } }] ∧
    (CharacterString_Value_Encode_Value_List sampleConfig
      (CharacterString_Value_Present_Value_Set sampleConfig emptyStore 0 helloString).2 0
      (some [])).store.Changed 0 = true ∧
    (CharacterString_Value_Encode_Value_List sampleConfig emptyStore 2 (some [])).status
      = false :=
  ⟨((encode_value_list sampleConfig
      (CharacterString_Value_Present_Value_Set sampleConfig emptyStore 0 helloString).2 0
      (some [])).2.1 (by decide)).1,
   ((encode_value_list sampleConfig
      (CharacterString_Value_Present_Value_Set sampleConfig emptyStore 0 helloString).2 0
      (some [])).2.1 (by decide)).2,
   by decide,
   ((encode_value_list sampleConfig emptyStore 2 (some [])).2.2 (by decide)).1⟩

/-- C19: the instance/index mapping. For every instance number `n`,
`CharacterString_Value_Instance_To_Index` gives `n` when `n` is below
`MAX_CHARACTERSTRING_VALUES` and otherwise the out-of-range value
`MAX_CHARACTERSTRING_VALUES`; `CharacterString_Value_Valid_Instance` is true
exactly when `n` is below `CharacterString_Value_Count`; and for every valid
`n` the index mapped back by `CharacterString_Value_Index_To_Instance` is
`n`. -/
theorem instance_index_mapping (cfg : Config) (n : Nat) :
    (n < cfg.MAX_CHARACTERSTRING_VALUES →
      CharacterString_Value_Instance_To_Index cfg n = n) ∧
    (¬ n < cfg.MAX_CHARACTERSTRING_VALUES →
      CharacterString_Value_Instance_To_Index cfg n = cfg.MAX_CHARACTERSTRING_VALUES) ∧
    (CharacterString_Value_Valid_Instance cfg n = true ↔
      n < CharacterString_Value_Count cfg) ∧
    (CharacterString_Value_Valid_Instance cfg n = true →
      CharacterString_Value_Index_To_Instance
        (CharacterString_Value_Instance_To_Index cfg n) = n) := by
  have hv : CharacterString_Value_Valid_Instance cfg n = true ↔
      n < cfg.MAX_CHARACTERSTRING_VALUES := by
    by_cases h : n < cfg.MAX_CHARACTERSTRING_VALUES
    · simp [CharacterString_Value_Valid_Instance, instance_to_index_of_lt cfg _ h, h]
    · simp [CharacterString_Value_Valid_Instance,
        instance_to_index_of_ge cfg _ (Nat.le_of_not_lt h), h]
  refine ⟨fun h => instance_to_index_of_lt cfg n h,
    fun h => instance_to_index_of_ge cfg n (Nat.le_of_not_lt h), hv, ?_⟩
  intro h
  rw [instance_to_index_of_lt cfg n (hv.mp h)]
  rfl

/-- C19 at concrete inputs: instances 1 and 7 in a build with two objects. -/
theorem instance_index_mapping_witness :
    CharacterString_Value_Instance_To_Index sampleConfig 1 = 1 ∧
    CharacterString_Value_Instance_To_Index sampleConfig 7 = 2 ∧
    CharacterString_Value_Index_To_Instance
      (CharacterString_Value_Instance_To_Index sampleConfig 1) = 1 :=
  ⟨(instance_index_mapping sampleConfig 1).1 (by decide),
   (instance_index_mapping sampleConfig 7).2.1 (by decide),
   (instance_index_mapping sampleConfig 1).2.2.2 (by decide)⟩

theorem present_value_set_changed_monotone (cfg : Config) (st : Store) (i : Nat)
    (v : BACNET_CHARACTER_STRING) (j : Nat) (h : st.Changed j = true) :
    (CharacterString_Value_Present_Value_Set cfg st i v).2.Changed j = true := by
  unfold CharacterString_Value_Present_Value_Set
  simp only
  split_ifs with h1 h2
  · by_cases hj : j = CharacterString_Value_Instance_To_Index cfg i
    · subst hj; simp
    · simp [Function.update_noteq hj, h]
  · exact h
  · exact h

theorem out_of_service_set_changed_monotone (cfg : Config) (st : Store) (i : Nat)
    (b : Bool) (j : Nat) (h : st.Changed j = true) :
    (CharacterString_Value_Out_Of_Service_Set cfg st i b).Changed j = true := by
  unfold CharacterString_Value_Out_Of_Service_Set
  simp only
  split_ifs with h1 h2
  · by_cases hj : j = CharacterString_Value_Instance_To_Index cfg i
    · subst hj; simp
    · simp [Function.update_noteq hj, h]
  · exact h
  · exact h

/-- A read returns the store it was given. -/
theorem read_property_store (cfg : Config) (st : Store)
    (rp : Option BACNET_READ_PROPERTY_DATA) :
    (CharacterString_Value_Read_Property cfg st rp).store = st := by
  cases rp with
  | none => rfl
  | some rpdata =>
    simp only [CharacterString_Value_Read_Property]
    split
    · rfl
    · split_ifs <;> rfl

/-- No operation other than the acknowledgement and the initialisation clears
a change flag: a flag that is set before a read, a write, a call of a setter
or the change-of-value export is set after it. -/
theorem changed_flag_never_cleared (cfg : Config) (st : Store) (j : Nat)
    (h : st.Changed j = true) :
    (∀ rp, (CharacterString_Value_Read_Property cfg st rp).store.Changed j = true) ∧
    (∀ wp, (CharacterString_Value_Write_Property cfg st wp).store.Changed j = true) ∧
    (∀ i v, (CharacterString_Value_Present_Value_Set cfg st i v).2.Changed j = true) ∧
    (∀ i text, (CharacterString_Value_Name_Set cfg st i text).2.Changed j = true) ∧
    (∀ i text, (CharacterString_Value_Description_Set cfg st i text).2.Changed j = true) ∧
    (∀ i value_list,
      (CharacterString_Value_Encode_Value_List cfg st i value_list).store.Changed j
        = true) := by
  refine ⟨?_, ?_, fun i v => present_value_set_changed_monotone cfg st i v j h, ?_, ?_, ?_⟩
  · intro rp
    rw [read_property_store]; exact h
  · intro wp
    cases wp with
    | none => exact h
    | some wp_data =>
      by_cases h0 : wp_data.application_data_len = 0
      · simp [CharacterString_Value_Write_Property, h0, h]
      · cases hdec : bacapp_decode_application_data cfg wp_data.application_data
            wp_data.application_data_len with
        | none => simp [CharacterString_Value_Write_Property, h0, hdec, h]
        | some r =>
          obtain ⟨n, value⟩ := r
          by_cases hinst : wp_data.object_instance < cfg.MAX_CHARACTERSTRING_VALUES
          · rw [write_property_decoded cfg st wp_data n value hinst hdec]
            simp only [Write_Property_switch]
            split_ifs
            all_goals first
              | exact h
              | exact present_value_set_changed_monotone cfg st _ _ j h
              | exact out_of_service_set_changed_monotone cfg st _ _ j h
          · simp [CharacterString_Value_Write_Property, h0, hdec,
              instance_to_index_of_ge cfg _ (Nat.le_of_not_lt hinst), h]
  · intro i text
    unfold CharacterString_Value_Name_Set
    simp only
    split_ifs
    · cases text <;> exact h
    · exact h
  · intro i text
    unfold CharacterString_Value_Description_Set
    simp only
    split_ifs
    · cases text <;> exact h
    · exact h
  · intro i value_list
    unfold CharacterString_Value_Encode_Value_List
    simp only
    split_ifs <;> exact h

/-- C20: the change-flag invariant. For every store and every operation other
than `CharacterString_Value_Change_Of_Value_Clear` and
`CharacterString_Value_Init` (a read, a write, the present-value setter, the
name and description setters and the change-of-value export; the getters
return no store), a change flag that is true before the operation is true
after it. And a `CharacterString_Value_Write_Property` call turns the change
flag of an object from false to true only if the present value or the
out-of-service flag of that object after the call differs from the one before
the call. -/
theorem change_flag_invariant (cfg : Config) (st : Store) (j : Nat) :
    (st.Changed j = true →
      (∀ rp, (CharacterString_Value_Read_Property cfg st rp).store.Changed j = true) ∧
      (∀ wp, (CharacterString_Value_Write_Property cfg st wp).store.Changed j = true) ∧
      (∀ i v, (CharacterString_Value_Present_Value_Set cfg st i v).2.Changed j = true) ∧
      (∀ i text, (CharacterString_Value_Name_Set cfg st i text).2.Changed j = true) ∧
      (∀ i text,
        (CharacterString_Value_Description_Set cfg st i text).2.Changed j = true) ∧
      (∀ i value_list,
        (CharacterString_Value_Encode_Value_List cfg st i value_list).store.Changed j
          = true)) ∧
    (∀ wp, st.Changed j = false →
      (CharacterString_Value_Write_Property cfg st wp).store.Changed j = true →
      (CharacterString_Value_Write_Property cfg st wp).store.Present_Value j ≠
          st.Present_Value j ∨
        (CharacterString_Value_Write_Property cfg st wp).store.Out_Of_Service j ≠
          st.Out_Of_Service j) := by
  refine ⟨changed_flag_never_cleared cfg st j, ?_⟩
  intro wp hbefore hafter
  cases wp with
  | none =>
    have hs : (CharacterString_Value_Write_Property cfg st none).store = st := rfl
    rw [hs, hbefore] at hafter
    exact absurd hafter (by simp)
  | some wp =>
    rcases write_property_store_cases cfg st wp with h | ⟨s, _, hs⟩ | ⟨b, _, hb⟩
    · rw [h, hbefore] at hafter
      exact absurd hafter (by simp)
    · rw [hs] at hafter ⊢
      left
      cases hsame : characterstring_same (st.Present_Value wp.object_instance) s
      · simp only [hsame, Bool.false_eq_true, if_false] at hafter
        by_cases hj : j = wp.object_instance
        · subst hj
          simp only [Function.update_same]
          intro heq
          rw [(characterstring_same_iff _ _).mpr heq.symm] at hsame
          exact absurd hsame (by simp)
        · rw [Function.update_noteq hj, hbefore] at hafter
          exact absurd hafter (by simp)
      · simp only [hsame, if_true] at hafter
        rw [hbefore] at hafter
        exact absurd hafter (by simp)
    · rw [hb] at hafter ⊢
      right
      cases hne : st.Out_Of_Service wp.object_instance != b
      · simp only [hne, Bool.false_eq_true, if_false] at hafter
        rw [hbefore] at hafter
        exact absurd hafter (by simp)
      · simp only [hne, if_true] at hafter
        by_cases hj : j = wp.object_instance
        · subst hj
          simp only [Function.update_same]
          intro heq
          rw [heq] at hne
          simp at hne
        · rw [Function.update_noteq hj, hbefore] at hafter
          exact absurd hafter (by simp)

/-- C20 at concrete inputs, in the store that the initialisation leaves: the
write of "Hello" raises the flag of object 0 and changes its present value; a
second write of "Hello" keeps the raised flag. -/
theorem change_flag_invariant_witness :
    ((CharacterString_Value_Write_Property sampleConfig
      (CharacterString_Value_Init sampleConfig emptyStore)
      (some helloWrite)).store.Present_Value 0 ≠
        (CharacterString_Value_Init sampleConfig emptyStore).Present_Value 0 ∨
      (CharacterString_Value_Write_Property sampleConfig
        (CharacterString_Value_Init sampleConfig emptyStore)
        (some helloWrite)).store.Out_Of_Service 0 ≠
        (CharacterString_Value_Init sampleConfig emptyStore).Out_Of_Service 0) ∧
    (CharacterString_Value_Write_Property sampleConfig
      (CharacterString_Value_Write_Property sampleConfig
        (CharacterString_Value_Init sampleConfig emptyStore) (some helloWrite)).store
      (some helloWrite)).store.Changed 0 = true :=
  ⟨(change_flag_invariant sampleConfig
      (CharacterString_Value_Init sampleConfig emptyStore) 0).2 (some helloWrite)
      (by decide) (by decide),
   ((change_flag_invariant sampleConfig
      (CharacterString_Value_Write_Property sampleConfig
        (CharacterString_Value_Init sampleConfig emptyStore) (some helloWrite)).store
      0).1 (by decide)).2.1 (some helloWrite)⟩

/-! ## The atomicity of the setter and the purity of reads -/

/-- A read does not look at the change flags: with other change flags in the
store it returns the same length and leaves the same request. -/
theorem read_property_ignores_changed (cfg : Config) (st : Store) (changed : Nat → Bool)
    (rp : Option BACNET_READ_PROPERTY_DATA) :
    (CharacterString_Value_Read_Property cfg { st with Changed := changed } rp).apdu_len =
      (CharacterString_Value_Read_Property cfg st rp).apdu_len ∧
    (CharacterString_Value_Read_Property cfg { st with Changed := changed } rp).rpdata =
      (CharacterString_Value_Read_Property cfg st rp).rpdata := by
  cases rp with
  | none => exact ⟨rfl, rfl⟩
  | some rpdata =>
    cases hbuf : rpdata.application_data with
    | none => simp [CharacterString_Value_Read_Property, hbuf]
    | some apdu =>
      have hsw : ∀ i cs, Read_Property_switch cfg { st with Changed := changed } rpdata apdu
          i cs = Read_Property_switch cfg st rpdata apdu i cs := fun _ _ => rfl
      simp only [CharacterString_Value_Read_Property, hbuf, hsw]
      split_ifs <;> exact ⟨rfl, rfl⟩

/-- The request after a read differs from the request before it at most in
the output buffer and the two error fields. -/
theorem read_property_request_frame (cfg : Config) (st : Store)
    (rpdata : BACNET_READ_PROPERTY_DATA) :
    ∃ rp2, (CharacterString_Value_Read_Property cfg st (some rpdata)).rpdata = some rp2 ∧
      rp2.object_type = rpdata.object_type ∧
      rp2.object_instance = rpdata.object_instance ∧
      rp2.object_property = rpdata.object_property ∧
      rp2.array_index = rpdata.array_index ∧
      rp2.application_data_len = rpdata.application_data_len := by
  cases hbuf : rpdata.application_data with
  | none => exact ⟨rpdata, by simp [CharacterString_Value_Read_Property, hbuf]⟩
  | some apdu =>
    have hfr : ∀ i cs,
        (Read_Property_switch cfg st rpdata apdu i cs).2.2.object_type =
          rpdata.object_type ∧
        (Read_Property_switch cfg st rpdata apdu i cs).2.2.object_instance =
          rpdata.object_instance ∧
        (Read_Property_switch cfg st rpdata apdu i cs).2.2.object_property =
          rpdata.object_property ∧
        (Read_Property_switch cfg st rpdata apdu i cs).2.2.array_index =
          rpdata.array_index ∧
        (Read_Property_switch cfg st rpdata apdu i cs).2.2.application_data_len =
          rpdata.application_data_len := by
      intro i cs
      by_cases hprop : rpdata.object_property = PROP_OBJECT_IDENTIFIER ∨
          rpdata.object_property = PROP_OBJECT_NAME ∨
          rpdata.object_property = PROP_DESCRIPTION ∨
          rpdata.object_property = PROP_OBJECT_TYPE ∨
          rpdata.object_property = PROP_PRESENT_VALUE ∨
          rpdata.object_property = PROP_STATUS_FLAGS ∨
          rpdata.object_property = PROP_EVENT_STATE ∨
          rpdata.object_property = PROP_OUT_OF_SERVICE
      · rw [(read_switch_handled cfg st rpdata apdu i cs hprop).2]
        exact ⟨rfl, rfl, rfl, rfl, rfl⟩
      · rw [read_switch_unhandled cfg st rpdata apdu i cs hprop]
        exact ⟨rfl, rfl, rfl, rfl, rfl⟩
    simp only [CharacterString_Value_Read_Property, hbuf]
    split_ifs
    · exact ⟨_, rfl, rfl, rfl, rfl, rfl, rfl⟩
    · exact ⟨_, rfl, rfl, rfl, rfl, rfl, rfl⟩
    · exact ⟨_, rfl, hfr _ _⟩
    · exact ⟨_, rfl, hfr _ _⟩

/-- C22: reads are pure with respect to the store. For every read request
(any instance, property identifier, array index and buffer, the null request
included) `CharacterString_Value_Read_Property` leaves the present value,
out-of-service flag, change flag, name and description of every object as they
were; in the request it writes at most the output buffer and `error_class` /
`error_code`; and its result is a function of the request and the store
alone: calls on equal stores with equal requests return the same length and
leave the same request and buffer, whatever the change flags are. -/
theorem read_property_pure (cfg : Config) (st : Store)
    (rp : Option BACNET_READ_PROPERTY_DATA) :
    (CharacterString_Value_Read_Property cfg st rp).store = st ∧
    (∀ rpdata, rp = some rpdata →
      ∃ rp2, (CharacterString_Value_Read_Property cfg st rp).rpdata = some rp2 ∧
        rp2.object_type = rpdata.object_type ∧
        rp2.object_instance = rpdata.object_instance ∧
        rp2.object_property = rpdata.object_property ∧
        rp2.array_index = rpdata.array_index ∧
        rp2.application_data_len = rpdata.application_data_len) ∧
    (rp = none → (CharacterString_Value_Read_Property cfg st rp).rpdata = none) ∧
    (∀ (st2 : Store) (rp2 : Option BACNET_READ_PROPERTY_DATA),
      st2.Present_Value = st.Present_Value → st2.Out_Of_Service = st.Out_Of_Service →
      st2.Object_Name = st.Object_Name → st2.Object_Description = st.Object_Description →
      rp2 = rp →
      (CharacterString_Value_Read_Property cfg st2 rp2).apdu_len =
        (CharacterString_Value_Read_Property cfg st rp).apdu_len ∧
      (CharacterString_Value_Read_Property cfg st2 rp2).rpdata =
        (CharacterString_Value_Read_Property cfg st rp).rpdata) := by
  refine ⟨read_property_store cfg st rp, ?_, ?_, ?_⟩
  · intro rpdata h
    subst h
    exact read_property_request_frame cfg st rpdata
  · intro h
    subst h
    rfl
  · intro st2 rp2 h1 h2 h3 h4 h5
    subst h5
    have hst : st2 = { st with Changed := st2.Changed } := by
      cases st2
      cases st
      simp only at h1 h2 h3 h4
      subst h1 h2 h3 h4
      rfl
    rw [hst]
    exact read_property_ignores_changed cfg st st2.Changed rp2

/-- C22 at a concrete input: the present value of object 0 read from the store
that the write of "Hello" leaves. -/
theorem read_property_pure_witness :
    (CharacterString_Value_Read_Property sampleConfig
      (CharacterString_Value_Write_Property sampleConfig emptyStore (some helloWrite)).store
      (some presentValueRead)).store =
      (CharacterString_Value_Write_Property sampleConfig emptyStore (some helloWrite)).store ∧
    (CharacterString_Value_Read_Property sampleConfig
      (CharacterString_Value_Change_Of_Value_Clear sampleConfig
        (CharacterString_Value_Write_Property sampleConfig emptyStore
          (some helloWrite)).store 0)
      (some presentValueRead)).rpdata =
      (CharacterString_Value_Read_Property sampleConfig
        (CharacterString_Value_Write_Property sampleConfig emptyStore
          (some helloWrite)).store
        (some presentValueRead)).rpdata :=
  ⟨(read_property_pure sampleConfig
      (CharacterString_Value_Write_Property sampleConfig emptyStore (some helloWrite)).store
      (some presentValueRead)).1,
   ((read_property_pure sampleConfig
      (CharacterString_Value_Write_Property sampleConfig emptyStore (some helloWrite)).store
      (some presentValueRead)).2.2.2
      (CharacterString_Value_Change_Of_Value_Clear sampleConfig
        (CharacterString_Value_Write_Property sampleConfig emptyStore
          (some helloWrite)).store 0)
      (some presentValueRead) rfl rfl rfl rfl rfl).2⟩

end Csv
